import Mathlib

/-!
# HassleFree: access-control and lifecycle routes

A shallow embedding of the request handlers under `src/app/api` that create
bookings, move bookings, guests and vehicle entry records from one state to the
next and read the attendance ledger, and of the ledger schema in
`src/models/attendance.js`.

Conventions of the embedding:

* A MongoDB collection is a `List` of documents in storage order; `findOne` is
  the first match, `findByIdAndUpdate` rewrites the first document with that
  `_id`, `create` appends.
* An instant (`Date`) is a `Nat`, milliseconds since the epoch; `new Date()`
  inside a handler is the argument `now`.
* A handler is a pure function from the request and the store to an HTTP
  response and the store after the request.
* A thrown exception is `none` (or an explicit failure value) at the place the
  source throws, and is turned into a response where the source catches it.
-/

namespace HassleFree

/-! ## Values shared by all routes -/

/-- Hexadecimal digit test used by `ObjectId.isValid`. -/
def isHexDigit (c : Char) : Bool :=
  c.isDigit || (decide ('a' ≤ c) && decide (c ≤ 'f')) || (decide ('A' ≤ c) && decide (c ≤ 'F'))

/-- The library check `mongoose.Types.ObjectId.isValid` on a string: the
24-character hexadecimal form. (The legacy 12-byte form is not modelled; no
constant of the source has length 12.) -/
def ObjectId.isValid (s : String) : Bool :=
  s.data.length == 24 && s.data.all isHexDigit

/-- JavaScript truthiness of an optional string: `undefined`, `null` and the
empty string are falsy. -/
def truthy (s : Option String) : Bool :=
  match s with
  | none => false
  | some v => v != ""

/-- Milliseconds in a day. -/
def msPerDay : Nat := 86400000

/-- The value of date-fns `format(d, 'yyyy-MM-dd')`, as the number of the
calendar day that contains the instant `d` (two instants have the same
formatted string exactly when they have the same day number). -/
def formatYMD (d : Nat) : Nat := d / msPerDay

/-! ## Documents -/

/-- Nested `timestamps` object of a booking or a guest. -/
structure Timestamps where
  entry : Option Nat
  exit : Option Nat
deriving DecidableEq, Repr

/-- A booking document. Modelled from the spec: `models/booking` is not among
the sources; the fields are those the routes read and write. -/
structure Booking where
  _id : String
  userId : String
  amenityId : String
  societyId : String
  bookingDate : Nat
  status : String
  timestamps : Timestamps
  cancelledAt : Option Nat
  startTime : String := ""
  endTime : String := ""
  numberOfPeople : Nat := 0
deriving DecidableEq, Repr

/-- Modelled from the spec: the `status` enum of the booking schema
(`models/booking` is not among the sources), section 3 of the spec. -/
def bookingStatusEnum : List String :=
  ["pending", "confirmed", "approved", "checked-in", "checked-out", "completed",
   "cancelled", "no_show"]

/-- An amenity document, with the fields the routes populate
(`name status capacity`). -/
structure Amenity where
  _id : String
  name : String
  status : String
  capacity : Nat
  societyId : String
deriving DecidableEq, Repr

/-- A resident document, with the fields the routes read. -/
structure User where
  _id : String
  name : String
  societyId : String
  carNumbers : List String
deriving DecidableEq, Repr

/-- A guest document. Modelled from the spec: `models/guest` is not among the
sources; the fields are those the routes read and write. -/
structure Guest where
  _id : String
  userId : String
  societyId : String
  name : String
  carNo : Option String
  date : Nat
  status : String
  timestamps : Timestamps
deriving DecidableEq, Repr

/-- Modelled from the spec: the `status` enum of the guest schema
(`models/guest` is not among the sources), section 3 of the spec. -/
def guestStatusEnum : List String :=
  ["pending", "approved", "rejected", "checked-in", "checked-out"]

/-- A vehicle entry document. Modelled from the spec: `models/vehicleEntry` is
not among the sources; the fields are those `vehicle-scan/route.js` writes. -/
structure VehicleEntryLog where
  vehicleNumber : String
  entryTime : Nat
  exitTime : Option Nat
  type : String
  purpose : String
  residentId : Option String
  guestId : Option String
  capturedImage : Option String
  societyId : String
  securityGuardId : String
deriving DecidableEq, Repr

/-- A stored attendance ledger entry (`attendanceLogSchema`). -/
structure AttendanceLog where
  userId : Option String
  guestId : Option String
  bookingId : Option String
  personName : String
  timestamp : Nat
  type : String
  source : String
  location : String
  vehicleNumber : Option String
  purpose : Option String
  verificationMethod : String
  verifiedBy : Option String
  status : String
  societyId : String
deriving DecidableEq, Repr

/-- The object literal handed to `AttendanceLog.create`: every path may be
absent (`undefined`). -/
structure AttendanceInput where
  userId : Option String := none
  guestId : Option String := none
  bookingId : Option String := none
  personName : Option String := none
  timestamp : Nat
  type : Option String := none
  source : Option String := none
  location : Option String := none
  vehicleNumber : Option String := none
  purpose : Option String := none
  verificationMethod : Option String := none
  verifiedBy : Option String := none
  status : Option String := none
  societyId : Option String := none
deriving DecidableEq, Repr

/-- A staff document, with the fields the routes read. Modelled from the spec:
`models/worker` is not among the sources. -/
structure Worker where
  _id : String
  name : String
  workerID : String
  department : String
  societyId : String
deriving DecidableEq, Repr

/-- An operator profile, with the field the credential guards read. Modelled
from the spec: `models/admin` is not among the sources. -/
structure Admin where
  _id : String
  societyId : Option String
deriving DecidableEq, Repr

/-- The persistent store. -/
structure Db where
  bookings : List Booking
  amenities : List Amenity
  users : List User
  guests : List Guest
  vehicleEntries : List VehicleEntryLog
  attendance : List AttendanceLog
  workers : List Worker := []
  admins : List Admin := []
deriving DecidableEq, Repr

/-! ## The attendance ledger schema (`src/models/attendance.js`) -/

/-- Cast of an optional `ObjectId` path: an absent value is kept, a string must
be a well-formed id, otherwise the document does not validate. -/
def castObjectId (v : Option String) : Option (Option String) :=
  match v with
  | none => some none
  | some s => if ObjectId.isValid s then some (some s) else none

/-- A `required: true` string path: present and not empty. -/
def requiredString (v : Option String) : Option String :=
  match v with
  | none => none
  | some s => if s = "" then none else some s

/-- A string path with an `enum` list. -/
def inEnum (allowed : List String) (s : String) : Option String :=
  if s ∈ allowed then some s else none

/-- The `type` enum of the ledger. -/
def attendanceTypeEnum : List String := ["entry", "exit"]

/-- The `source` enum of the ledger. -/
def attendanceSourceEnum : List String :=
  ["main_gate", "amenity_checkin", "delivery_point", "manual_admin"]

/-- The `verificationMethod` enum of the ledger. -/
def verificationMethodEnum : List String :=
  ["facial_recognition", "manual", "qr_code", "override", "vehicle_plate"]

/-- The `status` enum of the ledger. -/
def attendanceStatusEnum : List String := ["verified", "failed", "manual_override"]

/-- Validation of `attendanceLogSchema`: `none` is the `ValidationError` that
`AttendanceLog.create` throws. Defaults: `source` is `main_gate`, `status` is
`verified`. -/
def validateAttendance (i : AttendanceInput) : Option AttendanceLog := do
  let userId ← castObjectId i.userId
  let guestId ← castObjectId i.guestId
  let bookingId ← castObjectId i.bookingId
  let personName ← requiredString i.personName
  let type ← (requiredString i.type).bind (inEnum attendanceTypeEnum)
  let source ← inEnum attendanceSourceEnum (i.source.getD "main_gate")
  let location ← requiredString i.location
  let verificationMethod ←
    (requiredString i.verificationMethod).bind (inEnum verificationMethodEnum)
  let verifiedBy ← castObjectId i.verifiedBy
  let status ← inEnum attendanceStatusEnum (i.status.getD "verified")
  let societyId ← (requiredString i.societyId).bind (fun s => (castObjectId (some s)).bind id)
  pure
    { userId := userId, guestId := guestId, bookingId := bookingId,
      personName := personName, timestamp := i.timestamp, type := type,
      source := source, location := location, vehicleNumber := i.vehicleNumber,
      purpose := i.purpose, verificationMethod := verificationMethod,
      verifiedBy := verifiedBy, status := status, societyId := societyId }

/-- The call `AttendanceLog.create(input)`: the store with the entry appended,
or `none` when validation throws. -/
def AttendanceLog.create (db : Db) (i : AttendanceInput) : Option Db :=
  (validateAttendance i).map (fun e => { db with attendance := db.attendance ++ [e] })

/-- A `try { await AttendanceLog.create(...) } catch { console.error(...) }`
block: `input` is `none` when building the object literal already throws; in
either failure the store is left as it was. -/
def tryCreateAttendance (db : Db) (input : Option AttendanceInput) : Db :=
  match input with
  | none => db
  | some i => (AttendanceLog.create db i).getD db

/-! ## Population of references -/

/-- The call `populate('userId', 'name')`: the referenced resident, `none`
(JavaScript `null`) when it no longer exists. -/
def populateUser (db : Db) (userId : String) : Option User :=
  db.users.find? (fun u => u._id == userId)

/-- The call `populate('amenityId', 'name status capacity')`. -/
def populateAmenity (db : Db) (amenityId : String) : Option Amenity :=
  db.amenities.find? (fun a => a._id == amenityId)

/-! ## Responses -/

/-- An HTTP response: the status code and, where the body carries one, the
booking or guest document. -/
structure Response where
  status : Nat
  booking : Option Booking := none
  guest : Option Guest := none
deriving DecidableEq, Repr

/-! ## Bearer credentials of operators -/

/-- The payload of an operator token. -/
structure AdminPayload where
  id : Option String
  societyId : Option String
deriving DecidableEq, Repr

/-- What the `Authorization` header and the library call
`verify(token, ACCESS_TOKEN_SECRET_ADMIN)` give: no token, a token `verify`
throws on, or the decoded payload. -/
inductive Bearer where
  | absent
  | rejected
  | verified (payload : AdminPayload)
deriving DecidableEq, Repr

/-- The record `verifyAdminToken` returns. -/
structure AuthResult where
  isValid : Bool
  status : Nat
  payload : Option AdminPayload
deriving DecidableEq, Repr

/-! ## Updates on stored documents -/

/-- Rewrite the first element that satisfies `p` (the `updateOne` discipline of
`findByIdAndUpdate`, `findOneAndUpdate` and `save`). -/
def updateFirst {α : Type} (p : α → Bool) (f : α → α) : List α → List α
  | [] => []
  | x :: xs => if p x then f x :: xs else x :: updateFirst p f xs

/-- The `$set` document built for a booking: `status` is always set, the other
keys only when present. `some none` sets a path to `null`. -/
structure BookingUpdate where
  status : String
  timestampsEntry : Option (Option Nat) := none
  timestampsExit : Option (Option Nat) := none
  cancelledAt : Option Nat := none
deriving DecidableEq, Repr

/-- Effect of `$set: updateData` on one booking. -/
def BookingUpdate.applyTo (u : BookingUpdate) (b : Booking) : Booking :=
  { b with
    status := u.status,
    timestamps :=
      { entry := u.timestampsEntry.getD b.timestamps.entry,
        exit := u.timestampsExit.getD b.timestamps.exit },
    cancelledAt := (u.cancelledAt.map some).getD b.cancelledAt }

/-- The store after the first booking with the given `_id` has been rewritten
by `f`. -/
def Db.updateBooking (db : Db) (id : String) (f : Booking → Booking) : Db :=
  { db with bookings := updateFirst (fun b => b._id == id) f db.bookings }

/-- The store after the first guest with the given `_id` has been rewritten by
`f`. -/
def Db.updateGuest (db : Db) (id : String) (f : Guest → Guest) : Db :=
  { db with guests := updateFirst (fun g => g._id == id) f db.guests }

/-- The call `Booking.findById(id)`. -/
def Booking.findById (db : Db) (id : String) : Option Booking :=
  db.bookings.find? (fun b => b._id == id)

/-- The call `Booking.findByIdAndUpdate(id, { $set: updateData },
{ new: true, runValidators: true })`: `none` is the `ValidationError` thrown
when the new status is outside the schema enum; otherwise the updated document
(`null` when no booking has the id) and the store after the update. -/
def Booking.findByIdAndUpdate (db : Db) (id : String) (u : BookingUpdate) :
    Option (Option Booking × Db) :=
  if u.status ∈ bookingStatusEnum then
    some ((Booking.findById db id).map u.applyTo, db.updateBooking id u.applyTo)
  else none

/-- JavaScript `a || b` on strings: the first operand unless it is empty. -/
def orElse (a b : String) : String := if a = "" then b else a

/-- The last four characters of a string, `s.slice(-4)`. -/
def sliceLast4 (s : String) : String := String.mk (s.data.drop (s.data.length - 4))

namespace AdminBookingStatus

/-! ## `src/app/api/admin/bookings/[id]/status/route.js` -/

/-- The helper `verifyAdminToken(req)` of the booking status route: the payload
must carry both `id` and `societyId`. -/
def verifyAdminToken (token : Bearer) : AuthResult :=
  match token with
  | .absent => { isValid := false, status := 401, payload := none }
  | .rejected => { isValid := false, status := 401, payload := none }
  | .verified p =>
    if !truthy p.id || !truthy p.societyId then
      { isValid := false, status := 401, payload := none }
    else { isValid := true, status := 200, payload := some p }

/-- Statuses an operator can set through this endpoint. -/
def ALLOWED_BOOKING_STATUSES_BY_ADMIN : List String :=
  ["checked-in", "checked-out", "cancelled", "no_show", "confirmed"]

/-- The request: bearer credential, the `id` route parameter and the `status`
field of the JSON body. -/
structure Request where
  authorization : Bearer
  id : Option String
  status : Option String
deriving DecidableEq, Repr

/-- The query of step 4: `Booking.findOne({ _id: id, societyId: adminSocietyId })`. -/
def findOne (db : Db) (id adminSocietyId : String) : Option Booking :=
  db.bookings.find? (fun b => b._id == id && b.societyId == adminSocietyId)

/-- Step 6 of the handler: the `$set` document for the requested status. -/
def prepareUpdate (status : String) (booking : Booking) (now : Nat) : BookingUpdate :=
  let updateData : BookingUpdate := { status := status }
  let updateData :=
    if status = "checked-in" then
      { updateData with timestampsEntry := some (some now), timestampsExit := some none }
    else updateData
  let updateData :=
    if status = "checked-out" then
      let updateData :=
        if booking.timestamps.entry.isNone then
          { updateData with timestampsEntry := some (some now) }
        else updateData
      { updateData with timestampsExit := some (some now) }
    else updateData
  if status = "cancelled" then { updateData with cancelledAt := some now } else updateData

/-- Step 8 of the handler: the object literal for `AttendanceLog.create`.
`booking.userId._id` throws when the populated resident is `null`, which is
`none` here. The fallback names stand for the template strings of the source
(the text of a populated document is abbreviated to its id). -/
def attendanceInput (status : String) (booking : Booking) (user : Option User)
    (amenity : Option Amenity) (operatorId : String) (now : Nat) : Option AttendanceInput :=
  let userName :=
    match user with
    | some u => orElse u.name ("User_" ++ sliceLast4 u._id)
    | none => "User_undefined"
  let amenityName :=
    match amenity with
    | some a => orElse a.name ("Amenity_" ++ sliceLast4 a._id)
    | none => "Amenity_undefined"
  match user with
  | none => none
  | some u =>
    some
      { userId := some u._id,
        personName := some userName,
        bookingId := some booking._id,
        societyId := some booking.societyId,
        timestamp := now,
        type := some (if status = "checked-in" then "entry" else "exit"),
        source := some "amenity_checkin",
        location := some amenityName,
        verificationMethod := some "manual_admin",
        verifiedBy := some operatorId,
        status := some "verified" }

/-- Steps 5 to 9 of the handler, for the booking that step 4 found. -/
def applyStatus (db : Db) (id operatorId status : String) (booking : Booking) (now : Nat) :
    Response × Db :=
  let user := populateUser db booking.userId
  let amenity := populateAmenity db booking.amenityId
  let currentStatus := booking.status
  -- 5. transition rules
  if status = currentStatus then ({ status := 400 }, db) else
  if status = "checked-in" ∧ ¬ (currentStatus ∈ ["confirmed", "approved"]) then
    ({ status := 400 }, db) else
  if status = "checked-out" ∧ currentStatus ≠ "checked-in" then ({ status := 400 }, db) else
  if status = "no_show" ∧ ¬ (currentStatus ∈ ["confirmed", "approved"]) then
    ({ status := 400 }, db) else
  if status = "cancelled" ∧ currentStatus ∈ ["checked-out", "completed", "no_show", "cancelled"]
    then ({ status := 400 }, db) else
  if status = "checked-in" ∧ amenity.map (fun a => a.status) ≠ some "operational" then
    ({ status := 400 }, db) else
  -- 6. update data and timestamps
  let updateData := prepareUpdate status booking now
  -- 7. update the booking document
  match Booking.findByIdAndUpdate db id updateData with
  | none => ({ status := 400 }, db)
  | some (updatedBooking, db1) =>
    -- 8. attendance log for check-in and check-out
    let db2 :=
      if status = "checked-in" ∨ status = "checked-out" then
        tryCreateAttendance db1 (attendanceInput status booking user amenity operatorId now)
      else db1
    -- 9. success
    ({ status := 200, booking := updatedBooking }, db2)

/-- The handler `PUT(req, { params })`. -/
def PUT (req : Request) (now : Nat) (db : Db) : Response × Db :=
  -- 1. verify the operator token
  let authResult := verifyAdminToken req.authorization
  if !authResult.isValid then ({ status := authResult.status }, db) else
  let adminSocietyId := (authResult.payload.bind (fun p => p.societyId)).getD ""
  let operatorId := (authResult.payload.bind (fun p => p.id)).getD ""
  -- 2. validate the booking id
  let id := req.id.getD ""
  if !truthy req.id || !ObjectId.isValid id then ({ status := 400 }, db) else
  -- 3. the new status
  let status := req.status.getD ""
  if !truthy req.status || !(ALLOWED_BOOKING_STATUSES_BY_ADMIN.contains status) then
    ({ status := 400 }, db) else
  -- 4. find the booking inside the operator's society
  match findOne db id adminSocietyId with
  | none => ({ status := 404 }, db)
  | some booking => applyStatus db id operatorId status booking now

/-- The request of an operator whose verified token carries the id `op` and
the society `soc`, for the booking `id` and the new status `status`. -/
def operatorRequest (op soc id status : String) : Request :=
  { authorization := .verified { id := some op, societyId := some soc },
    id := some id, status := some status }

end AdminBookingStatus

/-! ## Hydrated documents and `save()` -/

/-- A booking document as a handler holds it after a query: the schema paths,
and the own properties that an assignment `doc[key] = value` creates on the
JavaScript object when `key` is not a top-level schema path. The key
`'timestamps.entry'` is such a key: it is one property name with a dot in it,
not the path `timestamps` followed by `entry` (which `doc.timestamps.entry = v`
or `doc.set('timestamps.entry', v)` would set). Change tracking sees only the
setters of schema paths, so `save()` writes the schema paths and nothing of the
own properties. -/
structure BookingDoc where
  paths : Booking
  ownProps : List (String × Nat)
deriving DecidableEq, Repr

/-- The assignment `booking.status = value`, a schema path. -/
def BookingDoc.setStatus (d : BookingDoc) (value : String) : BookingDoc :=
  { d with paths := { d.paths with status := value } }

/-- The assignment `booking[key] = value` for a key that is no top-level schema
path: an own property of the object, invisible to change tracking. -/
def BookingDoc.setOwnProp (d : BookingDoc) (key : String) (value : Nat) : BookingDoc :=
  { d with ownProps := (key, value) :: d.ownProps }

/-- The call `booking.save()`: validates the schema paths (`none` is the
`ValidationError`) and writes them to the stored document with the same `_id`;
own properties are not written. -/
def BookingDoc.save (db : Db) (d : BookingDoc) : Option Db :=
  if d.paths.status ∈ bookingStatusEnum then
    some (db.updateBooking d.paths._id (fun _ => d.paths))
  else none

/-- A guest document as a handler holds it after a query; see `BookingDoc`. -/
structure GuestDoc where
  paths : Guest
  ownProps : List (String × Nat)
deriving DecidableEq, Repr

/-- The call `guest.save()`; see `BookingDoc.save`. -/
def GuestDoc.save (db : Db) (d : GuestDoc) : Option Db :=
  if d.paths.status ∈ guestStatusEnum then
    some (db.updateGuest d.paths._id (fun _ => d.paths))
  else none

/-! ## JSON text of a QR credential -/

/-- A field value of a parsed JSON object. `other` stands for an array or a
nested object. -/
inductive JsonValue where
  | null
  | bool (b : Bool)
  | num (n : Int)
  | str (s : String)
  | other
deriving DecidableEq, Repr

/-- A parsed JSON document: a bare value or an object with its fields. -/
inductive Json where
  | value (v : JsonValue)
  | object (fields : List (String × JsonValue))
deriving DecidableEq, Repr

/-- A string as the library pair `JSON.stringify` / `JSON.parse` sees it:
either text on which `JSON.parse` throws a `SyntaxError`, or the text of a
document. -/
inductive JsonText where
  | unparsable (raw : String)
  | text (doc : Json)
deriving DecidableEq, Repr

/-- The library call `JSON.parse`; `none` is the thrown `SyntaxError`. -/
def JSON.parse (s : JsonText) : Option Json :=
  match s with
  | .unparsable _ => none
  | .text doc => some doc

/-- The library call `JSON.stringify` on a document. -/
def JSON.stringify (doc : Json) : JsonText := .text doc

/-- Property access `qrData[key]`: `none` is `undefined`. -/
def Json.field (key : String) (fields : List (String × JsonValue)) : Option JsonValue :=
  (fields.find? (fun kv => kv.1 == key)).map (fun kv => kv.2)

/-- JavaScript truthiness of a property value. -/
def JsonValue.truthy (v : Option JsonValue) : Bool :=
  match v with
  | none => false
  | some .null => false
  | some (.bool b) => b
  | some (.num n) => n != 0
  | some (.str s) => s != ""
  | some .other => true

/-- The check `mongoose.Types.ObjectId.isValid` on a property value, with the
string it then denotes. (Only the string form is modelled.) -/
def JsonValue.objectId (v : Option JsonValue) : Option String :=
  match v with
  | some (.str s) => if ObjectId.isValid s then some s else none
  | _ => none

namespace AmenityCheckin

/-! ## `src/app/api/amenities/checkin/route.js` -/

/-- The stub `verifyGuardToken(req)`: every request is accepted as the same
guard device. -/
def verifyGuardToken : Bool × String := (true, "GUARD_DEVICE_001")

/-- The request body: `qrDataString`, absent or a string. -/
structure Request where
  qrDataString : Option JsonText
deriving DecidableEq, Repr

/-- Step 3: parse the QR data. `none` is every path into the `catch` of the
parse block: a syntax error, a property access on `null`, a type other than
`AMENITY_BOOKING`, a falsy or ill-formed `bookingId`. The result is
`qrData.bookingId`. -/
def parseQr (qrDataString : JsonText) : Option String :=
  match JSON.parse qrDataString with
  | none => none
  | some (.value .null) => none
  | some (.value _) => none
  | some (.object fields) =>
    if Json.field "type" fields ≠ some (.str "AMENITY_BOOKING")
        || !JsonValue.truthy (Json.field "bookingId" fields)
        || (JsonValue.objectId (Json.field "bookingId" fields)).isNone then none
    else JsonValue.objectId (Json.field "bookingId" fields)

/-- Step 6: the object literal for `AttendanceLog.create`; `booking.userId._id`
throws when the populated resident is `null` (`none` here). The amenity is not
`null` at this point. -/
def attendanceInput (booking : Booking) (user : Option User) (amenity : Option Amenity)
    (operatorId : String) (now : Nat) : Option AttendanceInput :=
  match user, amenity with
  | some u, some a =>
    some
      { userId := some u._id,
        personName := some u.name,
        bookingId := some booking._id,
        societyId := some booking.societyId,
        timestamp := now,
        type := some "entry",
        source := some "amenity_checkin",
        location := some (orElse a.name "Amenity"),
        verificationMethod := some "qr_code",
        verifiedBy := some operatorId,
        status := some "verified" }
  | _, _ => none

/-- Steps 4 to 7 of the handler from the point where the `await` of
`Booking.findById(...).populate(...).populate(...)` has returned the document
`found` with its populated resident and amenity: the checks on that document,
then `booking.save()` and the ledger write on the store `db` as it is when
`save()` is reached. -/
def afterFind (found : Booking) (user : Option User) (amenity : Option Amenity)
    (operatorId : String) (now : Nat) (db : Db) : Response × Db :=
  let booking : BookingDoc := { paths := found, ownProps := [] }
  if ¬ (booking.paths.status ∈ ["confirmed", "approved"]) then ({ status := 400 }, db) else
  if amenity.map (fun a => a.status) ≠ some "operational" then ({ status := 400 }, db) else
  let bookingDate := booking.paths.bookingDate
  if formatYMD now ≠ formatYMD bookingDate then ({ status := 400 }, db) else
  -- 5. update the booking
  let booking := booking.setStatus "checked-in"
  let booking := booking.setOwnProp "timestamps.entry" now
  match booking.save db with
  | none => ({ status := 500 }, db)
  | some db1 =>
    -- 6. attendance log, failures swallowed
    let db2 := tryCreateAttendance db1 (attendanceInput booking.paths user amenity operatorId now)
    -- 7. the response reads `booking.userId.name`, which throws on `null`
    match user with
    | none => ({ status := 500 }, db2)
    | some _ => ({ status := 200 }, db2)

/-- The handler `POST(req)`. -/
def POST (req : Request) (now : Nat) (db : Db) : Response × Db :=
  -- 1. authenticate the guard device
  let authResult := verifyGuardToken
  if !authResult.1 then ({ status := 401 }, db) else
  let operatorId := authResult.2
  -- 2. the QR data of the body
  match req.qrDataString with
  | none => ({ status := 400 }, db)
  | some qrDataString =>
    if qrDataString = .unparsable "" then ({ status := 400 }, db) else
    -- 3. parse it
    match parseQr qrDataString with
    | none => ({ status := 400 }, db)
    | some bookingId =>
      -- 4. find the booking and validate
      match Booking.findById db bookingId with
      | none => ({ status := 404 }, db)
      | some found =>
        afterFind found (populateUser db found.userId) (populateAmenity db found.amenityId)
          operatorId now db

end AmenityCheckin

namespace AmenityCheckout

/-! ## `src/app/api/amenities/checkout/route.js` -/

/-- The stub `verifyGuardToken(req)` of the check-out route. -/
def verifyGuardToken : Bool × String := (true, "GUARD_002")

/-- The request body: `bookingId`. -/
structure Request where
  bookingId : Option String
deriving DecidableEq, Repr

/-- Step 5: the object literal for `AttendanceLog.create`. The booking is not
populated here, so `booking.amenityId.name` is `undefined` and the location is
the fallback text; `personName`, `source` and `bookingId` are not given. -/
def attendanceInput (booking : Booking) (guardId : String) (now : Nat) : Option AttendanceInput :=
  some
    { userId := some booking.userId,
      societyId := some booking.societyId,
      timestamp := now,
      type := some "exit",
      location := some "Amenity Check-out",
      verificationMethod := some "qr_code",
      verifiedBy := some guardId,
      status := some "verified" }

/-- The handler `POST(req)`. -/
def POST (req : Request) (now : Nat) (db : Db) : Response × Db :=
  -- 1. authenticate the guard device
  let authResult := verifyGuardToken
  if !authResult.1 then ({ status := 401 }, db) else
  let guardId := authResult.2
  -- 2. the booking id of the body
  let bookingId := req.bookingId.getD ""
  if !truthy req.bookingId || !ObjectId.isValid bookingId then ({ status := 400 }, db) else
  -- 3. find the booking and validate
  match Booking.findById db bookingId with
  | none => ({ status := 404 }, db)
  | some found =>
    let booking : BookingDoc := { paths := found, ownProps := [] }
    if booking.paths.status ≠ "checked-in" then ({ status := 400 }, db) else
    -- 4. update status and exit time
    let booking := booking.setStatus "checked-out"
    let booking := booking.setOwnProp "timestamps.exit" now
    match booking.save db with
    | none => ({ status := 500 }, db)
    | some db1 =>
      -- 5. attendance log, failures swallowed
      let db2 := tryCreateAttendance db1 (attendanceInput booking.paths guardId now)
      -- 6. success
      ({ status := 200 }, db2)

end AmenityCheckout

/-- The `$set` document built for a guest. -/
structure GuestUpdate where
  status : String
  timestampsEntry : Option Nat := none
  timestampsExit : Option Nat := none
deriving DecidableEq, Repr

/-- Effect of `$set: updateData` on one guest. -/
def GuestUpdate.applyTo (u : GuestUpdate) (g : Guest) : Guest :=
  { g with
    status := u.status,
    timestamps :=
      { entry := (u.timestampsEntry.map some).getD g.timestamps.entry,
        exit := (u.timestampsExit.map some).getD g.timestamps.exit } }

/-- The call `Guest.findById(id)`. -/
def Guest.findById (db : Db) (id : String) : Option Guest :=
  db.guests.find? (fun g => g._id == id)

/-- The call `Guest.findByIdAndUpdate(id, { $set: updateData },
{ new: true, runValidators: true })`; see `Booking.findByIdAndUpdate`. -/
def Guest.findByIdAndUpdate (db : Db) (id : String) (u : GuestUpdate) :
    Option (Option Guest × Db) :=
  if u.status ∈ guestStatusEnum then
    some ((Guest.findById db id).map u.applyTo, db.updateGuest id u.applyTo)
  else none

namespace AdminGuestStatus

/-! ## `src/app/api/admin/guests/[id]/status/route.js` -/

/-- Statuses an operator can set through this endpoint. -/
def ALLOWED_ADMIN_STATUSES : List String :=
  ["approved", "rejected", "checked-in", "checked-out"]

/-- The request: bearer credential, the `id` route parameter and the `status`
field of the JSON body. -/
structure Request where
  authorization : Bearer
  id : Option String
  status : Option String
deriving DecidableEq, Repr

/-- Step 1: the token must verify and carry an `id`. -/
def verifyAdmin (token : Bearer) : Option AdminPayload :=
  match token with
  | .absent => none
  | .rejected => none
  | .verified p => if truthy p.id then some p else none

/-- Step 4: the `$set` document for the requested status. -/
def prepareUpdate (status : String) (now : Nat) : GuestUpdate :=
  let updateData : GuestUpdate := { status := status }
  if status = "checked-in" then { updateData with timestampsEntry := some now }
  else if status = "checked-out" then { updateData with timestampsExit := some now }
  else updateData

/-- The handler `PUT(req, { params })`. -/
def PUT (req : Request) (now : Nat) (db : Db) : Response × Db :=
  -- 1. verify the operator token
  match verifyAdmin req.authorization with
  | none => ({ status := 401 }, db)
  | some _ =>
    -- 2. validate the guest id
    let id := req.id.getD ""
    if !truthy req.id || !ObjectId.isValid id then ({ status := 400 }, db) else
    -- 3. the new status
    let status := req.status.getD ""
    if !truthy req.status || !(ALLOWED_ADMIN_STATUSES.contains status) then
      ({ status := 400 }, db) else
    -- 4. update data
    let updateData := prepareUpdate status now
    -- 5. find and update the guest
    match Guest.findByIdAndUpdate db id updateData with
    | none => ({ status := 400 }, db)
    | some (none, db1) => ({ status := 404 }, db1)
    | some (some updatedGuest, db1) =>
      -- 6. success
      ({ status := 200, guest := some updatedGuest }, db1)

/-- The request of an operator whose verified token carries the id `op`, for
the guest `id` and the new status `status`. -/
def operatorRequest (op : String) (soc : Option String) (id status : String) : Request :=
  { authorization := .verified { id := some op, societyId := soc },
    id := some id, status := some status }

end AdminGuestStatus

namespace VehicleScan

/-! ## `src/app/api/gate/vehicle-scan/route.js` -/

/-- The payload of the guard credential. -/
structure GuardPayload where
  guardId : String
  societyId : String
deriving DecidableEq, Repr

/-- The stub `verifyGuardToken(req)` of the source: every request is accepted
with one fixed payload. -/
def verifyGuardToken : GuardPayload :=
  { guardId := "GUARD_DEVICE_001", societyId := "YOUR_SOCIETY_ID_FOR_TESTING" }

/-- The request body. -/
structure Request where
  plateNumber : Option String
  direction : Option String
  gateLocation : Option String
  imageOfPlateUrl : Option String
deriving DecidableEq, Repr

/-- The query `User.findOne({ societyId, carNumbers: plateNumber })` of line 38.
The society of a resident is an `ObjectId` (the routes read it through
`societyId.toString()`), so the filter value is cast to one: `none` is the
`CastError` thrown for a value that is no `ObjectId`, otherwise the result is
the first match or `null`. -/
def findResidentVehicle (db : Db) (societyId plateNumber : String) : Option (Option User) :=
  if !ObjectId.isValid societyId then none else
  some (db.users.find? (fun u => u.societyId == societyId && u.carNumbers.contains plateNumber))

/-- The query `Guest.findOne({ societyId, carNo: plateNumber, status: 'approved',
date: { $gte: start of today, $lt: start of tomorrow } })` of line 48. It runs
only after the resident query, which has cast the same `societyId`. -/
def findGuestVehicle (db : Db) (societyId plateNumber : String) (now : Nat) : Option Guest :=
  let todayStart := formatYMD now * msPerDay
  db.guests.find? (fun g =>
    g.societyId == societyId && g.carNo == some plateNumber && g.status == "approved"
      && decide (todayStart ≤ g.date) && decide (g.date < todayStart + msPerDay))

/-- The filter `{ vehicleNumber: plateNumber, societyId, exitTime: null }`. -/
def isOpenFor (plateNumber societyId : String) (v : VehicleEntryLog) : Bool :=
  v.vehicleNumber == plateNumber && v.societyId == societyId && v.exitTime.isNone

/-- The document a `findOne` with `sort: { key: -1 }` selects, with its
position in the collection: a match with the greatest key; among equal keys the
one stored first. -/
def findLatest {α : Type} (p : α → Bool) (key : α → Nat) : List α → Option (Nat × α)
  | [] => none
  | x :: xs =>
    match findLatest p key xs with
    | none => if p x then some (0, x) else none
    | some (i, y) => if p x && decide (key y ≤ key x) then some (0, x) else some (i + 1, y)

/-- The call `VehicleEntryLog.findOneAndUpdate({ vehicleNumber, societyId,
exitTime: null }, { $set: { exitTime: now } }, { sort: { entryTime: -1 } })`:
the matched document as it was (or `null`) and the collection afterwards. -/
def findOneAndUpdateExit (entries : List VehicleEntryLog) (plateNumber societyId : String)
    (now : Nat) : Option VehicleEntryLog × List VehicleEntryLog :=
  match findLatest (isOpenFor plateNumber societyId) (fun v => v.entryTime) entries with
  | none => (none, entries)
  | some (i, v) => (some v, entries.set i { v with exitTime := some now })

/-- What the classification of an entry scan yields. -/
structure Classified where
  vehicleLogType : String
  associatedUserId : Option String
  associatedGuestId : Option String
  personName : String
  attendanceLogPurpose : String
  db : Db

/-- The entry branch up to the two `create` calls: resident first, then an
approved guest of today, else unauthorized. A matched guest is saved as
checked-in; the assignment to the key `'timestamps.entry'` makes an own
property of the document object. `none` when the resident query or the save of
the guest throws. -/
def classifyEntry (db : Db) (societyId plateNumber : String) (now : Nat) : Option Classified :=
  match findResidentVehicle db societyId plateNumber with
  | none => none
  | some (some residentVehicle) =>
    some
      { vehicleLogType := "resident",
        associatedUserId := some residentVehicle._id,
        associatedGuestId := none,
        personName := residentVehicle.name,
        attendanceLogPurpose := "Resident Vehicle Entry: " ++ plateNumber,
        db := db }
  | some none =>
    match findGuestVehicle db societyId plateNumber now with
    | some found =>
      let host := populateUser db found.userId
      let hostName := orElse ((host.map (fun u => u.name)).getD "") "N/A"
      let guestVehicle : GuestDoc := { paths := found, ownProps := [] }
      let saved :=
        if guestVehicle.paths.status = "approved" then
          let guestVehicle : GuestDoc :=
            { paths := { guestVehicle.paths with status := "checked-in" },
              ownProps := ("timestamps.entry", now) :: guestVehicle.ownProps }
          guestVehicle.save db
        else some db
      saved.map (fun db1 =>
        { vehicleLogType := "guest",
          associatedUserId := host.map (fun u => u._id),
          associatedGuestId := some found._id,
          personName := "Guest: " ++ found.name ++ " (Vehicle: " ++ plateNumber ++ ")",
          attendanceLogPurpose :=
            "Guest Vehicle Entry: " ++ plateNumber ++ " (Host: " ++ hostName ++ ")",
          db := db1 })
    | none =>
      some
        { vehicleLogType := "unauthorized",
          associatedUserId := none,
          associatedGuestId := none,
          personName := "Vehicle: " ++ plateNumber,
          attendanceLogPurpose := "Vehicle " ++ plateNumber ++ " entry",
          db := db }

/-- The document of the call `VehicleEntryLog.create` in the entry branch. -/
def entryRecord (payload : GuardPayload) (plateNumber : String) (imageOfPlateUrl : Option String)
    (now : Nat) (c : Classified) : VehicleEntryLog :=
  { vehicleNumber := plateNumber, entryTime := now, exitTime := none,
    type := c.vehicleLogType, purpose := c.attendanceLogPurpose,
    residentId := c.associatedUserId, guestId := c.associatedGuestId,
    capturedImage := imageOfPlateUrl, societyId := payload.societyId,
    securityGuardId := payload.guardId }

/-- The handler `POST(req)`, with the value of `verifyGuardToken(req)` as the
argument `payload` (the source passes the fixed payload of its stub). -/
def POSTas (payload : GuardPayload) (req : Request) (now : Nat) (db : Db) : Response × Db :=
  let plateNumber := req.plateNumber.getD ""
  let direction := req.direction.getD ""
  let gateLocation := req.gateLocation.getD ""
  if !truthy req.plateNumber || !truthy req.direction || !truthy req.gateLocation then
    ({ status := 400 }, db) else
  let societyId := payload.societyId
  if direction = "entry" then
    match classifyEntry db societyId plateNumber now with
    | none => ({ status := 500 }, db)
    | some c =>
      -- VehicleEntryLog.create
      let db1 : Db :=
        { c.db with
          vehicleEntries := c.db.vehicleEntries ++
            [entryRecord payload plateNumber req.imageOfPlateUrl now c] }
      -- AttendanceLog.create, not guarded by a try block
      match AttendanceLog.create db1
          { userId := c.associatedUserId, guestId := c.associatedGuestId,
            personName := some c.personName, timestamp := now, type := some "entry",
            source := some "main_gate", location := some gateLocation,
            vehicleNumber := some plateNumber, purpose := some c.attendanceLogPurpose,
            verificationMethod := some "vehicle_plate", verifiedBy := some payload.guardId,
            status := some "verified", societyId := some societyId } with
      | none => ({ status := 500 }, db1)
      | some db2 => ({ status := 200 }, db2)
  else if direction = "exit" then
    let (lastEntry, entries) := findOneAndUpdateExit db.vehicleEntries plateNumber societyId now
    let db1 : Db := { db with vehicleEntries := entries }
    match lastEntry with
    | some v =>
      let residentName := ((v.residentId.bind (populateUser db)).map (fun u => u.name)).getD ""
      let guestName :=
        ((v.guestId.bind (Guest.findById db)).map (fun g => g.name)).getD ""
      let personName := orElse residentName (orElse guestName ("Vehicle: " ++ plateNumber))
      match AttendanceLog.create db1
          { userId := (v.residentId.bind (populateUser db)).map (fun u => u._id),
            guestId := (v.guestId.bind (Guest.findById db)).map (fun g => g._id),
            personName := some personName, timestamp := now, type := some "exit",
            source := some "main_gate", location := some gateLocation,
            vehicleNumber := some plateNumber, purpose := some ("Vehicle Exit: " ++ plateNumber),
            verificationMethod := some "vehicle_plate", verifiedBy := some payload.guardId,
            status := some "verified", societyId := some societyId } with
      | none => ({ status := 500 }, db1)
      | some db2 => ({ status := 200 }, db2)
    | none => ({ status := 200 }, db1)
  else ({ status := 200 }, db)

/-- The handler `POST(req)` exactly as the source wires it, with the payload of
the stub. -/
def POST (req : Request) (now : Nat) (db : Db) : Response × Db :=
  POSTas verifyGuardToken req now db

/-- The store after a sequence of requests to the route, each with the instant
at which it is served, processed in order. -/
def runRequests (db : Db) (scans : List (Request × Nat)) : Db :=
  scans.foldl (fun d s => (POST s.1 s.2 d).2) db

end VehicleScan

namespace VehicleScan

/-! ## Sequences of vehicle scans -/

/-- One scan as the gate sends it: the guard payload, the body, the instant. -/
structure Scan where
  payload : GuardPayload
  req : Request
  now : Nat
deriving DecidableEq, Repr

/-- The store after one scan. -/
def step (db : Db) (s : Scan) : Db := (POSTas s.payload s.req s.now db).2

/-- The store after a sequence of scans, processed in order. -/
def runScans (db : Db) (scans : List Scan) : Db := scans.foldl step db

/-- Number of vehicle entry records with `exitTime` null for a plate in a
society. -/
def openCount (plateNumber societyId : String) (db : Db) : Nat :=
  db.vehicleEntries.countP (isOpenFor plateNumber societyId)

/-- A sequence of scans in which every entry scan is made while the plate has
no open record in the scanning society. -/
def entryOnlyWhenClosed : Db → List Scan → Bool
  | _, [] => true
  | db, s :: rest =>
    (s.req.direction != some "entry"
        || openCount (s.req.plateNumber.getD "") s.payload.societyId db == 0)
      && entryOnlyWhenClosed (step db s) rest

/-- The body of an exit scan. -/
def exitRequest (plateNumber gateLocation : String) (imageOfPlateUrl : Option String) : Request :=
  { plateNumber := some plateNumber, direction := some "exit",
    gateLocation := some gateLocation, imageOfPlateUrl := imageOfPlateUrl }

/-- An entry scan of a plate at the main gate. -/
def entryScan (payload : GuardPayload) (plateNumber : String) (now : Nat) : Scan :=
  { payload := payload,
    req := { plateNumber := some plateNumber, direction := some "entry",
             gateLocation := some "Main Gate", imageOfPlateUrl := none },
    now := now }

/-- An exit scan of a plate at the main gate. -/
def exitScan (payload : GuardPayload) (plateNumber : String) (now : Nat) : Scan :=
  { payload := payload,
    req := exitRequest plateNumber "Main Gate" none,
    now := now }

end VehicleScan

/-! ## QR issuance -/

/-- The image that the library call `QRCode.toDataURL(text)` returns,
represented by the text a scanner reads back from it. -/
structure DataURL where
  encodes : JsonText
deriving DecidableEq, Repr

/-- The response of the issuance route: the status code and, on success, the
`qrCode` of the body. -/
structure QrResponse where
  status : Nat
  qrCode : Option DataURL := none
deriving DecidableEq, Repr

namespace GenerateQr

/-! ## `src/app/api/bookings/generate-qr/route.js` -/

/-- The request: the bearer credential as `verify(token,
ACCESS_TOKEN_SECRET_USER)` decodes it, and the `bookingId` of the body. -/
structure Request where
  authorization : Bearer
  bookingId : Option String
deriving DecidableEq, Repr

/-- The query of step 3: `Booking.findOne({ _id: bookingId, userId: userId })`. -/
def findOne (db : Db) (bookingId userId : String) : Option Booking :=
  db.bookings.find? (fun b => b._id == bookingId && b.userId == userId)

/-- The object literal of step 4. -/
def qrData (booking : Booking) : Json :=
  .object
    [("type", .str "AMENITY_BOOKING"), ("bookingId", .str booking._id),
     ("amenityId", .str booking.amenityId), ("userId", .str booking.userId)]

/-- Step 4: `qrDataString`, the text of the QR credential of a booking. -/
def qrDataString (booking : Booking) : JsonText := JSON.stringify (qrData booking)

/-- The handler `POST(req)`. -/
def POST (req : Request) (db : Db) : QrResponse × Db :=
  -- 1. verify the resident token
  match req.authorization with
  | .absent => ({ status := 401 }, db)
  | .rejected => ({ status := 401 }, db)
  | .verified userPayload =>
    if !truthy userPayload.id then ({ status := 401 }, db) else
    let userId := userPayload.id.getD ""
    -- 2. the booking id of the body
    let bookingId := req.bookingId.getD ""
    if !truthy req.bookingId || !ObjectId.isValid bookingId then ({ status := 400 }, db) else
    -- 3. find the booking and verify ownership
    match findOne db bookingId userId with
    | none => ({ status := 404 }, db)
    | some booking =>
      -- 4. and 5. the QR text and its image
      ({ status := 200, qrCode := some { encodes := qrDataString booking } }, db)

end GenerateQr

/-! ## The operator's read of the attendance ledger -/

/-- The response of a ledger read: the status code and the `logs` of the body. -/
structure LogsResponse where
  status : Nat
  logs : List AttendanceLog := []
deriving DecidableEq, Repr

namespace AdminAttendanceLogs

/-! ## `src/app/api/admin/logs/attendance/route.js` -/

/-- The request: bearer credential and the `societyId` query parameter. -/
structure Request where
  authorization : Bearer
  societyId : Option String
deriving DecidableEq, Repr

/-- The query `AttendanceLog.find({ societyId }).sort({ timestamp: -1 }).limit(100)`
(the populated resident and worker details of each entry are left out). -/
def findLogs (db : Db) (societyId : String) : List AttendanceLog :=
  ((db.attendance.filter (fun e => e.societyId == societyId)).insertionSort
    (fun a b => b.timestamp ≤ a.timestamp)).take 100

/-- The handler `GET(req)`. -/
def GET (req : Request) (db : Db) : LogsResponse × Db :=
  -- 1. verify the operator token: only `id` is required of the payload
  match req.authorization with
  | .absent => ({ status := 401 }, db)
  | .rejected => ({ status := 401 }, db)
  | .verified adminPayload =>
    if !truthy adminPayload.id then ({ status := 401 }, db) else
    -- 2. the society id of the query parameters
    let societyId := req.societyId.getD ""
    if !truthy req.societyId || !ObjectId.isValid societyId then ({ status := 400 }, db) else
    -- 3. and 4. fetch and return the logs
    ({ status := 200, logs := findLogs db societyId }, db)

end AdminAttendanceLogs

namespace FaceScan

/-! ## `src/app/api/gate/face-scan/route.js` -/

/-- The request body. -/
structure Request where
  identifiedPersonId : Option String
  personType : Option String
  direction : Option String
  gateLocation : Option String
deriving DecidableEq, Repr

/-- The call `User.findById(identifiedPersonId)`. -/
def findUser (db : Db) (id : String) : Option User :=
  db.users.find? (fun u => u._id == id)

/-- The call `Worker.findById(identifiedPersonId)`. -/
def findWorker (db : Db) (id : String) : Option Worker :=
  db.workers.find? (fun w => w._id == id)

/-- The object `logData` before the person is looked up. -/
def baseLogData (payload : AdminPayload) (direction gateLocation : String) (now : Nat) :
    AttendanceInput :=
  { societyId := payload.societyId,
    timestamp := now,
    type := some direction,
    source := some "main_gate",
    location := some gateLocation,
    verificationMethod := some "facial_recognition",
    verifiedBy := payload.id,
    status := some "verified" }

/-- The helper `verifyGuardToken(req)` of line 10: its body is a comment, so
the call returns `undefined` (`none`). -/
def verifyGuardToken : Option AuthResult := none

/-- Lines 17 to 71 of the handler for a value `authResult` of the guard: the
`isValid` flag, the status for a refusal, and the payload with the guard's `id`
and `societyId`. The assignment `logData.workerId = worker._id` names no path
of the ledger schema and does not reach the stored entry. -/
def POSTas (authResult : AuthResult) (req : Request) (now : Nat) (db : Db) : Response × Db :=
  if !authResult.isValid then ({ status := authResult.status }, db) else
  let identifiedPersonId := req.identifiedPersonId.getD ""
  let personType := req.personType.getD ""
  let direction := req.direction.getD ""
  let gateLocation := req.gateLocation.getD ""
  if !truthy req.identifiedPersonId || !truthy req.personType || !truthy req.direction
      || !truthy req.gateLocation then ({ status := 400 }, db) else
  if !ObjectId.isValid identifiedPersonId then ({ status := 400 }, db) else
  match authResult.payload with
  | none => ({ status := 500 }, db)
  | some payload =>
    let logData := baseLogData payload direction gateLocation now
    if personType = "user" then
      match findUser db identifiedPersonId with
      | none => ({ status := 404 }, db)
      | some user =>
        if some user.societyId ≠ payload.societyId then ({ status := 403 }, db) else
        let logData :=
          { logData with
            userId := some user._id, personName := some user.name,
            purpose := some ("Resident " ++ direction) }
        match AttendanceLog.create db logData with
        | none => ({ status := 500 }, db)
        | some db1 => ({ status := 200 }, db1)
    else if personType = "worker" then
      match findWorker db identifiedPersonId with
      | none => ({ status := 404 }, db)
      | some worker =>
        if some worker.societyId ≠ payload.societyId then ({ status := 403 }, db) else
        let logData :=
          { logData with
            personName := some worker.name,
            purpose := some ("Staff " ++ direction ++ " (" ++ worker.department ++ ")") }
        match AttendanceLog.create db logData with
        | none => ({ status := 500 }, db)
        | some db1 => ({ status := 200 }, db1)
    else ({ status := 400 }, db)

/-- The handler `POST(req)` as the source wires it: line 17 reads
`authResult.isValid` on the value of `verifyGuardToken(req)`; on `undefined`
this throws a `TypeError`, which the `catch` of line 73 answers with 500. -/
def POST (req : Request) (now : Nat) (db : Db) : Response × Db :=
  match verifyGuardToken with
  | none => ({ status := 500 }, db)
  | some authResult => POSTas authResult req now db

/-- A ledger entry refers to a document when one of its reference paths
(`userId`, `guestId`, `bookingId`) holds the id of the document. -/
def refersTo (e : AttendanceLog) (id : String) : Bool :=
  e.userId == some id || e.guestId == some id || e.bookingId == some id

end FaceScan

/-! ## Credential guards -/

/-- The call `Admin.findById(id).select('societyId')`. -/
def Admin.findById (db : Db) (id : String) : Option Admin :=
  db.admins.find? (fun a => a._id == id)

/-- The record a guard with the profile fallback returns, together with the
number of `Admin.findById` calls made on the way. -/
structure GuardResult where
  isValid : Bool
  status : Nat
  payload : Option AdminPayload
  lookups : Nat
deriving DecidableEq, Repr

namespace AdminDeliveryLogs

/-! ## `verifyAdminToken` of `src/app/api/admin/logs/delivery/route.js` -/

/-- The helper `verifyAdminToken(req)` of the delivery log route: the payload
must carry `id`; a payload without `societyId` is completed from the stored
operator profile, and refused when the profile is missing or not linked to a
society. -/
def verifyAdminToken (token : Bearer) (db : Db) : GuardResult :=
  match token with
  | .absent => { isValid := false, status := 401, payload := none, lookups := 0 }
  | .rejected => { isValid := false, status := 401, payload := none, lookups := 0 }
  | .verified adminPayload =>
    if !truthy adminPayload.id then
      { isValid := false, status := 401, payload := none, lookups := 0 }
    else if !truthy adminPayload.societyId then
      match Admin.findById db (adminPayload.id.getD "") with
      | none => { isValid := false, status := 401, payload := none, lookups := 1 }
      | some adminUser =>
        if !truthy adminUser.societyId then
          { isValid := false, status := 401, payload := none, lookups := 1 }
        else
          { isValid := true, status := 200,
            payload := some { adminPayload with societyId := adminUser.societyId },
            lookups := 1 }
    else { isValid := true, status := 200, payload := some adminPayload, lookups := 0 }

end AdminDeliveryLogs

namespace AmenityById

/-! ## `verifyAnyToken` of `src/app/api/amenities/[id]/route.js` -/

/-- What the `Authorization` header and the two `verify` calls give: no token,
or a token with its decoding under the resident secret and under the operator
secret (`none` where `verify` throws). -/
inductive AnyBearer where
  | absent
  | token (asUser : Option AdminPayload) (asAdmin : Option AdminPayload)
deriving DecidableEq, Repr

/-- The payload of a successful result: the decoded payload with the `isAdmin`
flag added. -/
structure AnyPayload where
  id : Option String
  societyId : Option String
  isAdmin : Bool
deriving DecidableEq, Repr

/-- The record `verifyAnyToken` returns, together with the number of
`Admin.findById` calls made on the way. -/
structure AnyAuthResult where
  isValid : Bool
  status : Nat
  payload : Option AnyPayload
  lookups : Nat
deriving DecidableEq, Repr

/-- The operator attempt of `verifyAnyToken` (the second `try` block and the
fallback return after it). -/
def tryAdmin (asAdmin : Option AdminPayload) (db : Db) : AnyAuthResult :=
  match asAdmin with
  | none => { isValid := false, status := 401, payload := none, lookups := 0 }
  | some adminPayload =>
    if truthy adminPayload.id then
      if !truthy adminPayload.societyId then
        match Admin.findById db (adminPayload.id.getD "") with
        | none => { isValid := false, status := 401, payload := none, lookups := 1 }
        | some adminUser =>
          if !truthy adminUser.societyId then
            { isValid := false, status := 401, payload := none, lookups := 1 }
          else
            { isValid := true, status := 200,
              payload := some { id := adminPayload.id, societyId := adminUser.societyId,
                                isAdmin := true },
              lookups := 1 }
      else
        { isValid := true, status := 200,
          payload := some { id := adminPayload.id, societyId := adminPayload.societyId,
                            isAdmin := true },
          lookups := 0 }
    else { isValid := false, status := 401, payload := none, lookups := 0 }

/-- The helper `verifyAnyToken(req)`: the resident secret is tried first, then
the operator secret. -/
def verifyAnyToken (token : AnyBearer) (db : Db) : AnyAuthResult :=
  match token with
  | .absent => { isValid := false, status := 401, payload := none, lookups := 0 }
  | .token asUser asAdmin =>
    match asUser with
    | some userPayload =>
      if truthy userPayload.id && truthy userPayload.societyId then
        { isValid := true, status := 200,
          payload := some { id := userPayload.id, societyId := userPayload.societyId,
                            isAdmin := false },
          lookups := 0 }
      else tryAdmin asAdmin db
    | none => tryAdmin asAdmin db

end AmenityById

/-- The call `Amenity.findById(amenityId)`. -/
def Amenity.findById (db : Db) (amenityId : String) : Option Amenity :=
  db.amenities.find? (fun a => a._id == amenityId)

/-- The `bookingDate` of a request body as `new Date(bookingDate)` reads it:
a text that is no date (the result is `Invalid Date`), or the instant of a
date text. -/
inductive DateText where
  | unparsable (raw : String)
  | instant (t : Nat)
deriving DecidableEq, Repr

/-- JavaScript truthiness of the optional `bookingDate` text. -/
def DateText.truthy (d : Option DateText) : Bool :=
  match d with
  | none => false
  | some (.unparsable raw) => raw != ""
  | some (.instant _) => true

/-- JavaScript truthiness of an optional number: `undefined` and `0` are
falsy. -/
def truthyNat (n : Option Nat) : Bool :=
  match n with
  | none => false
  | some v => v != 0

namespace Bookings

/-! ## `src/app/api/bookings/route.js` -/

/-- The request: the bearer credential as `verify(token,
ACCESS_TOKEN_SECRET_USER)` decodes it, and the fields of the body
(`numberOfPeople` is a JSON number, taken as a natural number). -/
structure Request where
  authorization : Bearer
  amenityId : Option String
  bookingDate : Option DateText
  startTime : Option String
  endTime : Option String
  numberOfPeople : Option Nat
  purpose : Option String := none
deriving DecidableEq, Repr

/-- Step 6: the document `new Booking(...)` builds, with the `_id` the driver
generates for it (`purpose` and `payment` are not read by any other route and
are left out). -/
def newBooking (newId userId societyId amenityId : String) (bookingDate : Nat)
    (startTime endTime : String) (numberOfPeople : Nat) : Booking :=
  { _id := newId, userId := userId, amenityId := amenityId, societyId := societyId,
    bookingDate := bookingDate, status := "pending",
    timestamps := { entry := none, exit := none }, cancelledAt := none,
    startTime := startTime, endTime := endTime, numberOfPeople := numberOfPeople }

/-- Modelled from the spec: the validation that `newBooking.save()` runs
(`models/booking` is not among the sources). `userId` is a reference the other
routes populate, so it is cast to an `ObjectId`, and `bookingDate` is a `Date`,
so `Invalid Date` does not validate. `none` is the `ValidationError`. -/
def validateNew (userId : String) (bookingDate : DateText) : Option Nat :=
  if !ObjectId.isValid userId then none else
  match bookingDate with
  | .unparsable _ => none
  | .instant t => some t

/-- The handler `POST(req)`; `newId` is the `_id` generated for the new
document. -/
def POST (req : Request) (newId : String) (db : Db) : Response × Db :=
  -- 1. verify the resident token
  match req.authorization with
  | .absent => ({ status := 401 }, db)
  | .rejected => ({ status := 401 }, db)
  | .verified userPayload =>
    if !truthy userPayload.id || !truthy userPayload.societyId then ({ status := 401 }, db) else
    let userId := userPayload.id.getD ""
    let societyId := userPayload.societyId.getD ""
    -- 2. the booking data of the body
    let amenityId := req.amenityId.getD ""
    let startTime := req.startTime.getD ""
    let endTime := req.endTime.getD ""
    let numberOfPeople := req.numberOfPeople.getD 0
    -- 3. validation
    if !truthy req.amenityId || !DateText.truthy req.bookingDate || !truthy req.startTime
        || !truthy req.endTime || !truthyNat req.numberOfPeople || !truthy userPayload.societyId
    then ({ status := 400 }, db) else
    if !ObjectId.isValid amenityId || !ObjectId.isValid societyId then ({ status := 400 }, db) else
    -- 4. amenity availability and rules
    match Amenity.findById db amenityId with
    | none => ({ status := 404 }, db)
    | some amenity =>
      if amenity.societyId ≠ societyId then ({ status := 403 }, db) else
      if amenity.status ≠ "operational" then ({ status := 400 }, db) else
      if numberOfPeople > amenity.capacity then ({ status := 400 }, db) else
      -- (lines 46-65: the time conflict check is a comment, no statement runs)
      -- 6. create the booking document
      match validateNew userId (req.bookingDate.getD (.unparsable "")) with
      | none => ({ status := 400 }, db)
      | some bookingDate =>
        let booking :=
          newBooking newId userId societyId amenityId bookingDate startTime endTime numberOfPeople
        -- 7. success response
        ({ status := 201, booking := some booking },
         { db with bookings := db.bookings ++ [booking] })

/-- A request of a resident with the given token ids. -/
def residentRequest (userId societyId amenityId : String) (bookingDate : Nat)
    (startTime endTime : String) (numberOfPeople : Nat) : Request :=
  { authorization := .verified { id := some userId, societyId := some societyId },
    amenityId := some amenityId, bookingDate := some (.instant bookingDate),
    startTime := some startTime, endTime := some endTime,
    numberOfPeople := some numberOfPeople }

/-- JavaScript `a < b` on two strings: the lexicographic order of their
characters. -/
def strLt (a b : String) : Bool := decide (a.data < b.data)

/-- The overlap condition written in the comment of lines 58-60:
`startTime < endTime'` and `endTime > startTime'`, on `HH:mm` strings. -/
def overlaps (startTime endTime startTime' endTime' : String) : Bool :=
  strLt startTime endTime' && strLt startTime' endTime

/-- The query written in the comment of lines 54-61: the confirmed bookings of
the amenity on the day of the request whose window overlaps the requested
one. -/
def conflictingBookings (db : Db) (amenityId : String) (bookingDate : Nat)
    (startTime endTime : String) : List Booking :=
  db.bookings.filter (fun b =>
    b.amenityId == amenityId && formatYMD b.bookingDate == formatYMD bookingDate
      && b.status == "confirmed" && overlaps b.startTime b.endTime startTime endTime)

end Bookings

/-- The response of the pending deliveries read: the status code and the
`pendingDeliveries` of the body. -/
structure DeliveriesResponse where
  status : Nat
  pendingDeliveries : List AttendanceLog := []
deriving DecidableEq, Repr

namespace PendingDeliveries

/-! ## `src/app/api/user/deliveries/pending/route.js` -/

/-- The request: the bearer credential as `verify(token,
ACCESS_TOKEN_SECRET_USER)` decodes it. -/
structure Request where
  authorization : Bearer
deriving DecidableEq, Repr

/-- Milliseconds in an hour. -/
def msPerHour : Nat := 3600000

/-- Lines 36-37: `recentEntryWindow`, the instant twelve hours before `now`
(in a zone without clock changes; an instant is not negative). -/
def recentEntryWindow (now : Nat) : Nat := now - 12 * msPerHour

/-- The filter of the query of lines 39-45. -/
def isPending (societyId userId : String) (now : Nat) (e : AttendanceLog) : Bool :=
  e.societyId == societyId && e.userId == some userId && e.source == "delivery_point"
    && e.type == "entry" && decide (recentEntryWindow now ≤ e.timestamp)

/-- The query `AttendanceLog.find(...).sort({ timestamp: -1 }).limit(5)`. -/
def findPending (db : Db) (societyId userId : String) (now : Nat) : List AttendanceLog :=
  ((db.attendance.filter (isPending societyId userId now)).insertionSort
    (fun a b => b.timestamp ≤ a.timestamp)).take 5

/-- The handler `GET(req)`. -/
def GET (req : Request) (now : Nat) (db : Db) : DeliveriesResponse × Db :=
  -- 1. verify the resident token
  match req.authorization with
  | .absent => ({ status := 401 }, db)
  | .rejected => ({ status := 401 }, db)
  | .verified userPayload =>
    if !truthy userPayload.id || !truthy userPayload.societyId then ({ status := 401 }, db) else
    let userId := userPayload.id.getD ""
    let societyId := userPayload.societyId.getD ""
    -- 2. the query casts both ids to `ObjectId`; a cast failure is thrown and
    -- caught by the outer handler
    if !ObjectId.isValid societyId || !ObjectId.isValid userId then ({ status := 500 }, db) else
    ({ status := 200, pendingDeliveries := findPending db societyId userId now }, db)

/-- The read as the claim words it: the entries of the resident's society whose
`userId` is the resident, whose source is `delivery_point`, whose type is
`entry` and whose timestamp lies within the 12 hours before the request, newest
first, cut to 5. -/
def pendingSpec (db : Db) (societyId userId : String) (now : Nat) : List AttendanceLog :=
  ((db.attendance.filter (fun e =>
      e.societyId == societyId && e.userId == some userId && e.source == "delivery_point"
        && e.type == "entry" && decide (now - 12 * msPerHour ≤ e.timestamp)
        && decide (e.timestamp ≤ now))).insertionSort
    (fun a b => b.timestamp ≤ a.timestamp)).take 5

/-- The request of a resident whose verified token carries the given ids. -/
def residentRequest (userId societyId : String) : Request :=
  { authorization := .verified { id := some userId, societyId := some societyId } }

end PendingDeliveries

/-! ## Sequences of requests to the routes that write bookings -/

/-- One request to one of the four routes that write the booking collection,
with the instant at which it is served (and, for a creation, the generated
`_id`). -/
inductive BookingOp where
  | create (req : Bookings.Request) (newId : String)
  | adminStatus (req : AdminBookingStatus.Request) (now : Nat)
  | checkin (req : AmenityCheckin.Request) (now : Nat)
  | checkout (req : AmenityCheckout.Request) (now : Nat)

/-- The store after one request. -/
def BookingOp.run (db : Db) (op : BookingOp) : Db :=
  match op with
  | .create req newId => (Bookings.POST req newId db).2
  | .adminStatus req now => (AdminBookingStatus.PUT req now db).2
  | .checkin req now => (AmenityCheckin.POST req now db).2
  | .checkout req now => (AmenityCheckout.POST req now db).2

/-- The store after a sequence of requests, served one after the other. -/
def runBookingOps (db : Db) (ops : List BookingOp) : Db := ops.foldl BookingOp.run db

/-- The statuses the claim on reachable states names. -/
def implementedStatuses : List String :=
  ["pending", "confirmed", "checked-in", "checked-out", "cancelled", "no_show"]

/-! ## Concrete data used by the worked instances -/

namespace Example

/-- A society id. -/
def society : String := "64b0000000000000000000f1"

/-- An operator id. -/
def operator : String := "64b0000000000000000000d1"

/-- A resident of the society. -/
def resident : User :=
  { _id := "64b0000000000000000000a1", name := "Asha", societyId := society,
    carNumbers := ["KA05MN4321"] }

/-- An operational amenity of the society. -/
def pool : Amenity :=
  { _id := "64b0000000000000000000c1", name := "Pool", status := "operational", capacity := 10,
    societyId := society }

/-- A booking of the pool by the resident for day 10, in the given status, with
no timestamps yet. -/
def booking (status : String) : Booking :=
  { _id := "64b000000000000000000001", userId := resident._id, amenityId := pool._id,
    societyId := society, bookingDate := 10 * msPerDay, status := status,
    timestamps := { entry := none, exit := none }, cancelledAt := none }

/-- A store holding that booking, its amenity and its resident. -/
def store (status : String) : Db :=
  { bookings := [booking status], amenities := [pool], users := [resident], guests := [],
    vehicleEntries := [], attendance := [] }

/-- The same store after the resident's record has been deleted. -/
def orphanStore (status : String) : Db := { store status with users := [] }

/-- An operator request for that booking. -/
def adminRequest (status : String) : AdminBookingStatus.Request :=
  AdminBookingStatus.operatorRequest operator society "64b000000000000000000001" status

/-- The QR text that `generate-qr/route.js` builds for that booking. -/
def qrToken : JsonText :=
  JSON.stringify
    (.object [("type", .str "AMENITY_BOOKING"), ("bookingId", .str "64b000000000000000000001"),
      ("amenityId", .str pool._id), ("userId", .str resident._id)])

/-- A guest of the resident for day 10, in the given status. -/
def guest (status : String) : Guest :=
  { _id := "64b000000000000000000071", userId := resident._id, societyId := society,
    name := "Ravi", carNo := some "KA02CD5678", date := 10 * msPerDay, status := status,
    timestamps := { entry := none, exit := none } }

/-- A store holding that guest. -/
def guestStore (status : String) : Db :=
  { bookings := [], amenities := [], users := [resident], guests := [guest status],
    vehicleEntries := [], attendance := [] }

/-- A guard payload with well-formed ids. -/
def guard : VehicleScan.GuardPayload :=
  { guardId := "64b0000000000000000000e1", societyId := society }

/-- An open vehicle entry record of the plate `KA01AB1234`. -/
def vehicleEntry (entryTime : Nat) : VehicleEntryLog :=
  { vehicleNumber := "KA01AB1234", entryTime := entryTime, exitTime := none,
    type := "unauthorized", purpose := "Vehicle KA01AB1234 entry", residentId := none,
    guestId := none, capturedImage := none, societyId := society,
    securityGuardId := guard.guardId }

/-- A store with no documents. -/
def emptyStore : Db :=
  { bookings := [], amenities := [], users := [], guests := [], vehicleEntries := [],
    attendance := [] }

/-- A store with two open records of the plate, entered at 100 and at 200. -/
def twoOpenStore : Db :=
  { emptyStore with vehicleEntries := [vehicleEntry 100, vehicleEntry 200] }

/-- Another society. -/
def otherSociety : String := "64b0000000000000000000f2"

/-- A staff member of the society. -/
def worker : Worker :=
  { _id := "64b0000000000000000000b1", name := "Meena", workerID := "W-17",
    department := "Housekeeping", societyId := society }

/-- A store holding the resident and the staff member, and an empty ledger. -/
def gateStore : Db :=
  { emptyStore with users := [resident], workers := [worker] }

/-- A face scan at the main gate. -/
def faceScan (id personType direction : String) : FaceScan.Request :=
  { identifiedPersonId := some id, personType := some personType,
    direction := some direction, gateLocation := some "Main Gate" }

/-- A store in which the operator's profile is linked to the society. -/
def adminStore : Db :=
  { emptyStore with admins := [{ _id := operator, societyId := some society }] }

/-- An operator credential that carries the operator's id and no society. -/
def legacyToken : Bearer := .verified { id := some operator, societyId := none }

/-- A ledger entry of a society at an instant. -/
def ledgerEntry (societyId : String) (timestamp : Nat) : AttendanceLog :=
  { userId := none, guestId := none, bookingId := none, personName := "Vehicle: KA01AB1234",
    timestamp := timestamp, type := "entry", source := "main_gate", location := "Main Gate",
    vehicleNumber := some "KA01AB1234", purpose := none, verificationMethod := "vehicle_plate",
    verifiedBy := none, status := "verified", societyId := societyId }

/-- A store whose ledger holds entries of two societies. -/
def ledgerStore : Db :=
  { emptyStore with
    attendance := [ledgerEntry otherSociety 10, ledgerEntry society 20,
                   ledgerEntry otherSociety 30] }

/-- A store in which an approved guest of today expects the plate `KA02CD5678`
and no resident owns it. -/
def guestGateStore : Db :=
  { emptyStore with users := [resident], guests := [guest "approved"] }

/-- A QR text assembled by hand from the booking id alone. -/
def forgedToken : JsonText :=
  .text (.object [("type", .str "AMENITY_BOOKING"), ("bookingId", .str "64b000000000000000000001")])


/-- The `_id` generated for a second booking. -/
def newBookingId : String := "64b000000000000000000002"

/-- A request of the resident for the pool on day 10, from 09:30 to 10:30, for
four people. -/
def bookingRequest : Bookings.Request :=
  Bookings.residentRequest resident._id society pool._id (10 * msPerDay) "09:30" "10:30" 4

/-- The booking that request creates. -/
def requestedBooking : Booking :=
  Bookings.newBooking newBookingId resident._id society pool._id (10 * msPerDay) "09:30" "10:30" 4


/-- A confirmed booking of the pool by the resident for day 10, from 09:00 to
10:00. -/
def slotBooking : Booking :=
  { booking "confirmed" with startTime := "09:00", endTime := "10:00", numberOfPeople := 2 }

/-- A store holding that booking, its amenity and its resident. -/
def slotStore : Db := { store "confirmed" with bookings := [slotBooking] }


/-- A store holding the pool and the resident, and no booking yet. -/
def openStore : Db := { emptyStore with amenities := [pool], users := [resident] }

/-- That store once it holds the requested booking in the given status. -/
def requestedStore (status : String) : Db :=
  { openStore with bookings := [{ requestedBooking with status := status }] }

/-- The operator's request to confirm the requested booking. -/
def confirmRequest : AdminBookingStatus.Request :=
  AdminBookingStatus.operatorRequest operator society newBookingId "confirmed"

/-- The scan of the QR credential issued for the requested booking. -/
def scanRequest : AmenityCheckin.Request :=
  { qrDataString := some (GenerateQr.qrDataString requestedBooking) }


/-- The booking checked in, with the entry timestamp 500 recorded. -/
def stampedBooking : Booking :=
  { booking "checked-in" with timestamps := { entry := some 500, exit := none } }

/-- A store holding that booking, its amenity and its resident. -/
def stampedStore : Db := { store "checked-in" with bookings := [stampedBooking] }


/-- Another resident of the society. -/
def neighbour : User :=
  { _id := "64b0000000000000000000a2", name := "Binu", societyId := society, carNumbers := [] }

/-- A ledger entry of the delivery point for a resident. -/
def deliveryEntry (societyId userId : String) (timestamp : Nat) : AttendanceLog :=
  { userId := some userId, guestId := none, bookingId := none, personName := "Courier",
    timestamp := timestamp, type := "entry", source := "delivery_point",
    location := "Delivery Point", vehicleNumber := none, purpose := none,
    verificationMethod := "manual", verifiedBy := none, status := "verified",
    societyId := societyId }

/-- A ledger read at hour 20: six recent deliveries of the resident, one of
hour 7 (older than twelve hours), one of the neighbour, one of the resident's
id in another society, and one exit of the resident. -/
def deliveryStore : Db :=
  { emptyStore with
    attendance :=
      [deliveryEntry society resident._id (9 * PendingDeliveries.msPerHour),
       deliveryEntry society neighbour._id (19 * PendingDeliveries.msPerHour),
       deliveryEntry society resident._id (15 * PendingDeliveries.msPerHour),
       deliveryEntry society resident._id (7 * PendingDeliveries.msPerHour),
       deliveryEntry otherSociety resident._id (18 * PendingDeliveries.msPerHour),
       deliveryEntry society resident._id (11 * PendingDeliveries.msPerHour),
       { deliveryEntry society resident._id (17 * PendingDeliveries.msPerHour) with
         type := "exit" },
       deliveryEntry society resident._id (13 * PendingDeliveries.msPerHour),
       deliveryEntry society resident._id (10 * PendingDeliveries.msPerHour),
       deliveryEntry society resident._id (16 * PendingDeliveries.msPerHour)] }


/-- The requests of one visit: the resident books the pool, the operator
confirms, the QR credential is scanned on the day, and the booking is checked
out. -/
def visit : List BookingOp :=
  [.create bookingRequest newBookingId,
   .adminStatus confirmRequest (10 * msPerDay + 100),
   .checkin scanRequest (10 * msPerDay + 200),
   .checkout { bookingId := some newBookingId } (10 * msPerDay + 300)]


/-- An entry scan of the guest's plate at the main gate. -/
def guestScan : VehicleScan.Request :=
  { plateNumber := some "KA02CD5678", direction := some "entry",
    gateLocation := some "Main Gate", imageOfPlateUrl := none }

end Example

end HassleFree

/-! # Theorems -/

namespace HassleFree

/-! ## Lists and lookups -/

theorem ObjectId.isValid_ne_empty {id : String} (h : ObjectId.isValid id = true) : id ≠ "" := by
  rintro rfl
  simp [ObjectId.isValid] at h

theorem find?_and_of_find? {α : Type} (p q : α → Bool) (l : List α) (b : α)
    (h : l.find? p = some b) (hq : q b = true) :
    l.find? (fun x => p x && q x) = some b := by
  induction l with
  | nil => simp at h
  | cons x xs ih =>
    rw [List.find?_cons] at h
    rw [List.find?_cons]
    cases hp : p x with
    | true =>
      rw [hp] at h
      simp only [Option.some.injEq] at h
      subst h
      simp [hq]
    | false =>
      rw [hp] at h
      simp [ih h]

theorem find?_updateFirst {α : Type} (p : α → Bool) (f : α → α) (l : List α) (b : α)
    (h : l.find? p = some b) (hf : p (f b) = true) :
    (updateFirst p f l).find? p = some (f b) := by
  induction l with
  | nil => simp at h
  | cons x xs ih =>
    rw [List.find?_cons] at h
    cases hp : p x with
    | true =>
      rw [hp] at h
      simp only [Option.some.injEq] at h
      subst h
      simp [updateFirst, hp, hf]
    | false =>
      rw [hp] at h
      simp [updateFirst, hp, ih h]

theorem updateFirst_const {α : Type} (p : α → Bool) (f : α → α) (l : List α) (b : α)
    (h : l.find? p = some b) : updateFirst p f l = updateFirst p (fun _ => f b) l := by
  induction l with
  | nil => rfl
  | cons x xs ih =>
    rw [List.find?_cons] at h
    cases hp : p x with
    | true =>
      rw [hp] at h
      simp only [Option.some.injEq] at h
      subst h
      simp [updateFirst, hp]
    | false =>
      rw [hp] at h
      simp [updateFirst, hp, ih h]

theorem Booking.findById_booking_id {db : Db} {id : String} {b : Booking}
    (h : Booking.findById db id = some b) : b._id = id := by
  unfold Booking.findById at h
  have := List.find?_some h
  simpa using this

theorem Booking.findById_updateBooking {db : Db} {id : String} {b : Booking}
    (f : Booking → Booking) (h : Booking.findById db id = some b) (hf : (f b)._id = b._id) :
    Booking.findById (db.updateBooking id f) id = some (f b) := by
  unfold Booking.findById at h ⊢
  exact find?_updateFirst _ f _ b h (by simp [hf, Booking.findById_booking_id h])

theorem Db.updateBooking_const (db : Db) {id : String} {b : Booking} (f : Booking → Booking)
    (h : Booking.findById db id = some b) :
    db.updateBooking id f = db.updateBooking id (fun _ => f b) := by
  unfold Db.updateBooking
  unfold Booking.findById at h
  rw [updateFirst_const _ f _ b h]

theorem Guest.findById_guest_id {db : Db} {id : String} {g : Guest}
    (h : Guest.findById db id = some g) : g._id = id := by
  unfold Guest.findById at h
  have := List.find?_some h
  simpa using this

theorem Guest.findById_updateGuest {db : Db} {id : String} {g : Guest} (f : Guest → Guest)
    (h : Guest.findById db id = some g) (hf : (f g)._id = g._id) :
    Guest.findById (db.updateGuest id f) id = some (f g) := by
  unfold Guest.findById at h ⊢
  exact find?_updateFirst _ f _ g h (by simp [hf, Guest.findById_guest_id h])

/-! ## The attendance ledger -/

theorem AttendanceLog.create_some {db db2 : Db} {i : AttendanceInput}
    (h : AttendanceLog.create db i = some db2) :
    ∃ e, validateAttendance i = some e ∧ db2 = { db with attendance := db.attendance ++ [e] } := by
  unfold AttendanceLog.create at h
  cases hv : validateAttendance i with
  | none => simp [hv] at h
  | some e =>
    simp [hv] at h
    exact ⟨e, rfl, h.symm⟩

theorem validateAttendance_some {i : AttendanceInput} {e : AttendanceLog}
    (h : validateAttendance i = some e) :
    castObjectId i.userId = some e.userId
    ∧ castObjectId i.bookingId = some e.bookingId
    ∧ requiredString i.personName = some e.personName
    ∧ (requiredString i.type).bind (inEnum attendanceTypeEnum) = some e.type
    ∧ inEnum attendanceSourceEnum (i.source.getD "main_gate") = some e.source
    ∧ requiredString i.location = some e.location
    ∧ (requiredString i.verificationMethod).bind (inEnum verificationMethodEnum)
        = some e.verificationMethod
    ∧ castObjectId i.verifiedBy = some e.verifiedBy
    ∧ e.timestamp = i.timestamp := by
  unfold validateAttendance at h
  simp only [bind, Option.bind_eq_some, pure, Option.some.injEq] at h
  obtain ⟨_, h1, _, h2, _, h3, _, h4, _, h5, _, h6, _, h7, _, h8, _, h9, _, h10, _, h11, rfl⟩ := h
  exact ⟨h1, h3, h4, Option.bind_eq_some.mpr h5, h6, h7, Option.bind_eq_some.mpr h8, h9, rfl⟩

theorem validateAttendance_bad_verifiedBy (i : AttendanceInput)
    (h : castObjectId i.verifiedBy = none) : validateAttendance i = none := by
  cases hv : validateAttendance i with
  | none => rfl
  | some e =>
    have := (validateAttendance_some hv).2.2.2.2.2.2.2.1
    rw [h] at this
    cases this

theorem validateAttendance_bad_method (i : AttendanceInput)
    (h : (requiredString i.verificationMethod).bind (inEnum verificationMethodEnum) = none) :
    validateAttendance i = none := by
  cases hv : validateAttendance i with
  | none => rfl
  | some e =>
    have := (validateAttendance_some hv).2.2.2.2.2.2.1
    rw [h] at this
    cases this

theorem validateAttendance_no_personName (i : AttendanceInput)
    (h : i.personName = none) : validateAttendance i = none := by
  cases hv : validateAttendance i with
  | none => rfl
  | some e =>
    have := (validateAttendance_some hv).2.2.1
    rw [h] at this
    cases this

theorem tryCreateAttendance_of_invalid (db : Db) (i : Option AttendanceInput)
    (h : ∀ x, i = some x → validateAttendance x = none) : tryCreateAttendance db i = db := by
  unfold tryCreateAttendance
  cases i with
  | none => rfl
  | some x => simp [AttendanceLog.create, h x rfl]

theorem tryCreateAttendance_bookings (db : Db) (i : Option AttendanceInput) :
    (tryCreateAttendance db i).bookings = db.bookings := by
  unfold tryCreateAttendance
  cases i with
  | none => rfl
  | some i =>
    simp only
    cases hc : AttendanceLog.create db i with
    | none => rfl
    | some db2 =>
      obtain ⟨e, -, rfl⟩ := AttendanceLog.create_some hc
      rfl

/-! ## The operator's booking status route -/

namespace AdminBookingStatus

theorem findOne_of_findById {db : Db} {id soc : String} {b : Booking}
    (h : Booking.findById db id = some b) (hs : b.societyId = soc) :
    findOne db id soc = some b := by
  unfold findOne
  unfold Booking.findById at h
  exact find?_and_of_find? _ _ _ _ h (by simp [hs])

/-- An authenticated operator request for a booking of the operator's society
reaches the transition rules with that booking. -/
theorem bookingPUT_found (db : Db) (op soc id s : String) (b : Booking) (now : Nat)
    (hop : op ≠ "") (hsoc : soc ≠ "") (hid : ObjectId.isValid id = true)
    (hs : s ∈ ALLOWED_BOOKING_STATUSES_BY_ADMIN)
    (hb : Booking.findById db id = some b) (hbs : b.societyId = soc) :
    PUT (operatorRequest op soc id s) now db = applyStatus db id op s b now := by
  have hs' : s ≠ "" := by
    rintro rfl
    simp [ALLOWED_BOOKING_STATUSES_BY_ADMIN] at hs
  have hid' := ObjectId.isValid_ne_empty hid
  simp [PUT, operatorRequest, verifyAdminToken, truthy, hop, hsoc, hid, hid', hs', hs,
    findOne_of_findById hb hbs]

/-- The attendance entry of the operator route never validates: its
`verificationMethod` is `manual_admin`, which the ledger enum does not list. -/
theorem adminAttendance_swallowed (db : Db) (s : String) (b : Booking) (u : Option User)
    (a : Option Amenity) (op : String) (now : Nat) :
    tryCreateAttendance db (attendanceInput s b u a op now) = db := by
  apply tryCreateAttendance_of_invalid
  intro x hx
  apply validateAttendance_bad_method
  unfold attendanceInput at hx
  cases u with
  | none => simp at hx
  | some u =>
    simp only [Option.some.injEq] at hx
    subst hx
    show (requiredString (some "manual_admin")).bind (inEnum verificationMethodEnum) = none
    decide

/-- The operator check-in: accepted exactly for a confirmed or approved booking
of an operational amenity; the booking date is not consulted. -/
theorem adminCheckin_spec (db : Db) (op soc id : String) (b : Booking) (now : Nat)
    (hop : op ≠ "") (hsoc : soc ≠ "") (hid : ObjectId.isValid id = true)
    (hb : Booking.findById db id = some b) (hbs : b.societyId = soc) :
    (b.status ∈ ["confirmed", "approved"]
        ∧ (populateAmenity db b.amenityId).map (fun a => a.status) = some "operational" →
      PUT (operatorRequest op soc id "checked-in") now db
        = ({ status := 200,
             booking := some { b with status := "checked-in",
                                      timestamps := { entry := some now, exit := none } } },
           db.updateBooking id (fun x => { x with status := "checked-in",
                                                  timestamps := { entry := some now, exit := none } })))
    ∧ (¬ (b.status ∈ ["confirmed", "approved"]
        ∧ (populateAmenity db b.amenityId).map (fun a => a.status) = some "operational") →
      PUT (operatorRequest op soc id "checked-in") now db = ({ status := 400 }, db)) := by
  rw [bookingPUT_found db op soc id "checked-in" b now hop hsoc hid (by decide) hb hbs]
  have hupd : BookingUpdate.applyTo
        { status := "checked-in", timestampsEntry := some (some now), timestampsExit := some none }
        = (fun x => { x with status := "checked-in",
                             timestamps := { entry := some now, exit := none } }) := by
    funext x
    simp [BookingUpdate.applyTo]
  constructor
  · rintro ⟨hst, ham⟩
    have hne : "checked-in" ≠ b.status := by
      intro h
      rw [← h] at hst
      simp at hst
    unfold applyStatus
    simp [hne, hst, ham, prepareUpdate, Booking.findByIdAndUpdate, bookingStatusEnum, hb, hupd,
      adminAttendance_swallowed]
  · intro hnot
    unfold applyStatus
    by_cases h1 : "checked-in" = b.status
    · simp [h1]
    · by_cases hst : b.status ∈ ["confirmed", "approved"]
      · have ham : ¬ ((populateAmenity db b.amenityId).map (fun a => a.status)
            = some "operational") := fun h => hnot ⟨hst, h⟩
        simp [h1, hst, ham]
      · simp [h1, hst]

/-- The operator check-out: accepted exactly from `checked-in`; the exit
timestamp is the request time and a missing entry timestamp is filled in. -/
theorem adminCheckout_spec (db : Db) (op soc id : String) (b : Booking) (now : Nat)
    (hop : op ≠ "") (hsoc : soc ≠ "") (hid : ObjectId.isValid id = true)
    (hb : Booking.findById db id = some b) (hbs : b.societyId = soc) :
    (b.status = "checked-in" →
      PUT (operatorRequest op soc id "checked-out") now db
        = ({ status := 200,
             booking := some { b with status := "checked-out",
                                      timestamps := { entry := some (b.timestamps.entry.getD now),
                                                      exit := some now } } },
           db.updateBooking id (fun _ => { b with status := "checked-out",
                                                  timestamps := { entry := some (b.timestamps.entry.getD now),
                                                                  exit := some now } })))
    ∧ (b.status ≠ "checked-in" →
      PUT (operatorRequest op soc id "checked-out") now db = ({ status := 400 }, db)) := by
  rw [bookingPUT_found db op soc id "checked-out" b now hop hsoc hid (by decide) hb hbs]
  constructor
  · intro hst
    have hne : "checked-out" ≠ b.status := by
      rw [hst]
      decide
    unfold applyStatus
    simp only [hne, hst, if_false, prepareUpdate, Booking.findByIdAndUpdate, bookingStatusEnum, hb,
      adminAttendance_swallowed]
    rw [Db.updateBooking_const db _ hb]
    cases he : b.timestamps.entry <;> simp [he, BookingUpdate.applyTo]
  · intro hst
    unfold applyStatus
    by_cases h1 : "checked-out" = b.status
    · simp [h1]
    · simp [h1, hst]

end AdminBookingStatus

/-! ## The QR check-in route -/

namespace AmenityCheckin

/-- The attendance entry of the QR check-in never validates: `verifiedBy` is
the device name of the stub, which is no `ObjectId`. -/
theorem checkinAttendance_swallowed (db : Db) (b : Booking) (u : Option User)
    (a : Option Amenity) (now : Nat) :
    tryCreateAttendance db (attendanceInput b u a "GUARD_DEVICE_001" now) = db := by
  apply tryCreateAttendance_of_invalid
  intro x hx
  apply validateAttendance_bad_verifiedBy
  unfold attendanceInput at hx
  split at hx
  · simp only [Option.some.injEq] at hx
    subst hx
    show castObjectId (some "GUARD_DEVICE_001") = none
    decide
  · cases hx

theorem parseQr_ne_empty {qr : JsonText} {id : String} (h : parseQr qr = some id) :
    qr ≠ .unparsable "" := by
  rintro rfl
  simp [parseQr, JSON.parse] at h

/-- A missing, unreadable or wrong-typed token is answered 400 and nothing is
written. -/
theorem checkinPOST_unreadable (db : Db) (req : Request) (now : Nat)
    (h : ∀ qr, req.qrDataString = some qr → parseQr qr = none) :
    POST req now db = ({ status := 400 }, db) := by
  unfold POST
  cases hq : req.qrDataString with
  | none => simp [verifyGuardToken]
  | some qr =>
    simp only [verifyGuardToken, Bool.not_true, Bool.false_eq_true, if_false, h qr hq]
    split <;> rfl

/-- A token for an unknown booking is answered 404 and nothing is written. -/
theorem checkinPOST_unknown (db : Db) (qr : JsonText) (id : String) (now : Nat)
    (hparse : parseQr qr = some id) (hb : Booking.findById db id = none) :
    POST { qrDataString := some qr } now db = ({ status := 404 }, db) := by
  unfold POST
  simp [verifyGuardToken, parseQr_ne_empty hparse, hparse, hb]

/-- A failed precondition (status, amenity, day) is answered 400 and nothing is
written. -/
theorem checkinPOST_precondition (db : Db) (qr : JsonText) (id : String) (b : Booking) (now : Nat)
    (hparse : parseQr qr = some id) (hb : Booking.findById db id = some b)
    (hnot : ¬ (b.status ∈ ["confirmed", "approved"]
      ∧ (populateAmenity db b.amenityId).map (fun a => a.status) = some "operational"
      ∧ formatYMD now = formatYMD b.bookingDate)) :
    POST { qrDataString := some qr } now db = ({ status := 400 }, db) := by
  unfold POST afterFind
  simp only [verifyGuardToken, Bool.not_true, Bool.false_eq_true, if_false,
    parseQr_ne_empty hparse, hparse, hb]
  by_cases h1 : b.status ∈ ["confirmed", "approved"]
  · by_cases h2 : (populateAmenity db b.amenityId).map (fun a => a.status) = some "operational"
    · have h3 : formatYMD now ≠ formatYMD b.bookingDate := fun h => hnot ⟨h1, h2, h⟩
      simp [h1, h2, h3]
    · simp [h1, h2]
  · simp [h1]

/-- When every precondition holds the booking is saved as checked-in (its
timestamps as they were); the answer is 200 when the resident of the booking
still exists and 500 otherwise. -/
theorem checkinPOST_accepted (db : Db) (qr : JsonText) (id : String) (b : Booking) (now : Nat)
    (hparse : parseQr qr = some id) (hb : Booking.findById db id = some b)
    (hst : b.status ∈ ["confirmed", "approved"])
    (ham : (populateAmenity db b.amenityId).map (fun a => a.status) = some "operational")
    (hday : formatYMD now = formatYMD b.bookingDate) :
    POST { qrDataString := some qr } now db
      = ({ status := if (populateUser db b.userId).isSome then 200 else 500 },
         db.updateBooking id (fun _ => { b with status := "checked-in" })) := by
  unfold POST afterFind
  simp only [verifyGuardToken, Bool.not_true, Bool.false_eq_true, if_false,
    parseQr_ne_empty hparse, hparse, hb, hst, ham, hday, not_true_eq_false, ne_eq]
  simp only [BookingDoc.save, BookingDoc.setStatus, BookingDoc.setOwnProp, bookingStatusEnum,
    checkinAttendance_swallowed, Booking.findById_booking_id hb]
  simp
  cases populateUser db b.userId <;> simp

end AmenityCheckin

/-! ## The check-out route -/

namespace AmenityCheckout

/-- The attendance entry of the check-out route never validates: it carries no
`personName`. -/
theorem checkoutAttendance_swallowed (db : Db) (b : Booking) (guardId : String) (now : Nat) :
    tryCreateAttendance db (attendanceInput b guardId now) = db := by
  apply tryCreateAttendance_of_invalid
  intro x hx
  apply validateAttendance_no_personName
  unfold attendanceInput at hx
  simp only [Option.some.injEq] at hx
  subst hx
  rfl

/-- The check-out scan: accepted exactly from `checked-in`; the stored booking
changes in its status only. -/
theorem checkoutPOST_spec (db : Db) (id : String) (b : Booking) (now : Nat)
    (hid : ObjectId.isValid id = true) (hb : Booking.findById db id = some b) :
    (b.status = "checked-in" →
      POST { bookingId := some id } now db
        = ({ status := 200 }, db.updateBooking id (fun _ => { b with status := "checked-out" })))
    ∧ (b.status ≠ "checked-in" →
      POST { bookingId := some id } now db = ({ status := 400 }, db)) := by
  have hid' := ObjectId.isValid_ne_empty hid
  constructor
  · intro hst
    unfold POST
    simp [verifyGuardToken, truthy, hid, hid', hb, hst, BookingDoc.save, BookingDoc.setStatus,
      BookingDoc.setOwnProp, bookingStatusEnum, checkoutAttendance_swallowed,
      Booking.findById_booking_id hb]
  · intro hst
    unfold POST
    simp [verifyGuardToken, truthy, hid, hid', hb, hst]

end AmenityCheckout

/-! ## The operator's guest status route -/

namespace AdminGuestStatus

/-- An authenticated operator request with an allowed status for an existing
guest is carried out whatever the guest's current status is. -/
theorem guestPUT_found (db : Db) (op : String) (soc : Option String) (id s : String) (g : Guest)
    (now : Nat) (hop : op ≠ "") (hid : ObjectId.isValid id = true)
    (hs : s ∈ ALLOWED_ADMIN_STATUSES) (hg : Guest.findById db id = some g) :
    PUT (operatorRequest op soc id s) now db
      = ({ status := 200, guest := some ((prepareUpdate s now).applyTo g) },
         db.updateGuest id (prepareUpdate s now).applyTo) := by
  have hs' : s ≠ "" := by
    rintro rfl
    simp [ALLOWED_ADMIN_STATUSES] at hs
  have hid' := ObjectId.isValid_ne_empty hid
  have hen : (prepareUpdate s now).status ∈ guestStatusEnum := by
    have : (prepareUpdate s now).status = s := by
      unfold prepareUpdate
      split_ifs <;> rfl
    rw [this]
    simp [ALLOWED_ADMIN_STATUSES] at hs
    rcases hs with rfl | rfl | rfl | rfl <;> decide
  simp [PUT, operatorRequest, verifyAdmin, truthy, hop, hid, hid', hs', hs,
    Guest.findByIdAndUpdate, hen, hg]

end AdminGuestStatus

/-! ## The vehicle scan route -/

namespace VehicleScan

theorem findLatest_some {α : Type} (p : α → Bool) (key : α → Nat) (l : List α) (i : Nat) (y : α)
    (h : findLatest p key l = some (i, y)) : l[i]? = some y ∧ p y = true := by
  induction l generalizing i y with
  | nil => simp [findLatest] at h
  | cons x xs ih =>
    unfold findLatest at h
    cases hrec : findLatest p key xs with
    | none =>
      rw [hrec] at h
      by_cases hp : p x = true
      · simp [hp] at h
        obtain ⟨rfl, rfl⟩ := h
        simp [hp]
      · simp [hp] at h
    | some r =>
      obtain ⟨i', z⟩ := r
      rw [hrec] at h
      have hz := ih i' z hrec
      by_cases hc : (p x && decide (key z ≤ key x)) = true
      · simp only [hc, if_true, Option.some.injEq, Prod.mk.injEq] at h
        obtain ⟨rfl, rfl⟩ := h
        simp at hc
        simp [hc.1]
      · simp only [hc, Bool.false_eq_true, if_false, Option.some.injEq, Prod.mk.injEq] at h
        obtain ⟨rfl, rfl⟩ := h
        simpa using hz

/-- A match whose key is strictly greater than that of every other match is
the one the sorted query selects. -/
theorem findLatest_eq {α : Type} (p : α → Bool) (key : α → Nat) (l : List α) (j : Nat) (y : α)
    (hj : l[j]? = some y) (hp : p y = true)
    (hmax : ∀ i x, i ≠ j → l[i]? = some x → p x = true → key x < key y) :
    findLatest p key l = some (j, y) := by
  induction l generalizing j with
  | nil => simp at hj
  | cons x xs ih =>
    unfold findLatest
    cases j with
    | zero =>
      simp at hj
      subst hj
      cases hrec : findLatest p key xs with
      | none => simp [hp]
      | some r =>
        obtain ⟨i', z⟩ := r
        have hz := findLatest_some p key xs i' z hrec
        have hlt := hmax (i' + 1) z (by simp) (by simpa using hz.1) hz.2
        simp [hp, Nat.le_of_lt hlt]
    | succ j' =>
      have hrec := ih j' (by simpa using hj)
        (fun i x' hi hx' hpx' => hmax (i + 1) x' (by simpa using hi) (by simpa using hx') hpx')
      rw [hrec]
      by_cases hpx : p x = true
      · have hlt := hmax 0 x (by simp) (by simp) hpx
        simp [hpx, Nat.not_le_of_lt hlt]
      · simp [hpx]

/-- The vehicle records after an exit scan are those the sorted
`findOneAndUpdate` leaves, whether or not the ledger write then succeeds. -/
theorem POSTas_exit (payload : GuardPayload) (req : Request) (now : Nat) (db : Db)
    (hv : (!truthy req.plateNumber || !truthy req.direction || !truthy req.gateLocation) = false)
    (hd : req.direction.getD "" = "exit") :
    (POSTas payload req now db).2.vehicleEntries
      = (findOneAndUpdateExit db.vehicleEntries (req.plateNumber.getD "") payload.societyId now).2 := by
  unfold POSTas
  simp only [hv, Bool.false_eq_true, if_false, hd]
  rw [if_neg (show ¬ ("exit" = "entry") by decide), if_pos trivial]
  split
  · split
    · rfl
    · next db2 hc =>
      obtain ⟨e, -, rfl⟩ := AttendanceLog.create_some hc
      rfl
  · rfl

theorem classifyEntry_vehicleEntries {db : Db} {soc plate : String} {now : Nat} {c : Classified}
    (h : classifyEntry db soc plate now = some c) : c.db.vehicleEntries = db.vehicleEntries := by
  unfold classifyEntry at h
  split at h
  · simp at h
  · simp only [Option.some.injEq] at h
    subst h
    rfl
  · split at h
    · simp only [Option.map_eq_some'] at h
      obtain ⟨db1, hsave, rfl⟩ := h
      split at hsave
      · unfold GuestDoc.save at hsave
        split at hsave
        · simp only [Option.some.injEq] at hsave
          subst hsave
          rfl
        · simp at hsave
      · simp only [Option.some.injEq] at hsave
        subst hsave
        rfl
    · simp only [Option.some.injEq] at h
      subst h
      rfl

/-- An entry scan leaves the vehicle records as they were or appends exactly
one record for the scanned plate. -/
theorem POSTas_entry (payload : GuardPayload) (req : Request) (now : Nat) (db : Db)
    (hv : (!truthy req.plateNumber || !truthy req.direction || !truthy req.gateLocation) = false)
    (hd : req.direction.getD "" = "entry") :
    (POSTas payload req now db).2.vehicleEntries = db.vehicleEntries
    ∨ ∃ c, (POSTas payload req now db).2.vehicleEntries
        = db.vehicleEntries
          ++ [entryRecord payload (req.plateNumber.getD "") req.imageOfPlateUrl now c] := by
  unfold POSTas
  simp only [hv, Bool.false_eq_true, if_false, hd, if_true]
  split
  · exact Or.inl rfl
  · next c hc =>
    have hve := classifyEntry_vehicleEntries hc
    refine Or.inr ⟨c, ?_⟩
    split
    · simp [hve]
    · next db2 hcr =>
      obtain ⟨e, -, rfl⟩ := AttendanceLog.create_some hcr
      simp [hve]

/-- What one scan can do to the vehicle records: nothing, append one open
record for the scanned plate and society, or overwrite one record with a closed
one. -/
theorem POSTas_vehicleEntries_cases (payload : GuardPayload) (req : Request) (now : Nat)
    (db : Db) :
    (POSTas payload req now db).2.vehicleEntries = db.vehicleEntries
    ∨ (req.direction = some "entry" ∧ ∃ v : VehicleEntryLog,
        v.vehicleNumber = req.plateNumber.getD "" ∧ v.societyId = payload.societyId
        ∧ (POSTas payload req now db).2.vehicleEntries = db.vehicleEntries ++ [v])
    ∨ (∃ i v, v.exitTime ≠ none
        ∧ (POSTas payload req now db).2.vehicleEntries = db.vehicleEntries.set i v) := by
  by_cases hv : (!truthy req.plateNumber || !truthy req.direction || !truthy req.gateLocation) = true
  · left
    simp [POSTas, hv]
  · simp only [Bool.not_eq_true] at hv
    by_cases hde : req.direction.getD "" = "entry"
    · have hd : req.direction = some "entry" := by
        cases hreq : req.direction with
        | none => simp [hreq] at hde
        | some d =>
          simp [hreq] at hde
          simp [hde]
      rcases POSTas_entry payload req now db hv hde with h | ⟨c, h⟩
      · exact Or.inl h
      · exact Or.inr (Or.inl ⟨hd, _, rfl, rfl, h⟩)
    · by_cases hdx : req.direction.getD "" = "exit"
      · rw [POSTas_exit payload req now db hv hdx]
        unfold findOneAndUpdateExit
        split
        · exact Or.inl rfl
        · next i v hfl =>
          exact Or.inr (Or.inr ⟨i, { v with exitTime := some now }, by simp, rfl⟩)
      · left
        unfold POSTas
        simp only [hv, Bool.false_eq_true, if_false, hde, hdx]

theorem countP_set_le {α : Type} (p : α → Bool) (l : List α) (i : Nat) (x : α)
    (hx : p x = false) : (l.set i x).countP p ≤ l.countP p := by
  induction l generalizing i with
  | nil => simp
  | cons y ys ih =>
    cases i with
    | zero =>
      simp only [List.set_cons_zero, List.countP_cons, hx]
      simp
    | succ i' =>
      simp only [List.set_cons_succ, List.countP_cons]
      exact Nat.add_le_add_right (ih i') _

/-- One scan keeps "at most one open record per plate and society" when, if it
is an entry scan, the plate has no open record in the scanning society. -/
theorem step_preserves (db : Db) (s : Scan)
    (hinv : ∀ plate soc, openCount plate soc db ≤ 1)
    (hguard : s.req.direction = some "entry" →
      openCount (s.req.plateNumber.getD "") s.payload.societyId db = 0) :
    ∀ plate soc, openCount plate soc (step db s) ≤ 1 := by
  intro plate soc
  unfold openCount step
  rcases POSTas_vehicleEntries_cases s.payload s.req s.now db with
    h | ⟨hd, v, hv1, hv2, h⟩ | ⟨i, v, hv, h⟩
  · rw [h]
    exact hinv plate soc
  · rw [h, List.countP_append]
    by_cases hp : isOpenFor plate soc v = true
    · have hp' := hp
      simp only [isOpenFor, Bool.and_eq_true, beq_iff_eq] at hp'
      obtain ⟨⟨h1, h2⟩, -⟩ := hp'
      have h0 := hguard hd
      rw [← hv1, ← hv2, h1, h2] at h0
      unfold openCount at h0
      rw [h0]
      simp [hp]
    · have := hinv plate soc
      unfold openCount at this
      simp [hp]
      exact this
  · rw [h]
    refine le_trans (countP_set_le _ _ i v ?_) (hinv plate soc)
    cases hx : v.exitTime with
    | none => exact absurd hx hv
    | some t => simp [isOpenFor, hx]

end VehicleScan

/-! ## The claims -/

/-- C1: the operator check-in does not compare the booking date with today. A
confirmed booking of an operational amenity, dated day 10, is checked in by a
request made on day 20: the answer is 200 and the stored booking is
`checked-in` with its entry timestamp stamped, where the claim requires the
request to be rejected and the booking to stay as it was. -/
theorem C1_admin_checkin_accepts_other_day :
    (Example.booking "confirmed").status = "confirmed"
    ∧ populateAmenity (Example.store "confirmed") (Example.booking "confirmed").amenityId
        = some Example.pool
    ∧ formatYMD (20 * msPerDay + 5) ≠ formatYMD (Example.booking "confirmed").bookingDate
    ∧ (AdminBookingStatus.PUT (Example.adminRequest "checked-in") (20 * msPerDay + 5)
        (Example.store "confirmed")).1.status = 200
    ∧ (AdminBookingStatus.PUT (Example.adminRequest "checked-in") (20 * msPerDay + 5)
        (Example.store "confirmed")).2.bookings
        = [{ Example.booking "confirmed" with
              status := "checked-in",
              timestamps := { entry := some (20 * msPerDay + 5), exit := none } }] := by
  decide

/-- C2: a QR check-in whose every stated precondition holds (well-formed token
of type `AMENITY_BOOKING`, existing confirmed booking, operational amenity,
same day) is answered 500, not 200, when the resident of the booking no longer
exists: the booking has by then been saved as `checked-in`, so a rejected
request has changed a booking. -/
theorem C2_checkin_of_orphan_booking_fails_after_save :
    AmenityCheckin.parseQr Example.qrToken = some (Example.booking "confirmed")._id
    ∧ Booking.findById (Example.orphanStore "confirmed") (Example.booking "confirmed")._id
        = some (Example.booking "confirmed")
    ∧ populateAmenity (Example.orphanStore "confirmed") (Example.booking "confirmed").amenityId
        = some Example.pool
    ∧ formatYMD (10 * msPerDay + 3600000) = formatYMD (Example.booking "confirmed").bookingDate
    ∧ (AmenityCheckin.POST { qrDataString := some Example.qrToken } (10 * msPerDay + 3600000)
        (Example.orphanStore "confirmed")).1.status = 500
    ∧ (AmenityCheckin.POST { qrDataString := some Example.qrToken } (10 * msPerDay + 3600000)
        (Example.orphanStore "confirmed")).2.bookings
        = [{ Example.booking "confirmed" with status := "checked-in" }] := by
  decide

/-- C3: a check-out through `POST /api/amenities/checkout` of a checked-in
booking is answered 200 and stores the status `checked-out`, but the exit
timestamp of the stored booking stays empty; the same check-out through the
operator route stores the request time as exit timestamp. -/
theorem C3_checkout_scan_leaves_exit_timestamp_empty :
    (AmenityCheckout.POST { bookingId := some "64b000000000000000000001" } 777
        (Example.store "checked-in")).1.status = 200
    ∧ (AmenityCheckout.POST { bookingId := some "64b000000000000000000001" } 777
        (Example.store "checked-in")).2.bookings
        = [{ Example.booking "checked-in" with status := "checked-out" }]
    ∧ ((AmenityCheckout.POST { bookingId := some "64b000000000000000000001" } 777
        (Example.store "checked-in")).2.bookings.map (fun b => b.timestamps.exit)) = [none]
    ∧ ((AdminBookingStatus.PUT (Example.adminRequest "checked-out") 777
        (Example.store "checked-in")).2.bookings.map (fun b => b.timestamps.exit)) = [some 777] := by
  decide

/-- C4: for every booking of the operator's society and every status the
endpoint accepts, a request for the status the booking already has is answered
400 and the store (the booking with all its timestamps, and the attendance
ledger) is left exactly as it was. -/
theorem C4_same_status_rejected (db : Db) (op soc id s : String) (b : Booking) (now : Nat)
    (hop : op ≠ "") (hsoc : soc ≠ "") (hid : ObjectId.isValid id = true)
    (hs : s ∈ AdminBookingStatus.ALLOWED_BOOKING_STATUSES_BY_ADMIN)
    (hb : Booking.findById db id = some b) (hbs : b.societyId = soc)
    (hsame : s = b.status) :
    (AdminBookingStatus.PUT (AdminBookingStatus.operatorRequest op soc id s) now db).1.status = 400
    ∧ (AdminBookingStatus.PUT (AdminBookingStatus.operatorRequest op soc id s) now db).2 = db := by
  rw [AdminBookingStatus.bookingPUT_found db op soc id s b now hop hsoc hid hs hb hbs]
  simp [AdminBookingStatus.applyStatus, hsame]

/-- Instance of C4: asking again for `confirmed` on a confirmed booking. -/
theorem C4_same_status_rejected_witness :
    (AdminBookingStatus.PUT (Example.adminRequest "confirmed") 5
        (Example.store "confirmed")).1.status = 400
    ∧ (AdminBookingStatus.PUT (Example.adminRequest "confirmed") 5 (Example.store "confirmed")).2
        = Example.store "confirmed" :=
  C4_same_status_rejected (Example.store "confirmed") Example.operator Example.society
    "64b000000000000000000001" "confirmed" (Example.booking "confirmed") 5
    (by decide) (by decide) (by decide) (by decide) (by decide) (by decide) (by decide)

/-- C5, as stated, fails: a `confirmed` request on a checked-in booking is
answered 200 and the booking becomes `confirmed`. -/
theorem C5_confirm_from_checked_in_accepted :
    (Example.booking "checked-in").status = "checked-in"
    ∧ (AdminBookingStatus.PUT (Example.adminRequest "confirmed") 5
        (Example.store "checked-in")).1.status = 200
    ∧ (AdminBookingStatus.PUT (Example.adminRequest "confirmed") 5
        (Example.store "checked-in")).2.bookings
        = [{ Example.booking "checked-in" with status := "confirmed" }] := by
  decide

/-- C5, amended: the operator `confirmed` request is rejected (400, store
unchanged) exactly when the booking is already confirmed; from every other
current status it is answered 200 and changes the status of the booking, and
nothing else in the store, to `confirmed`. -/
theorem C5_confirm_from_any_other_status (db : Db) (op soc id : String) (b : Booking) (now : Nat)
    (hop : op ≠ "") (hsoc : soc ≠ "") (hid : ObjectId.isValid id = true)
    (hb : Booking.findById db id = some b) (hbs : b.societyId = soc) :
    (b.status = "confirmed" →
        (AdminBookingStatus.PUT (AdminBookingStatus.operatorRequest op soc id "confirmed")
            now db).1.status = 400
        ∧ (AdminBookingStatus.PUT (AdminBookingStatus.operatorRequest op soc id "confirmed")
            now db).2 = db)
    ∧ (b.status ≠ "confirmed" →
        (AdminBookingStatus.PUT (AdminBookingStatus.operatorRequest op soc id "confirmed")
            now db).1.status = 200
        ∧ (AdminBookingStatus.PUT (AdminBookingStatus.operatorRequest op soc id "confirmed")
            now db).2 = db.updateBooking id (fun x => { x with status := "confirmed" })
        ∧ Booking.findById
            (AdminBookingStatus.PUT (AdminBookingStatus.operatorRequest op soc id "confirmed")
              now db).2 id
            = some { b with status := "confirmed" }) := by
  rw [AdminBookingStatus.bookingPUT_found db op soc id "confirmed" b now hop hsoc hid
    (by decide) hb hbs]
  have hupd : BookingUpdate.applyTo { status := "confirmed" }
        = (fun x => { x with status := "confirmed" }) := by
    funext x
    simp [BookingUpdate.applyTo]
  constructor
  · intro hc
    simp [AdminBookingStatus.applyStatus, hc]
  · intro hc
    have hne : "confirmed" ≠ b.status := fun h => hc h.symm
    have h200 : AdminBookingStatus.applyStatus db id op "confirmed" b now
        = ({ status := 200, booking := some { b with status := "confirmed" } },
           db.updateBooking id (fun x => { x with status := "confirmed" })) := by
      unfold AdminBookingStatus.applyStatus
      simp [hne, AdminBookingStatus.prepareUpdate, Booking.findByIdAndUpdate, bookingStatusEnum,
        hb, hupd]
    rw [h200]
    exact ⟨rfl, rfl, Booking.findById_updateBooking _ hb rfl⟩

/-- Instance of the amended C5: confirming a pending booking. -/
theorem C5_confirm_from_any_other_status_witness :
    (AdminBookingStatus.PUT (Example.adminRequest "confirmed") 5
        (Example.store "pending")).1.status = 200
    ∧ Booking.findById
        (AdminBookingStatus.PUT (Example.adminRequest "confirmed") 5 (Example.store "pending")).2
        "64b000000000000000000001"
        = some { Example.booking "pending" with status := "confirmed" } :=
  have h := (C5_confirm_from_any_other_status (Example.store "pending") Example.operator
    Example.society "64b000000000000000000001" (Example.booking "pending") 5
    (by decide) (by decide) (by decide) (by decide) (by decide)).2 (by decide)
  ⟨h.1, h.2.2⟩

/-- C6: the operator `cancelled` request is answered 200 if and only if the
current status is none of `checked-out`, `completed`, `no_show`, `cancelled`;
on success the booking, and nothing else in the store, changes: its status is
`cancelled` and `cancelledAt` is the request time, entry and exit timestamps as
before; otherwise the answer is 400 and the store is unchanged. -/
theorem C6_cancel_transition (db : Db) (op soc id : String) (b : Booking) (now : Nat)
    (hop : op ≠ "") (hsoc : soc ≠ "") (hid : ObjectId.isValid id = true)
    (hb : Booking.findById db id = some b) (hbs : b.societyId = soc) :
    ((AdminBookingStatus.PUT (AdminBookingStatus.operatorRequest op soc id "cancelled")
        now db).1.status = 200
      ↔ b.status ∉ ["checked-out", "completed", "no_show", "cancelled"])
    ∧ (b.status ∉ ["checked-out", "completed", "no_show", "cancelled"] →
        (AdminBookingStatus.PUT (AdminBookingStatus.operatorRequest op soc id "cancelled")
            now db).2
          = db.updateBooking id (fun x => { x with status := "cancelled", cancelledAt := some now })
        ∧ Booking.findById
            (AdminBookingStatus.PUT (AdminBookingStatus.operatorRequest op soc id "cancelled")
              now db).2 id
          = some { b with status := "cancelled", cancelledAt := some now })
    ∧ (b.status ∈ ["checked-out", "completed", "no_show", "cancelled"] →
        (AdminBookingStatus.PUT (AdminBookingStatus.operatorRequest op soc id "cancelled")
            now db).1.status = 400
        ∧ (AdminBookingStatus.PUT (AdminBookingStatus.operatorRequest op soc id "cancelled")
            now db).2 = db) := by
  rw [AdminBookingStatus.bookingPUT_found db op soc id "cancelled" b now hop hsoc hid
    (by decide) hb hbs]
  have hupd : BookingUpdate.applyTo { status := "cancelled", cancelledAt := some now }
        = (fun x => { x with status := "cancelled", cancelledAt := some now }) := by
    funext x
    simp [BookingUpdate.applyTo]
  by_cases hc : b.status ∈ ["checked-out", "completed", "no_show", "cancelled"]
  · have h400 : AdminBookingStatus.applyStatus db id op "cancelled" b now
        = ({ status := 400 }, db) := by
      unfold AdminBookingStatus.applyStatus
      by_cases h1 : "cancelled" = b.status
      · simp [h1]
      · simp [h1, hc]
    rw [h400]
    simp [hc]
  · have hne : "cancelled" ≠ b.status := by
      intro h
      apply hc
      simp [← h]
    have h200 : AdminBookingStatus.applyStatus db id op "cancelled" b now
        = ({ status := 200,
             booking := some { b with status := "cancelled", cancelledAt := some now } },
           db.updateBooking id
             (fun x => { x with status := "cancelled", cancelledAt := some now })) := by
      unfold AdminBookingStatus.applyStatus
      simp [hne, hc, AdminBookingStatus.prepareUpdate, Booking.findByIdAndUpdate,
        bookingStatusEnum, hb, hupd]
    rw [h200]
    refine ⟨by simp [hc], fun _ => ⟨rfl, ?_⟩, fun h => absurd h hc⟩
    exact Booking.findById_updateBooking _ hb rfl

/-- Instance of C6: cancelling a checked-in booking at instant 777. -/
theorem C6_cancel_transition_witness :
    (AdminBookingStatus.PUT (Example.adminRequest "cancelled") 777
        (Example.store "checked-in")).1.status = 200
    ∧ Booking.findById
        (AdminBookingStatus.PUT (Example.adminRequest "cancelled") 777
          (Example.store "checked-in")).2 "64b000000000000000000001"
        = some { Example.booking "checked-in" with status := "cancelled", cancelledAt := some 777 } :=
  have h := C6_cancel_transition (Example.store "checked-in") Example.operator
    Example.society "64b000000000000000000001" (Example.booking "checked-in") 777
    (by decide) (by decide) (by decide) (by decide) (by decide)
  ⟨h.1.mpr (by decide), (h.2.1 (by decide)).2⟩

/-- C7, as stated, fails: a `no_show` request made at instant 5 on a confirmed
booking dated day 10, with no override in the request, is answered 200 and the
booking becomes `no_show`. -/
theorem C7_no_show_before_booking_date_accepted :
    5 < (Example.booking "confirmed").bookingDate
    ∧ (AdminBookingStatus.PUT (Example.adminRequest "no_show") 5
        (Example.store "confirmed")).1.status = 200
    ∧ (AdminBookingStatus.PUT (Example.adminRequest "no_show") 5
        (Example.store "confirmed")).2.bookings
        = [{ Example.booking "confirmed" with status := "no_show" }] := by
  decide

/-- C7, amended: the operator `no_show` request is answered 200 if and only if
the current status is `confirmed` or `approved`, whatever the booking date and
the request time; on success only the status of the booking changes; otherwise
the answer is 400 and the store is unchanged. -/
theorem C7_no_show_depends_on_status_only (db : Db) (op soc id : String) (b : Booking) (now : Nat)
    (hop : op ≠ "") (hsoc : soc ≠ "") (hid : ObjectId.isValid id = true)
    (hb : Booking.findById db id = some b) (hbs : b.societyId = soc) :
    ((AdminBookingStatus.PUT (AdminBookingStatus.operatorRequest op soc id "no_show")
        now db).1.status = 200
      ↔ b.status ∈ ["confirmed", "approved"])
    ∧ (b.status ∈ ["confirmed", "approved"] →
        (AdminBookingStatus.PUT (AdminBookingStatus.operatorRequest op soc id "no_show")
            now db).2 = db.updateBooking id (fun x => { x with status := "no_show" })
        ∧ Booking.findById
            (AdminBookingStatus.PUT (AdminBookingStatus.operatorRequest op soc id "no_show")
              now db).2 id
            = some { b with status := "no_show" })
    ∧ (b.status ∉ ["confirmed", "approved"] →
        (AdminBookingStatus.PUT (AdminBookingStatus.operatorRequest op soc id "no_show")
            now db).1.status = 400
        ∧ (AdminBookingStatus.PUT (AdminBookingStatus.operatorRequest op soc id "no_show")
            now db).2 = db) := by
  rw [AdminBookingStatus.bookingPUT_found db op soc id "no_show" b now hop hsoc hid
    (by decide) hb hbs]
  have hupd : BookingUpdate.applyTo { status := "no_show" }
        = (fun x => { x with status := "no_show" }) := by
    funext x
    simp [BookingUpdate.applyTo]
  by_cases hc : b.status ∈ ["confirmed", "approved"]
  · have hne : "no_show" ≠ b.status := by
      intro h
      rw [← h] at hc
      simp at hc
    have h200 : AdminBookingStatus.applyStatus db id op "no_show" b now
        = ({ status := 200, booking := some { b with status := "no_show" } },
           db.updateBooking id (fun x => { x with status := "no_show" })) := by
      unfold AdminBookingStatus.applyStatus
      simp [hne, hc, AdminBookingStatus.prepareUpdate, Booking.findByIdAndUpdate,
        bookingStatusEnum, hb, hupd]
    rw [h200]
    exact ⟨by simp [hc], fun _ => ⟨rfl, Booking.findById_updateBooking _ hb rfl⟩,
      fun h => absurd hc h⟩
  · have h400 : AdminBookingStatus.applyStatus db id op "no_show" b now
        = ({ status := 400 }, db) := by
      unfold AdminBookingStatus.applyStatus
      by_cases h1 : "no_show" = b.status
      · simp [h1]
      · simp [h1, hc]
    rw [h400]
    simp [hc]

/-- Instance of the amended C7: an approved booking is marked `no_show`, a
pending one is not. -/
theorem C7_no_show_depends_on_status_only_witness :
    (AdminBookingStatus.PUT (Example.adminRequest "no_show") 777
        (Example.store "approved")).1.status = 200
    ∧ (AdminBookingStatus.PUT (Example.adminRequest "no_show") 777
        (Example.store "pending")).1.status = 400 :=
  ⟨(C7_no_show_depends_on_status_only (Example.store "approved") Example.operator
      Example.society "64b000000000000000000001" (Example.booking "approved") 777
      (by decide) (by decide) (by decide) (by decide) (by decide)).1.mpr (by decide),
   ((C7_no_show_depends_on_status_only (Example.store "pending") Example.operator
      Example.society "64b000000000000000000001" (Example.booking "pending") 777
      (by decide) (by decide) (by decide) (by decide) (by decide)).2.2 (by decide)).1⟩

theorem updateFirst_of_find?_none {α : Type} (p : α → Bool) (f : α → α) (l : List α)
    (h : l.find? p = none) : updateFirst p f l = l := by
  induction l with
  | nil => rfl
  | cons x xs ih =>
    by_cases hx : p x = true
    · simp [List.find?, hx] at h
    · simp only [Bool.not_eq_true] at hx
      simp only [List.find?, hx] at h
      simp [updateFirst, hx, ih h]

namespace AdminGuestStatus

/-- What the guest route refuses: a status outside the allowed list and a
malformed id with 400, an id of no guest with 404; the store is unchanged. -/
theorem guestPUT_rejected (db : Db) (op : String) (soc : Option String) (now : Nat)
    (hop : op ≠ "") :
    (∀ id' s', s' ∉ ALLOWED_ADMIN_STATUSES →
      PUT (operatorRequest op soc id' s') now db = ({ status := 400 }, db))
    ∧ (∀ id' s', ObjectId.isValid id' = false →
      PUT (operatorRequest op soc id' s') now db = ({ status := 400 }, db))
    ∧ (∀ id' s', ObjectId.isValid id' = true → s' ∈ ALLOWED_ADMIN_STATUSES →
      Guest.findById db id' = none →
      PUT (operatorRequest op soc id' s') now db = ({ status := 404 }, db)) := by
  refine ⟨?_, ?_, ?_⟩
  · intro id' s' hs
    simp [PUT, operatorRequest, verifyAdmin, truthy, hop, hs]
  · intro id' s' hid
    simp [PUT, operatorRequest, verifyAdmin, truthy, hop, hid]
  · intro id' s' hid hs hg
    have hs' : s' ≠ "" := by
      rintro rfl
      simp [ALLOWED_ADMIN_STATUSES] at hs
    have hid' := ObjectId.isValid_ne_empty hid
    have hen : (prepareUpdate s' now).status ∈ guestStatusEnum := by
      have : (prepareUpdate s' now).status = s' := by
        unfold prepareUpdate
        split_ifs <;> rfl
      rw [this]
      simp [ALLOWED_ADMIN_STATUSES] at hs
      rcases hs with rfl | rfl | rfl | rfl <;> decide
    have hdb : db.updateGuest id' (prepareUpdate s' now).applyTo = db := by
      unfold Db.updateGuest
      unfold Guest.findById at hg
      rw [updateFirst_of_find?_none _ _ _ hg]
    simp [PUT, operatorRequest, verifyAdmin, truthy, hop, hid, hid', hs', hs,
      Guest.findByIdAndUpdate, hen, hg, hdb]

end AdminGuestStatus

/-- C8, as stated, fails: the guest status route does not look at the current
status. A rejected guest is checked in (200, entry timestamp stamped), and a
request for `approved` on an approved guest is answered 200. -/
theorem C8_guest_route_accepts_illegal_transitions :
    (AdminGuestStatus.PUT
        (AdminGuestStatus.operatorRequest Example.operator none (Example.guest "rejected")._id
          "checked-in") 777 (Example.guestStore "rejected")).1.status = 200
    ∧ (AdminGuestStatus.PUT
        (AdminGuestStatus.operatorRequest Example.operator none (Example.guest "rejected")._id
          "checked-in") 777 (Example.guestStore "rejected")).2.guests
        = [{ Example.guest "rejected" with
              status := "checked-in", timestamps := { entry := some 777, exit := none } }]
    ∧ (AdminGuestStatus.PUT
        (AdminGuestStatus.operatorRequest Example.operator none (Example.guest "approved")._id
          "approved") 777 (Example.guestStore "approved")).1.status = 200 := by
  decide

/-- C8, amended: for every existing guest and every requested status among
`approved`, `rejected`, `checked-in`, `checked-out`, whatever the guest's
current status (the four legal transitions included), the request is answered
200; the guest gets the requested status, the entry timestamp is the request
time for `checked-in`, the exit timestamp is the request time for
`checked-out`, and nothing else in the store changes. A requested status
outside that list and a malformed id are answered 400, the id of no guest 404,
each with the store unchanged. -/
theorem C8_guest_status_set_from_any_status (db : Db) (op : String) (soc : Option String)
    (id s : String) (g : Guest) (now : Nat) (hop : op ≠ "") (hid : ObjectId.isValid id = true)
    (hs : s ∈ AdminGuestStatus.ALLOWED_ADMIN_STATUSES) (hg : Guest.findById db id = some g) :
    (AdminGuestStatus.PUT (AdminGuestStatus.operatorRequest op soc id s) now db).1.status = 200
    ∧ Guest.findById (AdminGuestStatus.PUT (AdminGuestStatus.operatorRequest op soc id s) now db).2
        id
        = some { g with
            status := s,
            timestamps :=
              { entry := if s = "checked-in" then some now else g.timestamps.entry,
                exit := if s = "checked-out" then some now else g.timestamps.exit } }
    ∧ (AdminGuestStatus.PUT (AdminGuestStatus.operatorRequest op soc id s) now db).2
        = db.updateGuest id (AdminGuestStatus.prepareUpdate s now).applyTo
    ∧ (∀ id' s', s' ∉ AdminGuestStatus.ALLOWED_ADMIN_STATUSES →
      AdminGuestStatus.PUT (AdminGuestStatus.operatorRequest op soc id' s') now db
        = ({ status := 400 }, db))
    ∧ (∀ id' s', ObjectId.isValid id' = false →
      AdminGuestStatus.PUT (AdminGuestStatus.operatorRequest op soc id' s') now db
        = ({ status := 400 }, db))
    ∧ (∀ id' s', ObjectId.isValid id' = true → s' ∈ AdminGuestStatus.ALLOWED_ADMIN_STATUSES →
      Guest.findById db id' = none →
      AdminGuestStatus.PUT (AdminGuestStatus.operatorRequest op soc id' s') now db
        = ({ status := 404 }, db)) := by
  have hrej := AdminGuestStatus.guestPUT_rejected db op soc now hop
  rw [AdminGuestStatus.guestPUT_found db op soc id s g now hop hid hs hg]
  refine ⟨rfl, ?_, rfl, hrej.1, hrej.2.1, hrej.2.2⟩
  rw [Guest.findById_updateGuest _ hg rfl]
  simp [AdminGuestStatus.ALLOWED_ADMIN_STATUSES] at hs
  rcases hs with rfl | rfl | rfl | rfl <;>
    simp [AdminGuestStatus.prepareUpdate, GuestUpdate.applyTo]

/-- Instance of the amended C8: a checked-out guest is set back to `approved`. -/
theorem C8_guest_status_set_from_any_status_witness :
    (AdminGuestStatus.PUT
        (AdminGuestStatus.operatorRequest Example.operator none (Example.guest "checked-out")._id
          "approved") 777 (Example.guestStore "checked-out")).1.status = 200 :=
  (C8_guest_status_set_from_any_status (Example.guestStore "checked-out") Example.operator none
    (Example.guest "checked-out")._id "approved" (Example.guest "checked-out") 777
    (by decide) (by decide) (by decide) (by decide)).1

/-- C9: let `E2` be an open record of the scanned plate in the scanning society
whose `entryTime` is later than that of every other open record of that plate
and society (so with two open records `E1` earlier and `E2` later, and equally
with `E2` the single open record). An exit scan of the plate then sets
`exitTime` to the scan time on `E2` and on no other record: the collection
afterwards is the old one with `E2` replaced, so it has the same length (no
record is created) and every other position holds what it held. -/
theorem C9_exit_scan_closes_latest_open (payload : VehicleScan.GuardPayload)
    (plate loc : String) (img : Option String) (now : Nat) (db : Db) (j : Nat)
    (E2 : VehicleEntryLog) (hplate : plate ≠ "") (hloc : loc ≠ "")
    (hj : db.vehicleEntries[j]? = some E2)
    (hopen : VehicleScan.isOpenFor plate payload.societyId E2 = true)
    (hlatest : ∀ i E1, i ≠ j → db.vehicleEntries[i]? = some E1 →
      VehicleScan.isOpenFor plate payload.societyId E1 = true → E1.entryTime < E2.entryTime) :
    (VehicleScan.POSTas payload (VehicleScan.exitRequest plate loc img) now db).2.vehicleEntries
        = db.vehicleEntries.set j { E2 with exitTime := some now }
    ∧ (VehicleScan.POSTas payload (VehicleScan.exitRequest plate loc img) now
        db).2.vehicleEntries.length = db.vehicleEntries.length
    ∧ ∀ i, i ≠ j →
        (VehicleScan.POSTas payload (VehicleScan.exitRequest plate loc img) now
          db).2.vehicleEntries[i]? = db.vehicleEntries[i]? := by
  have hset :
      (VehicleScan.POSTas payload (VehicleScan.exitRequest plate loc img) now db).2.vehicleEntries
        = db.vehicleEntries.set j { E2 with exitTime := some now } := by
    rw [VehicleScan.POSTas_exit payload (VehicleScan.exitRequest plate loc img) now db
      (by simp [VehicleScan.exitRequest, truthy, hplate, hloc]) rfl]
    unfold VehicleScan.findOneAndUpdateExit
    simp only [VehicleScan.exitRequest, Option.getD_some]
    rw [VehicleScan.findLatest_eq _ _ _ j E2 hj hopen hlatest]
  refine ⟨hset, ?_, ?_⟩
  · rw [hset, List.length_set]
  · intro i hi
    rw [hset, List.getElem?_set_ne (Ne.symm hi)]

/-- Instance of C9: with open records entered at 100 and at 200, the exit scan
at 300 closes the one entered at 200. -/
theorem C9_exit_scan_closes_latest_open_witness :
    (VehicleScan.POSTas Example.guard (VehicleScan.exitRequest "KA01AB1234" "Main Gate" none) 300
        Example.twoOpenStore).2.vehicleEntries
      = [Example.vehicleEntry 100, { Example.vehicleEntry 200 with exitTime := some 300 }] :=
  (C9_exit_scan_closes_latest_open Example.guard "KA01AB1234" "Main Gate" none 300
    Example.twoOpenStore 1 (Example.vehicleEntry 200)
    (by decide) (by decide) rfl (by decide)
    (by
      intro i E1 hi h1 _
      match i, hi, h1 with
      | 0, _, h1 =>
        simp [Example.twoOpenStore] at h1
        subst h1
        decide
      | (k + 2), _, h1 => simp [Example.twoOpenStore] at h1)).1

/-- For any guard payloads: in every state reached from a store without
vehicle records by a sequence of scans in which each entry scan is made while
the scanned plate has no open record in the scanning society, each plate has at
most one record with `exitTime` null per society. -/
theorem runScans_at_most_one_open (db0 : Db) (scans : List VehicleScan.Scan)
    (h0 : db0.vehicleEntries = [])
    (hseq : VehicleScan.entryOnlyWhenClosed db0 scans = true) :
    ∀ plate soc, VehicleScan.openCount plate soc (VehicleScan.runScans db0 scans) ≤ 1 := by
  have hinv0 : ∀ plate soc, VehicleScan.openCount plate soc db0 ≤ 1 := by
    intro plate soc
    simp [VehicleScan.openCount, h0]
  clear h0
  induction scans generalizing db0 with
  | nil => simpa [VehicleScan.runScans] using hinv0
  | cons s rest ih =>
    simp only [VehicleScan.entryOnlyWhenClosed, Bool.and_eq_true, Bool.or_eq_true, bne_iff_ne,
      ne_eq, beq_iff_eq] at hseq
    obtain ⟨hg, hrest⟩ := hseq
    have hg' : s.req.direction = some "entry" →
        VehicleScan.openCount (s.req.plateNumber.getD "") s.payload.societyId db0 = 0 := by
      intro hd
      rcases hg with h | h
      · exact absurd hd h
      · exact h
    have := ih (VehicleScan.step db0 s) hrest (VehicleScan.step_preserves db0 s hinv0 hg')
    simpa [VehicleScan.runScans] using this

/-! ## Vehicle scans: classification and orphan exits -/

namespace VehicleScan

theorem findLatest_none {α : Type} (p : α → Bool) (key : α → Nat) (l : List α)
    (h : ∀ x ∈ l, p x = false) : findLatest p key l = none := by
  induction l with
  | nil => rfl
  | cons x xs ih =>
    unfold findLatest
    rw [ih (fun y hy => h y (List.mem_cons_of_mem _ hy))]
    simp [h x (List.mem_cons_self _ _)]

/-- A plate listed by a resident of the society is classified `resident`; no
guest is looked up or changed. -/
theorem classifyEntry_resident {db : Db} {soc plate : String} {now : Nat} {u : User}
    (h : findResidentVehicle db soc plate = some (some u)) :
    classifyEntry db soc plate now
      = some { vehicleLogType := "resident", associatedUserId := some u._id,
               associatedGuestId := none, personName := u.name,
               attendanceLogPurpose := "Resident Vehicle Entry: " ++ plate, db := db } := by
  unfold classifyEntry
  rw [h]

/-- A plate of no resident that an approved guest of today has registered is
classified `guest`, and the guest is saved as checked-in with its timestamps as
they were. -/
theorem classifyEntry_guest {db : Db} {soc plate : String} {now : Nat} {g : Guest}
    (hr : findResidentVehicle db soc plate = some none)
    (hg : findGuestVehicle db soc plate now = some g) :
    ∃ c, classifyEntry db soc plate now = some c
      ∧ c.vehicleLogType = "guest" ∧ c.associatedGuestId = some g._id
      ∧ c.db = db.updateGuest g._id (fun _ => { g with status := "checked-in" }) := by
  have hst : g.status = "approved" := by
    unfold findGuestVehicle at hg
    have := List.find?_some hg
    simp only [Bool.and_eq_true, beq_iff_eq, decide_eq_true_eq] at this
    exact this.1.1.2
  unfold classifyEntry
  rw [hr, hg]
  simp [hst, GuestDoc.save, guestStatusEnum]

/-- A plate of no resident and of no approved guest of today is classified
`unauthorized`. -/
theorem classifyEntry_unauthorized {db : Db} {soc plate : String} {now : Nat}
    (hr : findResidentVehicle db soc plate = some none)
    (hg : findGuestVehicle db soc plate now = none) :
    classifyEntry db soc plate now
      = some { vehicleLogType := "unauthorized", associatedUserId := none,
               associatedGuestId := none, personName := "Vehicle: " ++ plate,
               attendanceLogPurpose := "Vehicle " ++ plate ++ " entry", db := db } := by
  unfold classifyEntry
  rw [hr, hg]

/-- The ledger write of a scan made with the guard payload of the source never
validates: `verifiedBy` is the device name `GUARD_DEVICE_001`, no `ObjectId`. -/
theorem stub_attendance_rejected (db : Db) (i : AttendanceInput)
    (h : i.verifiedBy = some verifyGuardToken.guardId) : AttendanceLog.create db i = none := by
  have : validateAttendance i = none := by
    apply validateAttendance_bad_verifiedBy
    rw [h]
    decide
  simp [AttendanceLog.create, this]

theorem classifyEntry_attendance {db : Db} {soc plate : String} {now : Nat} {c : Classified}
    (h : classifyEntry db soc plate now = some c) : c.db.attendance = db.attendance := by
  unfold classifyEntry at h
  split at h
  · simp at h
  · simp only [Option.some.injEq] at h
    subst h
    rfl
  · split at h
    · simp only [Option.map_eq_some'] at h
      obtain ⟨db1, hsave, rfl⟩ := h
      split at hsave
      · unfold GuestDoc.save at hsave
        split at hsave
        · simp only [Option.some.injEq] at hsave
          subst hsave
          rfl
        · simp at hsave
      · simp only [Option.some.injEq] at hsave
        subst hsave
        rfl
    · simp only [Option.some.injEq] at h
      subst h
      rfl

/-- The society of the payload the source passes is no `ObjectId`, so the
resident query of an entry scan throws. -/
theorem findResidentVehicle_stub (db : Db) (plate : String) :
    findResidentVehicle db verifyGuardToken.societyId plate = none := by
  have h : ObjectId.isValid verifyGuardToken.societyId = false := by decide
  simp [findResidentVehicle, h]

/-- As the source wires the route, an entry scan that passes the field check is
answered 500 and leaves the whole store as it was. -/
theorem scanPOST_entry_fails (req : Request) (now : Nat) (db : Db)
    (hv : (!truthy req.plateNumber || !truthy req.direction || !truthy req.gateLocation) = false)
    (hd : req.direction.getD "" = "entry") :
    POST req now db = ({ status := 500 }, db) := by
  unfold POST POSTas
  simp only [hv, Bool.false_eq_true, if_false, hd, if_true]
  unfold classifyEntry
  rw [findResidentVehicle_stub]

/-- As the source wires the route, no entry scan changes the store, and each is
answered 400 or 500. -/
theorem scanPOST_entry_store (req : Request) (now : Nat) (db : Db)
    (hd : req.direction = some "entry") :
    (POST req now db).2 = db
    ∧ ((POST req now db).1.status = 400 ∨ (POST req now db).1.status = 500) := by
  by_cases hv : (!truthy req.plateNumber || !truthy req.direction || !truthy req.gateLocation) = true
  · simp [POST, POSTas, hv]
  · simp only [Bool.not_eq_true] at hv
    rw [scanPOST_entry_fails req now db hv (by simp [hd])]
    exact ⟨rfl, Or.inr rfl⟩

/-- As the source wires the route, a request leaves the vehicle records as they
were or overwrites one record with a closed one. -/
theorem scanPOST_vehicleEntries (req : Request) (now : Nat) (db : Db) :
    (POST req now db).2.vehicleEntries = db.vehicleEntries
    ∨ ∃ i v, v.exitTime ≠ none
        ∧ (POST req now db).2.vehicleEntries = db.vehicleEntries.set i v := by
  by_cases hd : req.direction = some "entry"
  · left
    rw [(scanPOST_entry_store req now db hd).1]
  · rcases POSTas_vehicleEntries_cases verifyGuardToken req now db with h | ⟨hd', -⟩ | h
    · exact Or.inl h
    · exact absurd hd' hd
    · exact Or.inr h

/-- As the source wires the route, no request changes a guest. -/
theorem scanPOST_guests (req : Request) (now : Nat) (db : Db) :
    (POST req now db).2.guests = db.guests := by
  by_cases hd : req.direction = some "entry"
  · rw [(scanPOST_entry_store req now db hd).1]
  · have hde : req.direction.getD "" ≠ "entry" := by
      cases hreq : req.direction with
      | none => simp
      | some d =>
        intro h
        apply hd
        simp only [Option.getD_some] at h
        rw [hreq, h]
    unfold POST POSTas
    by_cases hv : (!truthy req.plateNumber || !truthy req.direction || !truthy req.gateLocation)
        = true
    · simp [hv]
    · simp only [Bool.not_eq_true] at hv
      simp only [hv, Bool.false_eq_true, if_false, hde]
      split
      · split
        · split
          · rfl
          · next db2 hc =>
            obtain ⟨e, -, rfl⟩ := AttendanceLog.create_some hc
            rfl
        · rfl
      · rfl

/-- As the source wires the route, no request raises the number of open records
of a plate in a society. -/
theorem scanPOST_openCount (req : Request) (now : Nat) (db : Db) (plate soc : String) :
    openCount plate soc (POST req now db).2 ≤ openCount plate soc db := by
  unfold openCount
  rcases scanPOST_vehicleEntries req now db with h | ⟨i, v, hv, h⟩
  · rw [h]
  · rw [h]
    apply countP_set_le
    cases hx : v.exitTime with
    | none => exact absurd hx hv
    | some t => simp [isOpenFor, hx]

theorem runRequests_openCount (scans : List (Request × Nat)) (db : Db) (plate soc : String) :
    openCount plate soc (runRequests db scans) ≤ openCount plate soc db := by
  induction scans generalizing db with
  | nil => exact Nat.le_refl _
  | cons s rest ih =>
    unfold runRequests
    rw [List.foldl_cons]
    exact Nat.le_trans (ih (POST s.1 s.2 db).2) (scanPOST_openCount s.1 s.2 db plate soc)

theorem runRequests_entries_nil (scans : List (Request × Nat)) (db : Db)
    (h : db.vehicleEntries = []) : (runRequests db scans).vehicleEntries = [] := by
  induction scans generalizing db with
  | nil => exact h
  | cons s rest ih =>
    unfold runRequests
    rw [List.foldl_cons]
    apply ih
    rcases scanPOST_vehicleEntries s.1 s.2 db with h1 | ⟨i, v, -, h1⟩
    · rw [h1, h]
    · rw [h1, h]
      rfl

end VehicleScan

/-- C10: the route as the source wires it never raises the number of records
with `exitTime` null of a plate in a society, whatever the requests and the
store; from a store without vehicle records every sequence of entry and exit
scans leaves the collection empty, so each plate has at most one open record
per society. -/
theorem C10_at_most_one_open_record (db0 : Db) (scans : List (VehicleScan.Request × Nat))
    (h0 : db0.vehicleEntries = []) :
    (∀ plate soc, VehicleScan.openCount plate soc (VehicleScan.runRequests db0 scans) ≤ 1)
    ∧ (VehicleScan.runRequests db0 scans).vehicleEntries = []
    ∧ (∀ (db : Db) (plate soc : String),
        VehicleScan.openCount plate soc (VehicleScan.runRequests db scans)
          ≤ VehicleScan.openCount plate soc db) := by
  refine ⟨?_, VehicleScan.runRequests_entries_nil scans db0 h0,
    fun db plate soc => VehicleScan.runRequests_openCount scans db plate soc⟩
  intro plate soc
  have h := VehicleScan.runRequests_openCount scans db0 plate soc
  have hz : VehicleScan.openCount plate soc db0 = 0 := by
    simp [VehicleScan.openCount, h0]
  omega

theorem C10_at_most_one_open_record_witness :
    (VehicleScan.runRequests Example.emptyStore
        [((VehicleScan.entryScan VehicleScan.verifyGuardToken "KA01AB1234" 100).req, 100),
         ((VehicleScan.entryScan VehicleScan.verifyGuardToken "KA01AB1234" 200).req, 200),
         (VehicleScan.exitRequest "KA01AB1234" "Main Gate" none, 300)]).vehicleEntries = []
    ∧ ∀ plate soc, VehicleScan.openCount plate soc
        (VehicleScan.runRequests Example.emptyStore
          [((VehicleScan.entryScan VehicleScan.verifyGuardToken "KA01AB1234" 100).req, 100),
           ((VehicleScan.entryScan VehicleScan.verifyGuardToken "KA01AB1234" 200).req, 200),
           (VehicleScan.exitRequest "KA01AB1234" "Main Gate" none, 300)]) ≤ 1 :=
  have h := C10_at_most_one_open_record Example.emptyStore
    [((VehicleScan.entryScan VehicleScan.verifyGuardToken "KA01AB1234" 100).req, 100),
     ((VehicleScan.entryScan VehicleScan.verifyGuardToken "KA01AB1234" 200).req, 200),
     (VehicleScan.exitRequest "KA01AB1234" "Main Gate" none, 300)] rfl
  ⟨h.2.1, h.1⟩

/-- C11, as stated, fails: an exit scan of a plate on a store without vehicle
records is answered 200 and appends no ledger entry. -/
theorem C11_orphan_exit_appends_no_entry :
    VehicleScan.POSTas Example.guard (VehicleScan.exitRequest "KA01AB1234" "Main Gate" none) 300
        Example.emptyStore = ({ status := 200 }, Example.emptyStore)
    ∧ (VehicleScan.POSTas Example.guard (VehicleScan.exitRequest "KA01AB1234" "Main Gate" none) 300
        Example.emptyStore).2.attendance.length ≠ Example.emptyStore.attendance.length + 1 := by
  decide

/-- C11, amended: an exit scan of a plate that has no open record in the
scanning society is answered 200 and leaves the whole store as it was: no
vehicle record is changed and no ledger entry is appended. -/
theorem C11_orphan_exit_leaves_store_unchanged (payload : VehicleScan.GuardPayload)
    (plate loc : String) (img : Option String) (now : Nat) (db : Db)
    (hplate : plate ≠ "") (hloc : loc ≠ "")
    (horphan : ∀ v ∈ db.vehicleEntries, VehicleScan.isOpenFor plate payload.societyId v = false) :
    VehicleScan.POSTas payload (VehicleScan.exitRequest plate loc img) now db
      = ({ status := 200 }, db) := by
  have hv : (!truthy (VehicleScan.exitRequest plate loc img).plateNumber
      || !truthy (VehicleScan.exitRequest plate loc img).direction
      || !truthy (VehicleScan.exitRequest plate loc img).gateLocation) = false := by
    simp [VehicleScan.exitRequest, truthy, hplate, hloc]
  have hd : (VehicleScan.exitRequest plate loc img).direction.getD "" = "exit" := rfl
  unfold VehicleScan.POSTas
  simp only [hv, Bool.false_eq_true, if_false, hd]
  rw [if_neg (show ¬ ("exit" = "entry") by decide), if_pos trivial]
  simp only [VehicleScan.findOneAndUpdateExit, VehicleScan.exitRequest, Option.getD_some,
    VehicleScan.findLatest_none _ _ _ horphan]

/-- Instance of the amended C11: the plate left earlier, its only record is
closed. -/
theorem C11_orphan_exit_leaves_store_unchanged_witness :
    VehicleScan.POSTas Example.guard (VehicleScan.exitRequest "KA01AB1234" "Main Gate" none) 300
        { Example.emptyStore with
          vehicleEntries := [{ Example.vehicleEntry 100 with exitTime := some 150 }] }
      = ({ status := 200 },
         { Example.emptyStore with
           vehicleEntries := [{ Example.vehicleEntry 100 with exitTime := some 150 }] }) :=
  C11_orphan_exit_leaves_store_unchanged Example.guard "KA01AB1234" "Main Gate" none 300 _
    (by decide) (by decide) (by decide)

/-- C12: as the source wires the route, the guard payload carries the society
`YOUR_SOCIETY_ID_FOR_TESTING`, which is no `ObjectId`, so the resident query of
an entry scan throws: the scan of an unknown plate and the scan of a resident's
plate are answered 500 and create neither a vehicle record nor a ledger entry.
No entry scan changes the store, and each is answered 400 or 500. -/
theorem C12_entry_scan_as_wired_creates_nothing :
    ObjectId.isValid VehicleScan.verifyGuardToken.societyId = false
    ∧ VehicleScan.POST (VehicleScan.entryScan VehicleScan.verifyGuardToken "KA01AB1234" 100).req
        100 Example.emptyStore = ({ status := 500 }, Example.emptyStore)
    ∧ Example.resident.carNumbers = ["KA05MN4321"]
    ∧ VehicleScan.POST (VehicleScan.entryScan VehicleScan.verifyGuardToken "KA05MN4321" 100).req
        100 Example.gateStore = ({ status := 500 }, Example.gateStore)
    ∧ Example.gateStore.vehicleEntries = [] ∧ Example.gateStore.attendance = []
    ∧ ∀ (req : VehicleScan.Request) (now : Nat) (db : Db),
        req.direction ≠ some "entry"
        ∨ ((VehicleScan.POST req now db).2 = db
          ∧ ((VehicleScan.POST req now db).1.status = 400
            ∨ (VehicleScan.POST req now db).1.status = 500)) := by
  refine ⟨by decide, by decide, by decide, by decide, by decide, by decide, ?_⟩
  intro req now db
  by_cases hd : req.direction = some "entry"
  · exact Or.inr (VehicleScan.scanPOST_entry_store req now db hd)
  · exact Or.inl hd

/-- C13: an approved guest of day 10 expects the plate `KA02CD5678`, which no
resident owns. As the source wires the route, the entry scan of the plate on
day 10 is answered 500 and leaves the store as it was: the guest stays
`approved`, has no entry timestamp, and no ledger entry is recorded. No request
to the route changes a guest. -/
theorem C13_guest_scan_as_wired_promotes_nobody :
    Example.guestGateStore.guests = [Example.guest "approved"]
    ∧ (Example.guest "approved").carNo = some "KA02CD5678"
    ∧ formatYMD (Example.guest "approved").date = formatYMD (10 * msPerDay + 5)
    ∧ Example.guestGateStore.users.all (fun u => !u.carNumbers.contains "KA02CD5678") = true
    ∧ VehicleScan.POST Example.guestScan (10 * msPerDay + 5) Example.guestGateStore
        = ({ status := 500 }, Example.guestGateStore)
    ∧ (Example.guest "approved").timestamps.entry = none
    ∧ Example.guestGateStore.attendance = []
    ∧ ∀ (req : VehicleScan.Request) (now : Nat) (db : Db),
        (VehicleScan.POST req now db).2.guests = db.guests := by
  refine ⟨by decide, by decide, by decide, by decide, by decide, by decide, by decide, ?_⟩
  exact fun req now db => VehicleScan.scanPOST_guests req now db

/-! ## QR credentials: issuance and replay -/

namespace GenerateQr

/-- The parse step of the check-in route accepts the issued text of a booking
with a well-formed id and yields that id. -/
theorem parseQr_qrDataString (b : Booking) (hid : ObjectId.isValid b._id = true) :
    AmenityCheckin.parseQr (qrDataString b) = some b._id := by
  have hne := ObjectId.isValid_ne_empty hid
  simp [AmenityCheckin.parseQr, qrDataString, qrData, JSON.stringify, JSON.parse, Json.field,
    JsonValue.truthy, JsonValue.objectId, hid, hne]

theorem findOne_owner {db : Db} {bid uid : String} {b : Booking}
    (h : findOne db bid uid = some b) : b._id = bid ∧ b.userId = uid := by
  unfold findOne at h
  have := List.find?_some h
  simpa using this

theorem findOne_none_of_not_owned {db : Db} {bid uid : String}
    (h : ∀ x ∈ db.bookings, x._id = bid → x.userId ≠ uid) : findOne db bid uid = none := by
  unfold findOne
  rw [List.find?_eq_none]
  intro x hx
  simp only [Bool.and_eq_true, beq_iff_eq, not_and]
  exact h x hx

end GenerateQr

namespace AmenityCheckin

/-- A 200 answer of the check-in route can only come from the accepted case:
the token parses to the id of an existing confirmed or approved booking of an
operational amenity, scanned on the day of the booking. -/
theorem checkinPOST_200 (db : Db) (qr : JsonText) (now : Nat)
    (h : (POST { qrDataString := some qr } now db).1.status = 200) :
    ∃ id b, parseQr qr = some id ∧ Booking.findById db id = some b
      ∧ b.status ∈ ["confirmed", "approved"]
      ∧ (populateAmenity db b.amenityId).map (fun a => a.status) = some "operational"
      ∧ formatYMD now = formatYMD b.bookingDate
      ∧ (POST { qrDataString := some qr } now db).2
          = db.updateBooking id (fun _ => { b with status := "checked-in" }) := by
  cases hp : parseQr qr with
  | none =>
    rw [checkinPOST_unreadable db { qrDataString := some qr } now
      (fun q hq => by simp only [Option.some.injEq] at hq; subst hq; exact hp)] at h
    simp at h
  | some id =>
    cases hb : Booking.findById db id with
    | none =>
      rw [checkinPOST_unknown db qr id now hp hb] at h
      simp at h
    | some b =>
      by_cases hpre : b.status ∈ ["confirmed", "approved"]
          ∧ (populateAmenity db b.amenityId).map (fun a => a.status) = some "operational"
          ∧ formatYMD now = formatYMD b.bookingDate
      · obtain ⟨h1, h2, h3⟩ := hpre
        refine ⟨id, b, rfl, hb, h1, h2, h3, ?_⟩
        rw [checkinPOST_accepted db qr id b now hp hb h1 h2 h3]
      · rw [checkinPOST_precondition db qr id b now hp hb hpre] at h
        simp at h

end AmenityCheckin

/-- C14: let `t` be the credential text issued for the booking `B`. (1) A
check-in with `t` is answered 200 only while the status of `B` is confirmed
or approved. (2) While `B` is checked-in, a check-in with `t` is answered 400
and leaves the store (status and timestamps of `B`, the ledger) as it was.
(3) After a check-in with `t` that was answered 200, `B` is checked-in and
every further check-in with `t`, at any time, is answered 400 and leaves the
store as the first one left it. -/
theorem C14_token_replay_rejected (db : Db) (b : Booking) (now1 now2 : Nat)
    (hb : Booking.findById db b._id = some b) (hid : ObjectId.isValid b._id = true) :
    ((AmenityCheckin.POST { qrDataString := some (GenerateQr.qrDataString b) } now1 db).1.status
        = 200 → b.status ∈ ["confirmed", "approved"])
    ∧ (b.status = "checked-in" →
        AmenityCheckin.POST { qrDataString := some (GenerateQr.qrDataString b) } now1 db
          = ({ status := 400 }, db))
    ∧ ((AmenityCheckin.POST { qrDataString := some (GenerateQr.qrDataString b) } now1 db).1.status
        = 200 →
        Booking.findById
            (AmenityCheckin.POST { qrDataString := some (GenerateQr.qrDataString b) } now1 db).2
            b._id = some { b with status := "checked-in" }
        ∧ AmenityCheckin.POST { qrDataString := some (GenerateQr.qrDataString b) } now2
            (AmenityCheckin.POST { qrDataString := some (GenerateQr.qrDataString b) } now1 db).2
          = ({ status := 400 },
             (AmenityCheckin.POST { qrDataString := some (GenerateQr.qrDataString b) } now1
               db).2)) := by
  have hparse := GenerateQr.parseQr_qrDataString b hid
  have h200 : (AmenityCheckin.POST { qrDataString := some (GenerateQr.qrDataString b) } now1
      db).1.status = 200 → b.status ∈ ["confirmed", "approved"]
      ∧ (AmenityCheckin.POST { qrDataString := some (GenerateQr.qrDataString b) } now1 db).2
          = db.updateBooking b._id (fun _ => { b with status := "checked-in" }) := by
    intro h
    obtain ⟨id, b', hp, hb', hst, -, -, hdb⟩ := AmenityCheckin.checkinPOST_200 db _ now1 h
    rw [hparse] at hp
    simp only [Option.some.injEq] at hp
    subst hp
    rw [hb] at hb'
    simp only [Option.some.injEq] at hb'
    subst hb'
    exact ⟨hst, hdb⟩
  refine ⟨fun h => (h200 h).1, ?_, ?_⟩
  · intro hst
    apply AmenityCheckin.checkinPOST_precondition db _ b._id b now1 hparse hb
    rintro ⟨h1, -, -⟩
    rw [hst] at h1
    simp at h1
  · intro h
    obtain ⟨-, hdb⟩ := h200 h
    have hfound : Booking.findById (db.updateBooking b._id (fun _ => { b with status := "checked-in" }))
        b._id = some { b with status := "checked-in" } :=
      Booking.findById_updateBooking (fun _ => { b with status := "checked-in" }) hb rfl
    rw [hdb]
    refine ⟨hfound, ?_⟩
    apply AmenityCheckin.checkinPOST_precondition _ _ b._id _ now2 hparse hfound
    rintro ⟨h1, -, -⟩
    simp at h1

/-- Instance of C14: the issued credential of the example booking is accepted
once on day 10 and refused when presented again. -/
theorem C14_token_replay_rejected_witness :
    (AmenityCheckin.POST { qrDataString := some (GenerateQr.qrDataString (Example.booking "confirmed")) }
        (10 * msPerDay + 5) (Example.store "confirmed")).1.status = 200
    ∧ (AmenityCheckin.POST
        { qrDataString := some (GenerateQr.qrDataString (Example.booking "confirmed")) }
        (10 * msPerDay + 9)
        (AmenityCheckin.POST
          { qrDataString := some (GenerateQr.qrDataString (Example.booking "confirmed")) }
          (10 * msPerDay + 5) (Example.store "confirmed")).2).1.status = 400 :=
  have h200 : (AmenityCheckin.POST
      { qrDataString := some (GenerateQr.qrDataString (Example.booking "confirmed")) }
      (10 * msPerDay + 5) (Example.store "confirmed")).1.status = 200 := by decide
  ⟨h200, by
    rw [((C14_token_replay_rejected (Example.store "confirmed") (Example.booking "confirmed")
      (10 * msPerDay + 5) (10 * msPerDay + 9) (by decide) (by decide)).2.2 h200).2]⟩

/-- C15: for a resident with a verified credential and a well-formed booking
id, (1) when the booking `B` with that id is owned by the resident, issuance is
answered 200, leaves the store unchanged, and the text in the QR image is the
JSON text of an object whose `type` is `AMENITY_BOOKING` and whose
`bookingId`, `amenityId`, `userId` are the ids of `B`, its amenity and its
resident; the parse step of the check-in route accepts that text and yields
the id of `B`; (2) when no booking with that id is owned by the resident,
issuance is answered 404 with no QR image; (3) issuing again gives the same
answer. -/
theorem C15_issued_credential_round_trip (db : Db) (uid bid : String) (soc : Option String)
    (huid : uid ≠ "") (hbid : ObjectId.isValid bid = true) :
    (∀ b, GenerateQr.findOne db bid uid = some b →
        GenerateQr.POST { authorization := .verified { id := some uid, societyId := soc },
                          bookingId := some bid } db
          = ({ status := 200, qrCode := some { encodes := GenerateQr.qrDataString b } }, db)
        ∧ b._id = bid ∧ b.userId = uid
        ∧ JSON.parse (GenerateQr.qrDataString b)
            = some (.object [("type", .str "AMENITY_BOOKING"), ("bookingId", .str b._id),
                             ("amenityId", .str b.amenityId), ("userId", .str b.userId)])
        ∧ AmenityCheckin.parseQr (GenerateQr.qrDataString b) = some b._id)
    ∧ ((∀ x ∈ db.bookings, x._id = bid → x.userId ≠ uid) →
        GenerateQr.POST { authorization := .verified { id := some uid, societyId := soc },
                          bookingId := some bid } db
          = ({ status := 404, qrCode := none }, db))
    ∧ GenerateQr.POST { authorization := .verified { id := some uid, societyId := soc },
                        bookingId := some bid }
        (GenerateQr.POST { authorization := .verified { id := some uid, societyId := soc },
                           bookingId := some bid } db).2
      = GenerateQr.POST { authorization := .verified { id := some uid, societyId := soc },
                          bookingId := some bid } db := by
  have hne := ObjectId.isValid_ne_empty hbid
  have hpost : ∀ r, GenerateQr.findOne db bid uid = r →
      GenerateQr.POST { authorization := .verified { id := some uid, societyId := soc },
                        bookingId := some bid } db
        = (match r with
           | none => ({ status := 404 }, db)
           | some b => ({ status := 200, qrCode := some { encodes := GenerateQr.qrDataString b } },
                        db)) := by
    intro r hr
    subst hr
    simp [GenerateQr.POST, truthy, huid, hbid, hne]
  refine ⟨?_, ?_, ?_⟩
  · intro b hb
    obtain ⟨h1, h2⟩ := GenerateQr.findOne_owner hb
    refine ⟨by rw [hpost _ hb], h1, h2, rfl, ?_⟩
    exact GenerateQr.parseQr_qrDataString b (by rw [h1]; exact hbid)
  · intro hnot
    rw [hpost _ (GenerateQr.findOne_none_of_not_owned hnot)]
  · have hsame : (GenerateQr.POST
        { authorization := .verified { id := some uid, societyId := soc },
          bookingId := some bid } db).2 = db := by
      rw [hpost _ rfl]
      cases GenerateQr.findOne db bid uid <;> rfl
    rw [hsame]

/-- Instance of C15: the resident of the example booking is issued the example
credential. -/
theorem C15_issued_credential_round_trip_witness :
    GenerateQr.POST { authorization := .verified { id := some Example.resident._id,
                                                   societyId := some Example.society },
                      bookingId := some "64b000000000000000000001" } (Example.store "confirmed")
      = ({ status := 200, qrCode := some { encodes := Example.qrToken } },
         Example.store "confirmed")
    ∧ AmenityCheckin.parseQr Example.qrToken = some "64b000000000000000000001" :=
  have h := (C15_issued_credential_round_trip (Example.store "confirmed") Example.resident._id
    "64b000000000000000000001" (some Example.society) (by decide) (by decide)).1
    (Example.booking "confirmed") (by decide)
  ⟨h.1, h.2.2.2.2⟩

/-- C16, as stated, fails: a text assembled by hand from the booking id alone,
which is not the issued credential, is answered 200 and checks the booking
in. -/
theorem C16_hand_made_token_accepted :
    Example.forgedToken ≠ GenerateQr.qrDataString (Example.booking "confirmed")
    ∧ (AmenityCheckin.POST { qrDataString := some Example.forgedToken } (10 * msPerDay + 5)
        (Example.store "confirmed")).1.status = 200
    ∧ (AmenityCheckin.POST { qrDataString := some Example.forgedToken } (10 * msPerDay + 5)
        (Example.store "confirmed")).2.bookings
        = [{ Example.booking "confirmed" with status := "checked-in" }] := by
  decide

/-- C16, amended: the check-in route reads the `type` and `bookingId` fields of
the JSON object and nothing else of the text: two objects that agree on these
two fields get the same answer and have the same effect on the store, whatever
their other fields (`amenityId`, `userId`) are and whether or not the text was
issued. -/
theorem C16_checkin_reads_type_and_bookingId_only (f1 f2 : List (String × JsonValue))
    (now : Nat) (db : Db)
    (htype : Json.field "type" f1 = Json.field "type" f2)
    (hid : Json.field "bookingId" f1 = Json.field "bookingId" f2) :
    AmenityCheckin.POST { qrDataString := some (.text (.object f1)) } now db
      = AmenityCheckin.POST { qrDataString := some (.text (.object f2)) } now db := by
  have hparse : AmenityCheckin.parseQr (.text (.object f1))
      = AmenityCheckin.parseQr (.text (.object f2)) := by
    simp only [AmenityCheckin.parseQr, JSON.parse, htype, hid]
  unfold AmenityCheckin.POST
  simp only [hparse]
  simp

/-- Instance of the amended C16: the issued credential and the hand-made text
get the same answer. -/
theorem C16_checkin_reads_type_and_bookingId_only_witness :
    AmenityCheckin.POST { qrDataString := some Example.qrToken } (10 * msPerDay + 5)
        (Example.store "confirmed")
      = AmenityCheckin.POST { qrDataString := some Example.forgedToken } (10 * msPerDay + 5)
        (Example.store "confirmed") :=
  C16_checkin_reads_type_and_bookingId_only _ _ (10 * msPerDay + 5) (Example.store "confirmed")
    (by decide) (by decide)

/-- C17, as stated, fails: an operator of another society who asks for a status
change of a booking is answered 404, not 403 (the booking is unchanged); the
same operator's request on a guest of the society is answered 200 with the
guest's data and changes the guest. -/
theorem C17_cross_society_requests_not_forbidden :
    (Example.booking "confirmed").societyId ≠ Example.otherSociety
    ∧ AdminBookingStatus.PUT
        (AdminBookingStatus.operatorRequest Example.operator Example.otherSociety
          "64b000000000000000000001" "cancelled") 777 (Example.store "confirmed")
        = ({ status := 404 }, Example.store "confirmed")
    ∧ (Example.guest "pending").societyId ≠ Example.otherSociety
    ∧ AdminGuestStatus.PUT
        (AdminGuestStatus.operatorRequest Example.operator (some Example.otherSociety)
          (Example.guest "pending")._id "approved") 777 (Example.guestStore "pending")
        = ({ status := 200, guest := some { Example.guest "pending" with status := "approved" } },
           { Example.guestStore "pending" with
             guests := [{ Example.guest "pending" with status := "approved" }] }) := by
  decide

/-- C17, amended: for every operator whose credential is scoped to society `T1`
and every booking that belongs to a different society (no booking with that id
belongs to `T1`), a status request on the booking route is answered 404,
carries none of the booking's data, and leaves the store, the booking
included, unchanged. -/
theorem C17_booking_of_other_society_not_found (db : Db) (op soc id s : String) (b : Booking)
    (now : Nat) (hop : op ≠ "") (hsoc : soc ≠ "") (hid : ObjectId.isValid id = true)
    (hs : s ∈ AdminBookingStatus.ALLOWED_BOOKING_STATUSES_BY_ADMIN)
    (hb : Booking.findById db id = some b)
    (hother : ∀ x ∈ db.bookings, x._id = id → x.societyId ≠ soc) :
    AdminBookingStatus.PUT (AdminBookingStatus.operatorRequest op soc id s) now db
      = ({ status := 404, booking := none }, db)
    ∧ Booking.findById
        (AdminBookingStatus.PUT (AdminBookingStatus.operatorRequest op soc id s) now db).2 id
      = some b := by
  have hnone : AdminBookingStatus.findOne db id soc = none := by
    unfold AdminBookingStatus.findOne
    rw [List.find?_eq_none]
    intro x hx
    simp only [Bool.and_eq_true, beq_iff_eq, not_and]
    exact hother x hx
  have hs' : s ≠ "" := by
    rintro rfl
    simp [AdminBookingStatus.ALLOWED_BOOKING_STATUSES_BY_ADMIN] at hs
  have hid' := ObjectId.isValid_ne_empty hid
  have hput : AdminBookingStatus.PUT (AdminBookingStatus.operatorRequest op soc id s) now db
      = ({ status := 404, booking := none }, db) := by
    simp [AdminBookingStatus.PUT, AdminBookingStatus.operatorRequest,
      AdminBookingStatus.verifyAdminToken, truthy, hop, hsoc, hid, hid', hs', hs, hnone]
  exact ⟨hput, by rw [hput]; exact hb⟩

/-- Instance of the amended C17. -/
theorem C17_booking_of_other_society_not_found_witness :
    AdminBookingStatus.PUT
        (AdminBookingStatus.operatorRequest Example.operator Example.otherSociety
          "64b000000000000000000001" "checked-in") 777 (Example.store "confirmed")
      = ({ status := 404, booking := none }, Example.store "confirmed") :=
  (C17_booking_of_other_society_not_found (Example.store "confirmed") Example.operator
    Example.otherSociety "64b000000000000000000001" "checked-in" (Example.booking "confirmed") 777
    (by decide) (by decide) (by decide) (by decide) (by decide) (by decide)).1

/-! ## The ledger read -/

namespace AdminAttendanceLogs

theorem findLogs_society (db : Db) (sid : String) :
    ∀ e ∈ findLogs db sid, e ∈ db.attendance ∧ e.societyId = sid := by
  intro e he
  unfold findLogs at he
  have h1 := List.mem_of_mem_take he
  have h2 := (List.perm_insertionSort _ _).subset h1
  simpa using h2

theorem findLogs_sorted (db : Db) (sid : String) :
    (findLogs db sid).Sorted (fun a b => b.timestamp ≤ a.timestamp) := by
  unfold findLogs
  haveI : IsTotal AttendanceLog (fun a b => b.timestamp ≤ a.timestamp) :=
    ⟨fun a b => Nat.le_total b.timestamp a.timestamp⟩
  haveI : IsTrans AttendanceLog (fun a b => b.timestamp ≤ a.timestamp) :=
    ⟨fun _ _ _ hab hbc => Nat.le_trans hbc hab⟩
  exact (List.sorted_insertionSort _ _).sublist (List.take_sublist _ _)

theorem findLogs_length (db : Db) (sid : String) : (findLogs db sid).length ≤ 100 := by
  unfold findLogs
  exact List.length_take_le _ _

end AdminAttendanceLogs

/-- C18: an operator whose credential is scoped to one society asks for the
ledger of another society and is answered 200 with the entries of that other
society, not 403. -/
theorem C18_ledger_of_other_society_returned :
    Example.society ≠ Example.otherSociety
    ∧ AdminAttendanceLogs.GET
        { authorization := .verified { id := some Example.operator,
                                       societyId := some Example.society },
          societyId := some Example.otherSociety } Example.ledgerStore
      = ({ status := 200,
           logs := [Example.ledgerEntry Example.otherSociety 30,
                    Example.ledgerEntry Example.otherSociety 10] },
         Example.ledgerStore) := by
  decide

/-- For a verified credential with an id and a well-formed `societyId`
parameter, the ledger read is answered 200 with the entries of the society
named by the parameter, each of them an entry of the ledger, most recent first,
at most 100; the store is unchanged. -/
theorem attendanceGET_spec (db : Db) (op sid : String) (soc : Option String)
    (hop : op ≠ "") (hsid : ObjectId.isValid sid = true) :
    AdminAttendanceLogs.GET
        { authorization := .verified { id := some op, societyId := soc },
          societyId := some sid } db
      = ({ status := 200, logs := AdminAttendanceLogs.findLogs db sid }, db)
    ∧ (∀ e ∈ AdminAttendanceLogs.findLogs db sid, e ∈ db.attendance ∧ e.societyId = sid)
    ∧ (AdminAttendanceLogs.findLogs db sid).Sorted (fun a b => b.timestamp ≤ a.timestamp)
    ∧ (AdminAttendanceLogs.findLogs db sid).length ≤ 100 := by
  have hne := ObjectId.isValid_ne_empty hsid
  refine ⟨?_, AdminAttendanceLogs.findLogs_society db sid,
    AdminAttendanceLogs.findLogs_sorted db sid, AdminAttendanceLogs.findLogs_length db sid⟩
  simp [AdminAttendanceLogs.GET, truthy, hop, hsid, hne]

/-! ## Face scans -/

namespace FaceScan

/-- A face scan with all fields, a well-formed person id, of the given person
type, by a guard that was accepted with the given payload. -/
theorem faceScan_reaches (auth : AuthResult) (payload : AdminPayload) (id ptype dir loc : String)
    (now : Nat) (db : Db) (hvalid : auth.isValid = true) (hpay : auth.payload = some payload)
    (hid : ObjectId.isValid id = true) (hptype : ptype ≠ "") (hdir : dir ≠ "") (hloc : loc ≠ "") :
    POSTas auth { identifiedPersonId := some id, personType := some ptype, direction := some dir,
                  gateLocation := some loc } now db
      = if ptype = "user" then
          match findUser db id with
          | none => ({ status := 404 }, db)
          | some user =>
            if some user.societyId ≠ payload.societyId then ({ status := 403 }, db) else
            match AttendanceLog.create db
                { baseLogData payload dir loc now with
                  userId := some user._id, personName := some user.name,
                  purpose := some ("Resident " ++ dir) } with
            | none => ({ status := 500 }, db)
            | some db1 => ({ status := 200 }, db1)
        else if ptype = "worker" then
          match findWorker db id with
          | none => ({ status := 404 }, db)
          | some worker =>
            if some worker.societyId ≠ payload.societyId then ({ status := 403 }, db) else
            match AttendanceLog.create db
                { baseLogData payload dir loc now with
                  personName := some worker.name,
                  purpose := some ("Staff " ++ dir ++ " (" ++ worker.department ++ ")") } with
            | none => ({ status := 500 }, db)
            | some db1 => ({ status := 200 }, db1)
        else ({ status := 400 }, db) := by
  have hid' := ObjectId.isValid_ne_empty hid
  unfold POSTas
  simp only [hvalid, hpay, truthy, Option.getD_some, hid]
  simp [hid', hptype, hdir, hloc]

/-- A resident of another society than the guard's is refused with 403 and
nothing is appended. -/
theorem faceScan_user_other_society (auth : AuthResult) (payload : AdminPayload)
    (id dir loc : String) (now : Nat) (db : Db) (user : User)
    (hvalid : auth.isValid = true) (hpay : auth.payload = some payload)
    (hid : ObjectId.isValid id = true) (hdir : dir ≠ "") (hloc : loc ≠ "")
    (hu : findUser db id = some user) (hsoc : some user.societyId ≠ payload.societyId) :
    POSTas auth { identifiedPersonId := some id, personType := some "user", direction := some dir,
                  gateLocation := some loc } now db = ({ status := 403 }, db) := by
  rw [faceScan_reaches auth payload id "user" dir loc now db hvalid hpay hid (by decide) hdir hloc]
  simp [hu, hsoc]

/-- An unknown resident or staff id is answered 404 and nothing is appended. -/
theorem faceScan_unknown (auth : AuthResult) (payload : AdminPayload)
    (id ptype dir loc : String) (now : Nat) (db : Db)
    (hvalid : auth.isValid = true) (hpay : auth.payload = some payload)
    (hid : ObjectId.isValid id = true) (hdir : dir ≠ "") (hloc : loc ≠ "")
    (hptype : ptype = "user" ∨ ptype = "worker")
    (hu : findUser db id = none) (hw : findWorker db id = none) :
    POSTas auth { identifiedPersonId := some id, personType := some ptype, direction := some dir,
                  gateLocation := some loc } now db = ({ status := 404 }, db) := by
  have hne : ptype ≠ "" := by
    rcases hptype with rfl | rfl <;> decide
  rw [faceScan_reaches auth payload id ptype dir loc now db hvalid hpay hid hne hdir hloc]
  rcases hptype with rfl | rfl
  · simp [hu]
  · rw [if_neg (by decide)]
    simp [hw]

/-- A staff member of another society than the guard's is refused with 403 and
nothing is appended. -/
theorem faceScan_worker_other_society (auth : AuthResult) (payload : AdminPayload)
    (id dir loc : String) (now : Nat) (db : Db) (worker : Worker)
    (hvalid : auth.isValid = true) (hpay : auth.payload = some payload)
    (hid : ObjectId.isValid id = true) (hdir : dir ≠ "") (hloc : loc ≠ "")
    (hw : findWorker db id = some worker) (hsoc : some worker.societyId ≠ payload.societyId) :
    POSTas auth { identifiedPersonId := some id, personType := some "worker", direction := some dir,
                  gateLocation := some loc } now db = ({ status := 403 }, db) := by
  rw [faceScan_reaches auth payload id "worker" dir loc now db hvalid hpay hid (by decide) hdir
    hloc]
  rw [if_neg (by decide)]
  simp [hw, hsoc]

/-- A resident of the guard's society, scanned in a direction the ledger knows,
by a guard whose ids are well formed: the answer is 200 and exactly one entry
is appended, of the scanned direction, source `main_gate`, method
`facial_recognition`, referring to the resident. -/
theorem faceScan_user_logged (auth : AuthResult) (guardId soc id dir loc : String)
    (now : Nat) (db : Db) (user : User)
    (hvalid : auth.isValid = true)
    (hpay : auth.payload = some { id := some guardId, societyId := some soc })
    (hguard : ObjectId.isValid guardId = true) (hsocid : ObjectId.isValid soc = true)
    (hid : ObjectId.isValid id = true) (hdir : dir ∈ attendanceTypeEnum) (hloc : loc ≠ "")
    (hu : findUser db id = some user) (hsoc : user.societyId = soc) (hname : user.name ≠ "") :
    POSTas auth { identifiedPersonId := some id, personType := some "user", direction := some dir,
                  gateLocation := some loc } now db
      = ({ status := 200 },
         { db with
           attendance := db.attendance ++
             [{ userId := some id, guestId := none, bookingId := none, personName := user.name,
                timestamp := now, type := dir, source := "main_gate", location := loc,
                vehicleNumber := none, purpose := some ("Resident " ++ dir),
                verificationMethod := "facial_recognition", verifiedBy := some guardId,
                status := "verified", societyId := soc }] }) := by
  have hdir' : dir ≠ "" := by
    rintro rfl
    simp [attendanceTypeEnum] at hdir
  have huid : user._id = id := by
    unfold findUser at hu
    have := List.find?_some hu
    simpa using this
  have hsocne := ObjectId.isValid_ne_empty hsocid
  rw [faceScan_reaches auth _ id "user" dir loc now db hvalid hpay hid (by decide) hdir' hloc]
  simp only [if_true, hu, hsoc, ne_eq, not_true_eq_false, if_false]
  have hval : validateAttendance
      { baseLogData { id := some guardId, societyId := some soc } dir loc now with
        userId := some user._id, personName := some user.name,
        purpose := some ("Resident " ++ dir) }
      = some { userId := some id, guestId := none, bookingId := none, personName := user.name,
               timestamp := now, type := dir, source := "main_gate", location := loc,
               vehicleNumber := none, purpose := some ("Resident " ++ dir),
               verificationMethod := "facial_recognition", verifiedBy := some guardId,
               status := "verified", societyId := soc } := by
    simp [validateAttendance, baseLogData, castObjectId, requiredString, inEnum, huid, hid,
      hguard, hsocid, hsocne, hname, hdir', hdir, hloc, attendanceSourceEnum,
      verificationMethodEnum, attendanceStatusEnum]
  simp [AttendanceLog.create, hval]

/-- A staff member of the guard's society, scanned in a direction the ledger
knows, by a guard whose ids are well formed: the answer is 200 and exactly one
entry is appended; it records the name and no reference to the staff member. -/
theorem faceScan_worker_logged (auth : AuthResult) (guardId soc id dir loc : String)
    (now : Nat) (db : Db) (worker : Worker)
    (hvalid : auth.isValid = true)
    (hpay : auth.payload = some { id := some guardId, societyId := some soc })
    (hguard : ObjectId.isValid guardId = true) (hsocid : ObjectId.isValid soc = true)
    (hid : ObjectId.isValid id = true) (hdir : dir ∈ attendanceTypeEnum) (hloc : loc ≠ "")
    (hw : findWorker db id = some worker) (hsoc : worker.societyId = soc)
    (hname : worker.name ≠ "") :
    POSTas auth { identifiedPersonId := some id, personType := some "worker", direction := some dir,
                  gateLocation := some loc } now db
      = ({ status := 200 },
         { db with
           attendance := db.attendance ++
             [{ userId := none, guestId := none, bookingId := none, personName := worker.name,
                timestamp := now, type := dir, source := "main_gate", location := loc,
                vehicleNumber := none,
                purpose := some ("Staff " ++ dir ++ " (" ++ worker.department ++ ")"),
                verificationMethod := "facial_recognition", verifiedBy := some guardId,
                status := "verified", societyId := soc }] }) := by
  have hdir' : dir ≠ "" := by
    rintro rfl
    simp [attendanceTypeEnum] at hdir
  have hsocne := ObjectId.isValid_ne_empty hsocid
  rw [faceScan_reaches auth _ id "worker" dir loc now db hvalid hpay hid (by decide) hdir' hloc]
  rw [if_neg (by decide)]
  simp only [if_true, hw, hsoc, ne_eq, not_true_eq_false, if_false]
  have hval : validateAttendance
      { baseLogData { id := some guardId, societyId := some soc } dir loc now with
        personName := some worker.name,
        purpose := some ("Staff " ++ dir ++ " (" ++ worker.department ++ ")") }
      = some { userId := none, guestId := none, bookingId := none, personName := worker.name,
               timestamp := now, type := dir, source := "main_gate", location := loc,
               vehicleNumber := none,
               purpose := some ("Staff " ++ dir ++ " (" ++ worker.department ++ ")"),
               verificationMethod := "facial_recognition", verifiedBy := some guardId,
               status := "verified", societyId := soc } := by
    simp [validateAttendance, baseLogData, castObjectId, requiredString, inEnum,
      hguard, hsocid, hsocne, hname, hdir', hdir, hloc, attendanceSourceEnum,
      verificationMethodEnum, attendanceStatusEnum]
  simp [AttendanceLog.create, hval]

end FaceScan

/-- C19: the guard helper of the identity scan route has no body, so its call
yields `undefined`, the read of `authResult.isValid` throws, and every request
is answered 500 with the store as it was: the scan of a staff member and the
scan of a resident of the society append no ledger entry. -/
theorem C19_identity_scan_always_answers_500 :
    FaceScan.verifyGuardToken = none
    ∧ FaceScan.findWorker Example.gateStore Example.worker._id = some Example.worker
    ∧ FaceScan.POST (Example.faceScan Example.worker._id "worker" "entry") 777 Example.gateStore
        = ({ status := 500 }, Example.gateStore)
    ∧ FaceScan.findUser Example.gateStore Example.resident._id = some Example.resident
    ∧ FaceScan.POST (Example.faceScan Example.resident._id "user" "entry") 777 Example.gateStore
        = ({ status := 500 }, Example.gateStore)
    ∧ Example.gateStore.attendance = []
    ∧ ∀ (req : FaceScan.Request) (now : Nat) (db : Db),
        FaceScan.POST req now db = ({ status := 500 }, db) := by
  refine ⟨rfl, by decide, rfl, by decide, rfl, by decide, fun _ _ _ => rfl⟩

/-! ## Credential guards -/

namespace AdminDeliveryLogs

/-- The guard of the delivery log route: what success carries, what failure
answers, and when the profile lookup is made. -/
theorem deliveryGuard_spec (token : Bearer) (db : Db) :
    ((verifyAdminToken token db).isValid = true →
        (verifyAdminToken token db).status = 200
        ∧ ∃ p, (verifyAdminToken token db).payload = some p
            ∧ truthy p.id = true ∧ truthy p.societyId = true)
    ∧ ((verifyAdminToken token db).isValid = false →
        (verifyAdminToken token db).status = 401 ∧ (verifyAdminToken token db).payload = none)
    ∧ ((token = .absent ∨ token = .rejected) →
        (verifyAdminToken token db).isValid = false ∧ (verifyAdminToken token db).lookups = 0)
    ∧ (∀ p, token = .verified p → truthy p.id = true → truthy p.societyId = true →
        verifyAdminToken token db
          = { isValid := true, status := 200, payload := some p, lookups := 0 })
    ∧ (∀ p, token = .verified p → truthy p.id = true → truthy p.societyId = false →
        (verifyAdminToken token db).lookups = 1
        ∧ (∀ a, Admin.findById db (p.id.getD "") = some a → truthy a.societyId = true →
            verifyAdminToken token db
              = { isValid := true, status := 200,
                  payload := some { p with societyId := a.societyId }, lookups := 1 })
        ∧ ((∀ a, Admin.findById db (p.id.getD "") = some a → truthy a.societyId = false) →
            (verifyAdminToken token db).isValid = false)) := by
  cases token with
  | absent => simp [verifyAdminToken]
  | rejected => simp [verifyAdminToken]
  | verified p =>
    by_cases hid : truthy p.id = true
    · by_cases hsoc : truthy p.societyId = true
      · simp [verifyAdminToken, hid, hsoc]
      · simp only [Bool.not_eq_true] at hsoc
        cases hf : Admin.findById db (p.id.getD "") with
        | none => simp [verifyAdminToken, hid, hsoc, hf]
        | some a =>
          by_cases ha : truthy a.societyId = true
          · simp [verifyAdminToken, hid, hsoc, hf, ha]
          · simp only [Bool.not_eq_true] at ha
            simp [verifyAdminToken, hid, hsoc, hf, ha]
    · simp only [Bool.not_eq_true] at hid
      simp [verifyAdminToken, hid]

end AdminDeliveryLogs

namespace AmenityById

theorem tryAdmin_spec (asAdmin : Option AdminPayload) (db : Db) :
    ((tryAdmin asAdmin db).isValid = true →
        (tryAdmin asAdmin db).status = 200
        ∧ ∃ p, (tryAdmin asAdmin db).payload = some p
            ∧ truthy p.id = true ∧ truthy p.societyId = true ∧ p.isAdmin = true)
    ∧ ((tryAdmin asAdmin db).isValid = false →
        (tryAdmin asAdmin db).status = 401 ∧ (tryAdmin asAdmin db).payload = none)
    ∧ (asAdmin = none → (tryAdmin asAdmin db).isValid = false ∧ (tryAdmin asAdmin db).lookups = 0)
    ∧ (∀ p, asAdmin = some p → truthy p.id = true → truthy p.societyId = false →
        (tryAdmin asAdmin db).lookups = 1
        ∧ (∀ a, Admin.findById db (p.id.getD "") = some a → truthy a.societyId = true →
            tryAdmin asAdmin db
              = { isValid := true, status := 200,
                  payload := some { id := p.id, societyId := a.societyId, isAdmin := true },
                  lookups := 1 })
        ∧ ((∀ a, Admin.findById db (p.id.getD "") = some a → truthy a.societyId = false) →
            (tryAdmin asAdmin db).isValid = false)) := by
  cases asAdmin with
  | none => simp [tryAdmin]
  | some p =>
    by_cases hid : truthy p.id = true
    · by_cases hsoc : truthy p.societyId = true
      · simp [tryAdmin, hid, hsoc]
      · simp only [Bool.not_eq_true] at hsoc
        cases hf : Admin.findById db (p.id.getD "") with
        | none => simp [tryAdmin, hid, hsoc, hf]
        | some a =>
          by_cases ha : truthy a.societyId = true
          · simp [tryAdmin, hid, hsoc, hf, ha]
          · simp only [Bool.not_eq_true] at ha
            simp [tryAdmin, hid, hsoc, hf, ha]
    · simp only [Bool.not_eq_true] at hid
      simp [tryAdmin, hid]

/-- The guard of the amenity route: a credential that decodes under the
resident secret with id and society is accepted as a resident; every other
token is handled by the operator attempt. -/
theorem anyGuard_spec (token : AnyBearer) (db : Db) :
    ((verifyAnyToken token db).isValid = true →
        (verifyAnyToken token db).status = 200
        ∧ ∃ p, (verifyAnyToken token db).payload = some p
            ∧ truthy p.id = true ∧ truthy p.societyId = true)
    ∧ ((verifyAnyToken token db).isValid = false →
        (verifyAnyToken token db).status = 401 ∧ (verifyAnyToken token db).payload = none)
    ∧ ((token = .absent ∨ token = .token none none) →
        (verifyAnyToken token db).isValid = false ∧ (verifyAnyToken token db).lookups = 0)
    ∧ (∀ u asAdmin, token = .token (some u) asAdmin → truthy u.id = true →
        truthy u.societyId = true →
        verifyAnyToken token db
          = { isValid := true, status := 200,
              payload := some { id := u.id, societyId := u.societyId, isAdmin := false },
              lookups := 0 })
    ∧ (∀ asAdmin, token = .token none asAdmin →
        verifyAnyToken token db = tryAdmin asAdmin db) := by
  cases token with
  | absent => simp [verifyAnyToken]
  | token asUser asAdmin =>
    have hA := tryAdmin_spec asAdmin db
    cases asUser with
    | none =>
      simp only [verifyAnyToken]
      refine ⟨fun h => ?_, hA.2.1, ?_, ?_, ?_⟩
      · obtain ⟨h1, p, h2, h3, h4, -⟩ := hA.1 h
        exact ⟨h1, p, h2, h3, h4⟩
      · rintro (h | h)
        · cases h
        · simp only [AnyBearer.token.injEq, true_and] at h
          exact hA.2.2.1 h
      · intro u a h
        simp at h
      · intro a h
        simp only [AnyBearer.token.injEq, true_and] at h
        rw [h]
    | some u =>
      by_cases hu : (truthy u.id && truthy u.societyId) = true
      · have hu' := hu
        simp only [Bool.and_eq_true] at hu'
        simp [verifyAnyToken, hu, hu'.1, hu'.2]
      · have hnot : ¬ (truthy u.id = true ∧ truthy u.societyId = true) := by
          simpa using hu
        simp only [verifyAnyToken, hu]
        refine ⟨fun h => ?_, hA.2.1, ?_, ?_, ?_⟩
        · obtain ⟨h1, p, h2, h3, h4, -⟩ := hA.1 h
          exact ⟨h1, p, h2, h3, h4⟩
        · rintro (h | h)
          · cases h
          · simp at h
        · intro u' a h h1 h2
          simp only [AnyBearer.token.injEq, Option.some.injEq] at h
          obtain ⟨rfl, -⟩ := h
          exact absurd ⟨h1, h2⟩ hnot
        · intro a h
          simp at h

theorem tryAdmin_fallback (p : AdminPayload) (db : Db)
    (hid : truthy p.id = true) (hsoc : truthy p.societyId = false) :
    (tryAdmin (some p) db).lookups = 1
    ∧ ((tryAdmin (some p) db).isValid = true
        ↔ ∃ a, Admin.findById db (p.id.getD "") = some a ∧ truthy a.societyId = true) := by
  cases hf : Admin.findById db (p.id.getD "") with
  | none => simp [tryAdmin, hid, hsoc, hf]
  | some a =>
    by_cases ha : truthy a.societyId = true
    · simp [tryAdmin, hid, hsoc, hf, ha]
    · simp only [Bool.not_eq_true] at ha
      simp [tryAdmin, hid, hsoc, hf, ha]

theorem tryAdmin_lookups_le (asAdmin : Option AdminPayload) (db : Db) :
    (tryAdmin asAdmin db).lookups ≤ 1 := by
  unfold tryAdmin
  repeat' split
  all_goals simp

theorem verifyAnyToken_of_not_resident (asUser asAdmin : Option AdminPayload) (db : Db)
    (h : ∀ u, asUser = some u → ¬ (truthy u.id = true ∧ truthy u.societyId = true)) :
    verifyAnyToken (.token asUser asAdmin) db = tryAdmin asAdmin db := by
  cases asUser with
  | none => rfl
  | some u =>
    have hu : (truthy u.id && truthy u.societyId) = false := by
      have := h u rfl
      simpa using this
    simp [verifyAnyToken, hu]

end AmenityById

namespace AdminBookingStatus

/-- The guard of the booking status route: it has no store access, accepts
only a payload with both id and society, and answers 401 otherwise. -/
theorem bookingGuard_spec (token : Bearer) :
    ((verifyAdminToken token).isValid = true →
        (verifyAdminToken token).status = 200
        ∧ ∃ p, (verifyAdminToken token).payload = some p
            ∧ truthy p.id = true ∧ truthy p.societyId = true)
    ∧ ((verifyAdminToken token).isValid = false →
        (verifyAdminToken token).status = 401 ∧ (verifyAdminToken token).payload = none)
    ∧ ((token = .absent ∨ token = .rejected) → (verifyAdminToken token).isValid = false)
    ∧ (∀ p, token = .verified p → truthy p.societyId = false →
        (verifyAdminToken token).isValid = false ∧ (verifyAdminToken token).status = 401) := by
  cases token with
  | absent => simp [verifyAdminToken]
  | rejected => simp [verifyAdminToken]
  | verified p =>
    by_cases hid : truthy p.id = true
    · by_cases hsoc : truthy p.societyId = true
      · simp [verifyAdminToken, hid, hsoc]
      · simp only [Bool.not_eq_true] at hsoc
        simp [verifyAdminToken, hid, hsoc]
    · simp only [Bool.not_eq_true] at hid
      simp [verifyAdminToken, hid]

end AdminBookingStatus

/-- C20, as stated, fails for the guard of the booking status route: an
operator credential with a valid signature, an id and no society, whose stored
profile is linked to a society, is refused with 401 (the guard makes no
lookup), while the guard of the delivery log route resolves the same credential
by one lookup. -/
theorem C20_booking_guard_refuses_legacy_credential :
    Admin.findById Example.adminStore Example.operator
        = some { _id := Example.operator, societyId := some Example.society }
    ∧ AdminBookingStatus.verifyAdminToken Example.legacyToken
        = { isValid := false, status := 401, payload := none }
    ∧ AdminDeliveryLogs.verifyAdminToken Example.legacyToken Example.adminStore
        = { isValid := true, status := 200,
            payload := some { id := some Example.operator, societyId := some Example.society },
            lookups := 1 } := by
  decide

/-- C20, amended: for every bearer credential, (1) whenever one of the three
guards reports success (`verifyAnyToken` of the amenity route,
`verifyAdminToken` of the delivery log route, `verifyAdminToken` of the
booking status route) the answer is 200 and the result carries a non-empty
subject id and a non-empty society id; the result of `verifyAnyToken` also
carries the role: `isAdmin` is false exactly for a credential that decodes
under the resident secret with id and society; (2) whenever a guard does not
report success, the answer is 401; (3) no guard makes more than one profile
lookup; an operator credential with an id and no society is resolved by
exactly one lookup in `verifyAnyToken` and in the delivery log guard, which
succeed exactly when the stored profile exists and is linked to a society;
(4) the guard of the booking status route makes no lookup and refuses such a
credential with 401. -/
theorem C20_guard_results (token : Bearer) (any : AmenityById.AnyBearer) (db : Db) :
    (((AmenityById.verifyAnyToken any db).isValid = true →
          (AmenityById.verifyAnyToken any db).status = 200
          ∧ ∃ p, (AmenityById.verifyAnyToken any db).payload = some p
              ∧ truthy p.id = true ∧ truthy p.societyId = true
              ∧ (p.isAdmin = false ↔ ∃ u a, any = .token (some u) a
                    ∧ truthy u.id = true ∧ truthy u.societyId = true))
      ∧ ((AmenityById.verifyAnyToken any db).isValid = false →
          (AmenityById.verifyAnyToken any db).status = 401)
      ∧ (AmenityById.verifyAnyToken any db).lookups ≤ 1
      ∧ (∀ asUser p, any = .token asUser (some p) →
          (∀ u, asUser = some u → ¬ (truthy u.id = true ∧ truthy u.societyId = true)) →
          truthy p.id = true → truthy p.societyId = false →
          (AmenityById.verifyAnyToken any db).lookups = 1
          ∧ ((AmenityById.verifyAnyToken any db).isValid = true
              ↔ ∃ a, Admin.findById db (p.id.getD "") = some a ∧ truthy a.societyId = true)))
    ∧ (((AdminDeliveryLogs.verifyAdminToken token db).isValid = true →
          (AdminDeliveryLogs.verifyAdminToken token db).status = 200
          ∧ ∃ p, (AdminDeliveryLogs.verifyAdminToken token db).payload = some p
              ∧ truthy p.id = true ∧ truthy p.societyId = true)
      ∧ ((AdminDeliveryLogs.verifyAdminToken token db).isValid = false →
          (AdminDeliveryLogs.verifyAdminToken token db).status = 401)
      ∧ (AdminDeliveryLogs.verifyAdminToken token db).lookups ≤ 1
      ∧ (∀ p, token = .verified p → truthy p.id = true → truthy p.societyId = false →
          (AdminDeliveryLogs.verifyAdminToken token db).lookups = 1
          ∧ ((AdminDeliveryLogs.verifyAdminToken token db).isValid = true
              ↔ ∃ a, Admin.findById db (p.id.getD "") = some a ∧ truthy a.societyId = true)))
    ∧ (((AdminBookingStatus.verifyAdminToken token).isValid = true →
          (AdminBookingStatus.verifyAdminToken token).status = 200
          ∧ ∃ p, (AdminBookingStatus.verifyAdminToken token).payload = some p
              ∧ truthy p.id = true ∧ truthy p.societyId = true)
      ∧ ((AdminBookingStatus.verifyAdminToken token).isValid = false →
          (AdminBookingStatus.verifyAdminToken token).status = 401)
      ∧ (∀ p, token = .verified p → truthy p.societyId = false →
          (AdminBookingStatus.verifyAdminToken token).isValid = false
          ∧ (AdminBookingStatus.verifyAdminToken token).status = 401)) := by
  refine ⟨⟨?_, (AmenityById.anyGuard_spec any db).2.1 |> fun h hv => (h hv).1, ?_, ?_⟩,
    ⟨(AdminDeliveryLogs.deliveryGuard_spec token db).1,
      fun hv => ((AdminDeliveryLogs.deliveryGuard_spec token db).2.1 hv).1, ?_, ?_⟩,
    ⟨(AdminBookingStatus.bookingGuard_spec token).1,
      fun hv => ((AdminBookingStatus.bookingGuard_spec token).2.1 hv).1,
      (AdminBookingStatus.bookingGuard_spec token).2.2.2⟩⟩
  · -- role of verifyAnyToken
    intro hv
    cases any with
    | absent => simp [AmenityById.verifyAnyToken] at hv
    | token asUser asAdmin =>
      by_cases hres : ∃ u, asUser = some u ∧ truthy u.id = true ∧ truthy u.societyId = true
      · obtain ⟨u, rfl, h1, h2⟩ := hres
        rw [((AmenityById.anyGuard_spec _ db).2.2.2.1) u asAdmin rfl h1 h2]
        exact ⟨rfl, _, rfl, h1, h2, by simp [h1, h2]⟩
      · have hnot : ∀ u, asUser = some u → ¬ (truthy u.id = true ∧ truthy u.societyId = true) :=
          fun u hu hh => hres ⟨u, hu, hh⟩
        rw [AmenityById.verifyAnyToken_of_not_resident asUser asAdmin db hnot] at hv ⊢
        obtain ⟨h1, p, h2, h3, h4, h5⟩ := (AmenityById.tryAdmin_spec asAdmin db).1 hv
        refine ⟨h1, p, h2, h3, h4, ?_⟩
        rw [h5]
        simp only [Bool.true_eq_false, false_iff, not_exists, not_and]
        intro u a hu hh1 hh2
        simp only [AmenityById.AnyBearer.token.injEq] at hu
        exact hnot u hu.1 ⟨hh1, hh2⟩
  · -- lookups of verifyAnyToken
    cases any with
    | absent => simp [AmenityById.verifyAnyToken]
    | token asUser asAdmin =>
      cases asUser with
      | none => exact AmenityById.tryAdmin_lookups_le asAdmin db
      | some u =>
        simp only [AmenityById.verifyAnyToken]
        split
        · simp
        · exact AmenityById.tryAdmin_lookups_le asAdmin db
  · -- fallback of verifyAnyToken
    intro asUser p hany hnot hid hsoc
    subst hany
    rw [AmenityById.verifyAnyToken_of_not_resident asUser (some p) db hnot]
    exact AmenityById.tryAdmin_fallback p db hid hsoc
  · -- lookups of the delivery guard
    unfold AdminDeliveryLogs.verifyAdminToken
    repeat' split
    all_goals simp
  · -- fallback of the delivery guard
    intro p hp hid hsoc
    subst hp
    cases hf : Admin.findById db (p.id.getD "") with
    | none => simp [AdminDeliveryLogs.verifyAdminToken, hid, hsoc, hf]
    | some a =>
      by_cases ha : truthy a.societyId = true
      · simp [AdminDeliveryLogs.verifyAdminToken, hid, hsoc, hf, ha]
      · simp only [Bool.not_eq_true] at ha
        simp [AdminDeliveryLogs.verifyAdminToken, hid, hsoc, hf, ha]

/-- Instance of the amended C20: the delivery log guard resolves the legacy
credential of the example operator by one lookup. -/
theorem C20_guard_results_witness :
    (AdminDeliveryLogs.verifyAdminToken Example.legacyToken Example.adminStore).lookups = 1
    ∧ (AdminDeliveryLogs.verifyAdminToken Example.legacyToken Example.adminStore).isValid = true :=
  have h := (C20_guard_results Example.legacyToken .absent Example.adminStore).2.1.2.2.2
    { id := some Example.operator, societyId := none } rfl (by decide) (by decide)
  ⟨h.1, h.2.mpr ⟨{ _id := Example.operator, societyId := some Example.society },
    by decide, by decide⟩⟩

/-! ## The booking creation route -/

namespace Bookings

theorem residentRequest_reaches (uid soc aid st et newId : String) (date n : Nat) (db : Db)
    (huid : ObjectId.isValid uid = true) (hsoc : ObjectId.isValid soc = true)
    (haid : ObjectId.isValid aid = true) (hst : st ≠ "") (het : et ≠ "") (hn : n ≠ 0) :
    POST (residentRequest uid soc aid date st et n) newId db
      = match Amenity.findById db aid with
        | none => ({ status := 404 }, db)
        | some amenity =>
          if amenity.societyId ≠ soc then ({ status := 403 }, db) else
          if amenity.status ≠ "operational" then ({ status := 400 }, db) else
          if n > amenity.capacity then ({ status := 400 }, db) else
          ({ status := 201, booking := some (newBooking newId uid soc aid date st et n) },
           { db with bookings := db.bookings ++ [newBooking newId uid soc aid date st et n] }) := by
  have huid' : uid ≠ "" := ObjectId.isValid_ne_empty huid
  have hsoc' : soc ≠ "" := ObjectId.isValid_ne_empty hsoc
  have haid' : aid ≠ "" := ObjectId.isValid_ne_empty haid
  cases hf : Amenity.findById db aid <;>
  simp [POST, residentRequest, truthy, truthyNat, DateText.truthy, validateNew, huid, hsoc, haid,
    huid', hsoc', haid', hst, het, hn, hf]

theorem POST_cases (r : Request) (newId : String) (db : Db) :
    ((POST r newId db).1.status ≠ 201 ∧ (POST r newId db).2 = db)
    ∨ ∃ a c, r.authorization = .verified { id := some c.userId, societyId := some c.societyId }
      ∧ Amenity.findById db c.amenityId = some a ∧ a.societyId = c.societyId
      ∧ a.status = "operational" ∧ c.numberOfPeople ≤ a.capacity ∧ c.status = "pending"
      ∧ c._id = newId
      ∧ POST r newId db
          = ({ status := 201, booking := some c }, { db with bookings := db.bookings ++ [c] }) := by
  unfold POST
  rcases hauth : r.authorization with _ | _ | ⟨id, societyId⟩
  · left; simp
  · left; simp
  · dsimp only
    by_cases h1 : (!truthy id || !truthy societyId) = true
    · left; simp [h1]
    rw [if_neg h1]
    by_cases h2 : (!truthy r.amenityId || !DateText.truthy r.bookingDate || !truthy r.startTime
        || !truthy r.endTime || !truthyNat r.numberOfPeople || !truthy societyId) = true
    · left; simp [h2]
    rw [if_neg h2]
    by_cases h3 : (!ObjectId.isValid (r.amenityId.getD "") || !ObjectId.isValid (societyId.getD "")) = true
    · left; simp [h3]
    rw [if_neg h3]
    cases hf : Amenity.findById db (r.amenityId.getD "") with
    | none => left; simp
    | some a =>
      dsimp only
      by_cases h4 : a.societyId ≠ societyId.getD ""
      · left; simp [h4]
      rw [if_neg h4]
      by_cases h5 : a.status ≠ "operational"
      · left; simp [h5]
      rw [if_neg h5]
      by_cases h6 : r.numberOfPeople.getD 0 > a.capacity
      · left; simp [h6]
      rw [if_neg h6]
      cases hv : validateNew (id.getD "") (r.bookingDate.getD (.unparsable "")) with
      | none => left; simp
      | some t =>
        right
        dsimp only
        refine ⟨a, _, ?_, ?_, ?_, ?_, ?_, ?_, ?_, rfl⟩
        · cases id with
          | none => simp [truthy] at h1
          | some i =>
            cases societyId with
            | none => simp [truthy] at h1
            | some s => simp [newBooking]
        · simpa [newBooking] using hf
        · simpa [newBooking] using h4
        · simpa using h5
        · simpa [newBooking] using h6
        · rfl
        · rfl

end Bookings

/-! ## Claim C21 -/

/-- C21: for an authenticated resident, `POST /api/bookings` answers 404 when
the amenity does not exist, 403 when it belongs to another society, 400 when it
is not operational and 400 when `numberOfPeople` exceeds its capacity, and
creates nothing in these cases; otherwise it answers 201 and appends one
booking with status `pending`, the resident's id as owner and the resident's
society. For every request at all, an answer other than 201 leaves the store
unchanged, and an answer 201 means that the amenity of the new booking exists,
belongs to the society of the caller's token, is operational and has room for
the party. -/
theorem C21_booking_created_only_when_allowed (uid soc aid st et newId : String) (date n : Nat)
    (db : Db)
    (huid : ObjectId.isValid uid = true) (hsoc : ObjectId.isValid soc = true)
    (haid : ObjectId.isValid aid = true) (hst : st ≠ "") (het : et ≠ "") (hn : n ≠ 0) :
    (Amenity.findById db aid = none →
      Bookings.POST (Bookings.residentRequest uid soc aid date st et n) newId db
        = ({ status := 404 }, db))
    ∧ (∀ a, Amenity.findById db aid = some a → a.societyId ≠ soc →
      Bookings.POST (Bookings.residentRequest uid soc aid date st et n) newId db
        = ({ status := 403 }, db))
    ∧ (∀ a, Amenity.findById db aid = some a → a.societyId = soc → a.status ≠ "operational" →
      Bookings.POST (Bookings.residentRequest uid soc aid date st et n) newId db
        = ({ status := 400 }, db))
    ∧ (∀ a, Amenity.findById db aid = some a → a.societyId = soc → a.status = "operational" →
      a.capacity < n →
      Bookings.POST (Bookings.residentRequest uid soc aid date st et n) newId db
        = ({ status := 400 }, db))
    ∧ (∀ a, Amenity.findById db aid = some a → a.societyId = soc → a.status = "operational" →
      n ≤ a.capacity →
      Bookings.POST (Bookings.residentRequest uid soc aid date st et n) newId db
        = ({ status := 201,
             booking := some (Bookings.newBooking newId uid soc aid date st et n) },
           { db with
             bookings := db.bookings ++ [Bookings.newBooking newId uid soc aid date st et n] })
      ∧ (Bookings.newBooking newId uid soc aid date st et n).status = "pending"
      ∧ (Bookings.newBooking newId uid soc aid date st et n).userId = uid
      ∧ (Bookings.newBooking newId uid soc aid date st et n).societyId = soc)
    ∧ (∀ r : Bookings.Request,
      ((Bookings.POST r newId db).1.status ≠ 201 → (Bookings.POST r newId db).2 = db)
      ∧ ((Bookings.POST r newId db).1.status = 201 →
        ∃ a c, r.authorization = .verified { id := some c.userId, societyId := some c.societyId }
          ∧ Amenity.findById db c.amenityId = some a ∧ a.societyId = c.societyId
          ∧ a.status = "operational" ∧ c.numberOfPeople ≤ a.capacity ∧ c.status = "pending"
          ∧ (Bookings.POST r newId db).2 = { db with bookings := db.bookings ++ [c] })) := by
  have hreach := Bookings.residentRequest_reaches uid soc aid st et newId date n db huid hsoc haid
    hst het hn
  refine ⟨?_, ?_, ?_, ?_, ?_, ?_⟩
  · intro hf
    rw [hreach, hf]
  · intro a hf hs
    rw [hreach, hf]
    simp [hs]
  · intro a hf hs hop
    rw [hreach, hf]
    simp [hs, hop]
  · intro a hf hs hop hcap
    rw [hreach, hf]
    simp [hs, hop, hcap]
  · intro a hf hs hop hcap
    refine ⟨?_, rfl, rfl, rfl⟩
    rw [hreach, hf]
    simp [hs, hop, Nat.not_lt.mpr hcap]
  · intro r
    rcases Bookings.POST_cases r newId db with ⟨hne, hdb⟩ | ⟨a, c, h1, h2, h3, h4, h5, h6, _, h8⟩
    · exact ⟨fun _ => hdb, fun h => absurd h hne⟩
    · refine ⟨fun h => absurd (by rw [h8]) h, fun _ => ⟨a, c, h1, h2, h3, h4, h5, h6, ?_⟩⟩
      rw [h8]

theorem C21_booking_created_only_when_allowed_witness :
    Bookings.POST Example.bookingRequest Example.newBookingId (Example.store "confirmed")
      = ({ status := 201, booking := some Example.requestedBooking },
         { Example.store "confirmed" with
           bookings := [Example.booking "confirmed", Example.requestedBooking] })
    ∧ Example.requestedBooking.status = "pending"
    ∧ Example.requestedBooking.userId = Example.resident._id
    ∧ Example.requestedBooking.societyId = Example.society :=
  (C21_booking_created_only_when_allowed Example.resident._id Example.society Example.pool._id
    "09:30" "10:30" Example.newBookingId (10 * msPerDay) 4 (Example.store "confirmed")
    (by decide) (by decide) (by decide) (by decide) (by decide) (by decide)).2.2.2.2.1
    Example.pool (by decide) (by decide) (by decide) (by decide)

/-! ## Claim C22 -/

namespace Bookings

theorem POST_status (r : Request) (newId : String) (db : Db) :
    (POST r newId db).1.status ∈ [201, 400, 401, 403, 404] := by
  unfold POST
  repeat' split
  all_goals try simp
  all_goals repeat' split
  all_goals simp

end Bookings

/-- C22: the store holds a confirmed booking of the pool on day 10 from 09:00
to 10:00; a request for the same amenity and day from 09:30 to 10:30 overlaps
it (it is the conflict the commented query of the source would find), and the
route answers 201 and stores a second booking. No request at all is answered
with 409. -/
theorem C22_overlapping_request_accepted :
    Bookings.conflictingBookings Example.slotStore Example.pool._id (10 * msPerDay)
        "09:30" "10:30" = [Example.slotBooking]
    ∧ Bookings.POST Example.bookingRequest Example.newBookingId Example.slotStore
        = ({ status := 201, booking := some Example.requestedBooking },
           { Example.slotStore with
             bookings := [Example.slotBooking, Example.requestedBooking] })
    ∧ ∀ (r : Bookings.Request) (newId : String) (db : Db),
        (Bookings.POST r newId db).1.status ≠ 409 := by
  refine ⟨by decide, by decide, ?_⟩
  intro r newId db h
  have := Bookings.POST_status r newId db
  rw [h] at this
  simp at this

/-! ## What each booking route writes -/

namespace AdminBookingStatus

theorem prepareUpdate_status (s : String) (b : Booking) (now : Nat) :
    (prepareUpdate s b now).status = s := by
  unfold prepareUpdate
  dsimp only
  split_ifs <;> rfl

/-- The rules of steps 5 to 9 either reject the request and leave the store as
it is, or rewrite the booking by the update of step 6 and answer 200; the
ledger write of step 8 adds nothing. -/
theorem applyStatus_effect (db : Db) (id op s : String) (b : Booking) (now : Nat) :
    applyStatus db id op s b now = ({ status := 400 }, db)
    ∨ applyStatus db id op s b now
        = ({ status := 200, booking := (Booking.findById db id).map (prepareUpdate s b now).applyTo },
           db.updateBooking id (prepareUpdate s b now).applyTo) := by
  unfold applyStatus
  dsimp only
  split_ifs
  all_goals first | (left; rfl) | skip
  all_goals
    unfold Booking.findByIdAndUpdate
    split_ifs
    · right
      simp [adminAttendance_swallowed]
    · left; rfl

/-- Any request to the operator route either leaves the store as it is or
rewrites one booking by the update of step 6, for a status of the allowed
list. -/
theorem bookingPUT_effect (req : Request) (now : Nat) (db : Db) :
    (PUT req now db).2 = db
    ∨ ∃ id s b, s ∈ ALLOWED_BOOKING_STATUSES_BY_ADMIN ∧ req.status = some s
        ∧ (PUT req now db).1.status = 200
        ∧ (PUT req now db).2 = db.updateBooking id (prepareUpdate s b now).applyTo := by
  unfold PUT
  dsimp only
  split_ifs with h1 h2 h3
  · left; rfl
  · left; rfl
  · left; rfl
  · cases hf : findOne db (req.id.getD "")
        ((Option.bind (verifyAdminToken req.authorization).payload fun p => p.societyId).getD "") with
    | none => left; rfl
    | some b =>
      dsimp only
      rcases applyStatus_effect db (req.id.getD "")
        ((Option.bind (verifyAdminToken req.authorization).payload fun p => p.id).getD "")
        (req.status.getD "") b now with h | h
      · left; rw [h]
      · right
        refine ⟨req.id.getD "", req.status.getD "", b, ?_, ?_, ?_, ?_⟩
        · have h3' := h3
          simp at h3'
          exact h3'.2
        · cases hs : req.status with
          | none => simp [hs, truthy] at h3
          | some s => simp
        · rw [h]
        · rw [h]

end AdminBookingStatus

namespace AmenityCheckin

/-- Any request to the QR check-in route either leaves the store as it is or
rewrites one booking to `checked-in`. -/
theorem checkinPOST_effect (req : Request) (now : Nat) (db : Db) :
    (POST req now db).2 = db
    ∨ ∃ id b, Booking.findById db id = some b
        ∧ (POST req now db).1.status = (if (populateUser db b.userId).isSome then 200 else 500)
        ∧ (POST req now db).2 = db.updateBooking id (fun _ => { b with status := "checked-in" }) := by
  rcases req with ⟨q⟩
  cases q with
  | none => left; simp [POST, verifyGuardToken]
  | some qr =>
    cases hp : parseQr qr with
    | none =>
      left
      rw [checkinPOST_unreadable db _ now (fun q hq => by cases hq; exact hp)]
    | some id =>
      cases hb : Booking.findById db id with
      | none =>
        left
        rw [checkinPOST_unknown db qr id now hp hb]
      | some b =>
        by_cases h : b.status ∈ ["confirmed", "approved"]
            ∧ (populateAmenity db b.amenityId).map (fun a => a.status) = some "operational"
            ∧ formatYMD now = formatYMD b.bookingDate
        · right
          exact ⟨id, b, hb, by rw [checkinPOST_accepted db qr id b now hp hb h.1 h.2.1 h.2.2],
            by rw [checkinPOST_accepted db qr id b now hp hb h.1 h.2.1 h.2.2]⟩
        · left
          rw [checkinPOST_precondition db qr id b now hp hb h]

end AmenityCheckin

namespace AmenityCheckout

/-- Any request to the check-out route either leaves the store as it is or
rewrites one booking to `checked-out`. -/
theorem checkoutPOST_effect (req : Request) (now : Nat) (db : Db) :
    (POST req now db).2 = db
    ∨ ∃ id b, Booking.findById db id = some b
        ∧ (POST req now db).1.status = 200
        ∧ (POST req now db).2 = db.updateBooking id (fun _ => { b with status := "checked-out" }) := by
  rcases req with ⟨q⟩
  cases q with
  | none => left; simp [POST, verifyGuardToken, truthy]
  | some id =>
    by_cases hid : ObjectId.isValid id = true
    · cases hb : Booking.findById db id with
      | none =>
        left
        unfold POST
        simp [verifyGuardToken, hb]
        split_ifs <;> rfl
      | some b =>
        by_cases hst : b.status = "checked-in"
        · right
          exact ⟨id, b, hb, by rw [(checkoutPOST_spec db id b now hid hb).1 hst],
            by rw [(checkoutPOST_spec db id b now hid hb).1 hst]⟩
        · left
          rw [(checkoutPOST_spec db id b now hid hb).2 hst]
    · left
      unfold POST
      simp [verifyGuardToken, hid]

end AmenityCheckout

/-! ## Claim C23 -/

/-- C23: an operator check-in of a confirmed booking, an operator check-out of
a checked-in booking and a check-out through `POST /api/amenities/checkout` are
each answered 200 and leave the ledger empty: the entry the operator route
builds carries `verificationMethod: 'manual_admin'`, which the ledger schema
does not list, and the entry the check-out route builds has no `personName`,
so neither validates. No request to either route ever changes the ledger. -/
theorem C23_booking_routes_write_no_ledger_entry :
    (AdminBookingStatus.PUT (Example.adminRequest "checked-in") 777
        (Example.store "confirmed")).1.status = 200
    ∧ (AdminBookingStatus.PUT (Example.adminRequest "checked-in") 777
        (Example.store "confirmed")).2.attendance = []
    ∧ (AdminBookingStatus.PUT (Example.adminRequest "checked-out") 777
        (Example.store "checked-in")).1.status = 200
    ∧ (AdminBookingStatus.PUT (Example.adminRequest "checked-out") 777
        (Example.store "checked-in")).2.attendance = []
    ∧ (AmenityCheckout.POST { bookingId := some "64b000000000000000000001" } 777
        (Example.store "checked-in")).1.status = 200
    ∧ (AmenityCheckout.POST { bookingId := some "64b000000000000000000001" } 777
        (Example.store "checked-in")).2.attendance = []
    ∧ (AdminBookingStatus.attendanceInput "checked-in" (Example.booking "confirmed")
        (some Example.resident) (some Example.pool) Example.operator 777).bind validateAttendance
        = none
    ∧ (AmenityCheckout.attendanceInput (Example.booking "checked-out") "GUARD_002" 777).bind
        validateAttendance = none
    ∧ (∀ (req : AdminBookingStatus.Request) (now : Nat) (db : Db),
        (AdminBookingStatus.PUT req now db).2.attendance = db.attendance)
    ∧ (∀ (req : AmenityCheckout.Request) (now : Nat) (db : Db),
        (AmenityCheckout.POST req now db).2.attendance = db.attendance) := by
  refine ⟨by decide, by decide, by decide, by decide, by decide, by decide, by decide, by decide,
    ?_, ?_⟩
  · intro req now db
    rcases AdminBookingStatus.bookingPUT_effect req now db with h | ⟨id, s, b, -, -, -, h⟩
    · rw [h]
    · rw [h]; rfl
  · intro req now db
    rcases AmenityCheckout.checkoutPOST_effect req now db with h | ⟨id, b, -, -, h⟩
    · rw [h]
    · rw [h]; rfl

/-! ## Claim C24 -/

/-- C24: the resident books the pool for day 10 (answer 201, status
`pending`), the operator confirms the booking (answer 200, status
`confirmed`), and the QR credential of the booking is scanned on day 10
(answer 200, status `checked-in`). After the scan the stored booking has no
entry timestamp and the ledger is empty: the scan time is assigned to the key
`'timestamps.entry'` of the document object, which `save()` does not write, and
the ledger entry names the device `GUARD_DEVICE_001` as `verifiedBy`, which is
no `ObjectId`. -/
theorem C24_scan_records_neither_entry_time_nor_ledger_entry :
    Bookings.POST Example.bookingRequest Example.newBookingId Example.openStore
      = ({ status := 201, booking := some Example.requestedBooking },
         Example.requestedStore "pending")
    ∧ Example.requestedBooking.status = "pending"
    ∧ formatYMD Example.requestedBooking.bookingDate = formatYMD (10 * msPerDay + 100)
    ∧ AdminBookingStatus.PUT Example.confirmRequest (10 * msPerDay + 100)
        (Example.requestedStore "pending")
      = ({ status := 200, booking := some { Example.requestedBooking with status := "confirmed" } },
         Example.requestedStore "confirmed")
    ∧ AmenityCheckin.POST Example.scanRequest (10 * msPerDay + 200)
        (Example.requestedStore "confirmed")
      = ({ status := 200 }, Example.requestedStore "checked-in")
    ∧ (Example.requestedStore "checked-in").bookings.map
        (fun b => (b.status, b.timestamps.entry)) = [("checked-in", none)]
    ∧ (Example.requestedStore "checked-in").attendance = []
    ∧ (AmenityCheckin.attendanceInput { Example.requestedBooking with status := "checked-in" }
        (some Example.resident) (some Example.pool) AmenityCheckin.verifyGuardToken.2
        (10 * msPerDay + 200)).bind validateAttendance = none := by
  refine ⟨by decide, by decide, by decide, by decide, by decide, by decide, by decide, by decide⟩

/-! ## Claim C25 -/

/-- C25: the QR credential of a confirmed booking whose resident no longer
exists is scanned on the day of the booking. The booking is saved as
`checked-in`, the ledger write fails (the entry cannot be built from a `null`
resident) and the answer is 500, not 200. With the resident present the same
scan is answered 200, the ledger write failing as well. On the operator route
and on the check-out route every request that changes the store is answered
200; on the QR check-in route it is answered 200 or 500. -/
theorem C25_orphan_checkin_reports_failure_after_commit :
    AmenityCheckin.POST { qrDataString := some Example.qrToken } (10 * msPerDay + 5)
        (Example.orphanStore "confirmed")
      = ({ status := 500 }, Example.orphanStore "checked-in")
    ∧ AmenityCheckin.attendanceInput (Example.booking "checked-in")
        (populateUser (Example.orphanStore "confirmed") (Example.booking "confirmed").userId)
        (some Example.pool) AmenityCheckin.verifyGuardToken.2 (10 * msPerDay + 5) = none
    ∧ AmenityCheckin.POST { qrDataString := some Example.qrToken } (10 * msPerDay + 5)
        (Example.store "confirmed")
      = ({ status := 200 }, Example.store "checked-in")
    ∧ (Example.store "checked-in").attendance = []
    ∧ (∀ (req : AdminBookingStatus.Request) (now : Nat) (db : Db),
        (AdminBookingStatus.PUT req now db).2 = db
        ∨ (AdminBookingStatus.PUT req now db).1.status = 200)
    ∧ (∀ (req : AmenityCheckout.Request) (now : Nat) (db : Db),
        (AmenityCheckout.POST req now db).2 = db
        ∨ (AmenityCheckout.POST req now db).1.status = 200)
    ∧ (∀ (req : AmenityCheckin.Request) (now : Nat) (db : Db),
        (AmenityCheckin.POST req now db).2 = db
        ∨ (AmenityCheckin.POST req now db).1.status = 200
        ∨ (AmenityCheckin.POST req now db).1.status = 500) := by
  refine ⟨by decide, by decide, by decide, by decide, ?_, ?_, ?_⟩
  · intro req now db
    rcases AdminBookingStatus.bookingPUT_effect req now db with h | ⟨id, s, b, -, -, h, -⟩
    · exact Or.inl h
    · exact Or.inr h
  · intro req now db
    rcases AmenityCheckout.checkoutPOST_effect req now db with h | ⟨id, b, -, h, -⟩
    · exact Or.inl h
    · exact Or.inr h
  · intro req now db
    rcases AmenityCheckin.checkinPOST_effect req now db with h | ⟨id, b, -, h, -⟩
    · exact Or.inl h
    · right
      rw [h]
      cases populateUser db b.userId <;> simp

/-! ## Claim C26 -/

/-- C26: a checked-in booking has no entry timestamp. A check-out through the
operator route at instant 777 is answered 200 and stores 777 as entry and as
exit timestamp; the same check-out through `POST /api/amenities/checkout` is
answered 200, stores the status `checked-out` and leaves both timestamps
empty: the route has no statement that fills a missing entry timestamp. When
the entry timestamp 500 is recorded, both routes leave it as it is. -/
theorem C26_checkout_scan_does_not_fill_entry_timestamp :
    (Example.booking "checked-in").timestamps.entry = none
    ∧ (AdminBookingStatus.PUT (Example.adminRequest "checked-out") 777
        (Example.store "checked-in")).1.status = 200
    ∧ (AdminBookingStatus.PUT (Example.adminRequest "checked-out") 777
        (Example.store "checked-in")).2.bookings.map (fun b => (b.status, b.timestamps))
        = [("checked-out", { entry := some 777, exit := some 777 })]
    ∧ (AmenityCheckout.POST { bookingId := some "64b000000000000000000001" } 777
        (Example.store "checked-in")).1.status = 200
    ∧ (AmenityCheckout.POST { bookingId := some "64b000000000000000000001" } 777
        (Example.store "checked-in")).2.bookings.map (fun b => (b.status, b.timestamps))
        = [("checked-out", { entry := none, exit := none })]
    ∧ (AdminBookingStatus.PUT (Example.adminRequest "checked-out") 777
        Example.stampedStore).2.bookings.map (fun b => (b.status, b.timestamps))
        = [("checked-out", { entry := some 500, exit := some 777 })]
    ∧ (AmenityCheckout.POST { bookingId := some "64b000000000000000000001" } 777
        Example.stampedStore).2.bookings.map (fun b => (b.status, b.timestamps))
        = [("checked-out", { entry := some 500, exit := none })] := by
  decide

/-! ## The pending deliveries read -/

namespace PendingDeliveries

theorem findPending_mem (db : Db) (soc uid : String) (now : Nat) :
    ∀ e ∈ findPending db soc uid now,
      e ∈ db.attendance ∧ e.societyId = soc ∧ e.userId = some uid
        ∧ e.source = "delivery_point" ∧ e.type = "entry" ∧ now - 12 * msPerHour ≤ e.timestamp := by
  intro e he
  unfold findPending at he
  have h1 := List.mem_of_mem_take he
  have h2 := (List.perm_insertionSort _ _).subset h1
  simpa [isPending, recentEntryWindow, and_assoc] using h2

theorem findPending_sorted (db : Db) (soc uid : String) (now : Nat) :
    ((db.attendance.filter (isPending soc uid now)).insertionSort
      (fun a b => b.timestamp ≤ a.timestamp)).Sorted (fun a b => b.timestamp ≤ a.timestamp) := by
  haveI : IsTotal AttendanceLog (fun a b => b.timestamp ≤ a.timestamp) :=
    ⟨fun a b => Nat.le_total b.timestamp a.timestamp⟩
  haveI : IsTrans AttendanceLog (fun a b => b.timestamp ≤ a.timestamp) :=
    ⟨fun _ _ _ hab hbc => Nat.le_trans hbc hab⟩
  exact List.sorted_insertionSort _ _

theorem findPending_eq_spec (db : Db) (soc uid : String) (now : Nat)
    (hpast : ∀ e ∈ db.attendance, e.timestamp ≤ now) :
    findPending db soc uid now = pendingSpec db soc uid now := by
  unfold findPending pendingSpec
  congr 2
  apply List.filter_congr
  intro e he
  simp [isPending, recentEntryWindow, hpast e he]

end PendingDeliveries

/-! ## Claim C27 -/

/-- C27: for a resident whose token carries well-formed ids,
`GET /api/user/deliveries/pending` answers 200, changes nothing, and returns the
list `findPending`: every returned entry is a stored entry of the resident's
society whose `userId` is the resident, whose source is `delivery_point`, whose
type is `entry` and whose timestamp is not older than twelve hours; the list is
the first 5 (or all, when fewer) of the matching entries put in descending
order of timestamp; and on a ledger whose entries are not dated after the
request it is the list the claim words (`pendingSpec`). -/
theorem C27_pending_deliveries_of_the_resident (uid soc : String) (now : Nat) (db : Db)
    (huid : ObjectId.isValid uid = true) (hsoc : ObjectId.isValid soc = true) :
    PendingDeliveries.GET (PendingDeliveries.residentRequest uid soc) now db
      = ({ status := 200, pendingDeliveries := PendingDeliveries.findPending db soc uid now }, db)
    ∧ (∀ e ∈ PendingDeliveries.findPending db soc uid now,
        e ∈ db.attendance ∧ e.societyId = soc ∧ e.userId = some uid
          ∧ e.source = "delivery_point" ∧ e.type = "entry"
          ∧ now - 12 * PendingDeliveries.msPerHour ≤ e.timestamp)
    ∧ (∃ rest,
        (PendingDeliveries.findPending db soc uid now ++ rest).Perm
          (db.attendance.filter (fun e =>
            e.societyId == soc && e.userId == some uid && e.source == "delivery_point"
              && e.type == "entry"
              && decide (now - 12 * PendingDeliveries.msPerHour ≤ e.timestamp)))
        ∧ (PendingDeliveries.findPending db soc uid now ++ rest).Sorted
            (fun a b => b.timestamp ≤ a.timestamp)
        ∧ (rest ≠ [] → (PendingDeliveries.findPending db soc uid now).length = 5))
    ∧ (PendingDeliveries.findPending db soc uid now).length ≤ 5
    ∧ ((∀ e ∈ db.attendance, e.timestamp ≤ now) →
        PendingDeliveries.findPending db soc uid now
          = PendingDeliveries.pendingSpec db soc uid now) := by
  have huid' := ObjectId.isValid_ne_empty huid
  have hsoc' := ObjectId.isValid_ne_empty hsoc
  refine ⟨?_, PendingDeliveries.findPending_mem db soc uid now, ?_, ?_,
    PendingDeliveries.findPending_eq_spec db soc uid now⟩
  · simp [PendingDeliveries.GET, PendingDeliveries.residentRequest, truthy, huid, hsoc, huid',
      hsoc']
  · refine ⟨((db.attendance.filter (PendingDeliveries.isPending soc uid now)).insertionSort
      (fun a b => b.timestamp ≤ a.timestamp)).drop 5, ?_, ?_, ?_⟩
    · unfold PendingDeliveries.findPending
      rw [List.take_append_drop]
      exact List.perm_insertionSort _ _
    · unfold PendingDeliveries.findPending
      rw [List.take_append_drop]
      exact PendingDeliveries.findPending_sorted db soc uid now
    · intro hrest
      unfold PendingDeliveries.findPending
      rw [List.length_take]
      have : 5 < ((db.attendance.filter (PendingDeliveries.isPending soc uid now)).insertionSort
          (fun a b => b.timestamp ≤ a.timestamp)).length := by
        by_contra hlt
        exact hrest (List.drop_eq_nil_of_le (Nat.le_of_not_lt hlt))
      omega
  · unfold PendingDeliveries.findPending
    exact List.length_take_le _ _

theorem C27_pending_deliveries_of_the_resident_witness :
    PendingDeliveries.GET
        (PendingDeliveries.residentRequest Example.resident._id Example.society)
        (20 * PendingDeliveries.msPerHour) Example.deliveryStore
      = ({ status := 200,
           pendingDeliveries :=
             PendingDeliveries.findPending Example.deliveryStore Example.society
               Example.resident._id (20 * PendingDeliveries.msPerHour) },
         Example.deliveryStore)
    ∧ (PendingDeliveries.findPending Example.deliveryStore Example.society
        Example.resident._id (20 * PendingDeliveries.msPerHour)).map
          (fun e => (e.userId, e.societyId, e.timestamp / PendingDeliveries.msPerHour))
        = [(some Example.resident._id, Example.society, 16),
           (some Example.resident._id, Example.society, 15),
           (some Example.resident._id, Example.society, 13),
           (some Example.resident._id, Example.society, 11),
           (some Example.resident._id, Example.society, 10)] :=
  ⟨(C27_pending_deliveries_of_the_resident Example.resident._id Example.society
    (20 * PendingDeliveries.msPerHour) Example.deliveryStore (by decide) (by decide)).1,
   by decide⟩

/-! ## Two check-in requests for one booking -/

theorem updateFirst_idem {α : Type} (p : α → Bool) (c : α) (hc : p c = true) (l : List α) :
    updateFirst p (fun _ => c) (updateFirst p (fun _ => c) l) = updateFirst p (fun _ => c) l := by
  induction l with
  | nil => rfl
  | cons x xs ih =>
    by_cases hx : p x = true
    · simp [updateFirst, hx, hc]
    · simp [updateFirst, hx, ih]

namespace AmenityCheckin

/-- The handler is the read of step 4 followed by `afterFind`. -/
theorem POST_eq_afterFind (db : Db) (qr : JsonText) (id : String) (b : Booking) (now : Nat)
    (hparse : parseQr qr = some id) (hb : Booking.findById db id = some b) :
    POST { qrDataString := some qr } now db
      = afterFind b (populateUser db b.userId) (populateAmenity db b.amenityId)
          verifyGuardToken.2 now db := by
  unfold POST
  simp [verifyGuardToken, parseQr_ne_empty hparse, hparse, hb]

/-- A document that was read as confirmed passes the checks whatever the store
holds when `save()` is reached. -/
theorem afterFind_accepted (b : Booking) (user : Option User) (amenity : Option Amenity)
    (now : Nat) (db : Db)
    (hst : b.status ∈ ["confirmed", "approved"])
    (ham : amenity.map (fun a => a.status) = some "operational")
    (hday : formatYMD now = formatYMD b.bookingDate) :
    afterFind b user amenity verifyGuardToken.2 now db
      = ({ status := if user.isSome then 200 else 500 },
         db.updateBooking b._id (fun _ => { b with status := "checked-in" })) := by
  unfold afterFind
  simp only [hst, ham, hday, not_true_eq_false, ne_eq, if_false]
  simp only [BookingDoc.save, BookingDoc.setStatus, BookingDoc.setOwnProp, bookingStatusEnum,
    verifyGuardToken, checkinAttendance_swallowed]
  simp
  cases user <;> simp

end AmenityCheckin

/-! ## Claim C28 -/

/-- C28, as the code has it: the check-in handler reads the booking
(`findById`, step 4) and writes it later (`save()`, step 5). Served one after
the other, the first of two scans of a confirmed booking is answered 200 and
the second 400. When the second request has read the booking before the first
one saves, its checks run on the document it read, so it is answered 200 as
well. In both cases the store ends as one check-in leaves it, with the ledger
as it was. -/
theorem C28_check_and_write_are_separate_steps (db : Db) (qr : JsonText) (id : String)
    (b : Booking) (u : User) (now1 now2 : Nat)
    (hparse : AmenityCheckin.parseQr qr = some id) (hb : Booking.findById db id = some b)
    (hst : b.status ∈ ["confirmed", "approved"])
    (ham : (populateAmenity db b.amenityId).map (fun a => a.status) = some "operational")
    (hu : populateUser db b.userId = some u)
    (hday1 : formatYMD now1 = formatYMD b.bookingDate)
    (hday2 : formatYMD now2 = formatYMD b.bookingDate) :
    AmenityCheckin.POST { qrDataString := some qr } now1 db
      = AmenityCheckin.afterFind b (some u) (populateAmenity db b.amenityId)
          AmenityCheckin.verifyGuardToken.2 now1 db
    ∧ (AmenityCheckin.POST { qrDataString := some qr } now1 db).1.status = 200
    ∧ (AmenityCheckin.POST { qrDataString := some qr } now2
        (AmenityCheckin.POST { qrDataString := some qr } now1 db).2).1.status = 400
    ∧ (AmenityCheckin.afterFind b (some u) (populateAmenity db b.amenityId)
        AmenityCheckin.verifyGuardToken.2 now2
        (AmenityCheckin.POST { qrDataString := some qr } now1 db).2).1.status = 200
    ∧ (AmenityCheckin.afterFind b (some u) (populateAmenity db b.amenityId)
        AmenityCheckin.verifyGuardToken.2 now2
        (AmenityCheckin.POST { qrDataString := some qr } now1 db).2).2
        = db.updateBooking id (fun _ => { b with status := "checked-in" })
    ∧ (AmenityCheckin.POST { qrDataString := some qr } now2
        (AmenityCheckin.POST { qrDataString := some qr } now1 db).2).2
        = db.updateBooking id (fun _ => { b with status := "checked-in" })
    ∧ (db.updateBooking id (fun _ => { b with status := "checked-in" })).attendance
        = db.attendance := by
  have hid := Booking.findById_booking_id hb
  have h1 := AmenityCheckin.checkinPOST_accepted db qr id b now1 hparse hb hst ham hday1
  simp only [hu, Option.isSome_some, if_true] at h1
  have hfind : Booking.findById (db.updateBooking id (fun _ => { b with status := "checked-in" })) id
      = some { b with status := "checked-in" } :=
    Booking.findById_updateBooking (fun _ => { b with status := "checked-in" }) hb rfl
  have hsecond : AmenityCheckin.POST { qrDataString := some qr } now2
      (db.updateBooking id (fun _ => { b with status := "checked-in" }))
      = ({ status := 400 }, db.updateBooking id (fun _ => { b with status := "checked-in" })) := by
    apply AmenityCheckin.checkinPOST_precondition _ qr id _ now2 hparse hfind
    intro h
    have := h.1
    simp at this
  refine ⟨?_, ?_, ?_, ?_, ?_, ?_, rfl⟩
  rotate_left 5
  · rw [h1, hsecond]
  · rw [AmenityCheckin.POST_eq_afterFind db qr id b now1 hparse hb, hu]
  · rw [h1]
  · rw [h1, hsecond]
  · rw [h1, AmenityCheckin.afterFind_accepted b (some u) _ now2 _ hst ham hday2]
    rfl
  · rw [h1, AmenityCheckin.afterFind_accepted b (some u) _ now2 _ hst ham hday2]
    simp only [hid]
    unfold Db.updateBooking
    simp only
    rw [updateFirst_idem _ _ (by simp [hid])]

theorem C28_check_and_write_are_separate_steps_witness :
    (AmenityCheckin.POST { qrDataString := some Example.qrToken } (10 * msPerDay + 6)
        (AmenityCheckin.POST { qrDataString := some Example.qrToken } (10 * msPerDay + 5)
          (Example.store "confirmed")).2).1.status = 400
    ∧ (AmenityCheckin.afterFind (Example.booking "confirmed") (some Example.resident)
        (populateAmenity (Example.store "confirmed") (Example.booking "confirmed").amenityId)
        AmenityCheckin.verifyGuardToken.2 (10 * msPerDay + 6)
        (AmenityCheckin.POST { qrDataString := some Example.qrToken } (10 * msPerDay + 5)
          (Example.store "confirmed")).2).1.status = 200 :=
  have h := C28_check_and_write_are_separate_steps (Example.store "confirmed") Example.qrToken
    "64b000000000000000000001" (Example.booking "confirmed") Example.resident
    (10 * msPerDay + 5) (10 * msPerDay + 6) (by decide) (by decide) (by decide) (by decide)
    (by decide) (by decide) (by decide)
  ⟨h.2.2.1, h.2.2.2.1⟩

/-- C28: two scans of the QR credential of a confirmed booking, the second of
which has read the booking (status `confirmed`) before the first one saves:
both are answered 200. -/
theorem C28_two_interleaved_scans_both_succeed :
    Booking.findById (Example.store "confirmed") "64b000000000000000000001"
      = some (Example.booking "confirmed")
    ∧ (Example.booking "confirmed").status = "confirmed"
    ∧ (AmenityCheckin.afterFind (Example.booking "confirmed") (some Example.resident)
        (some Example.pool) AmenityCheckin.verifyGuardToken.2 (10 * msPerDay + 5)
        (Example.store "confirmed")).1.status = 200
    ∧ (AmenityCheckin.afterFind (Example.booking "confirmed") (some Example.resident)
        (some Example.pool) AmenityCheckin.verifyGuardToken.2 (10 * msPerDay + 6)
        (AmenityCheckin.afterFind (Example.booking "confirmed") (some Example.resident)
          (some Example.pool) AmenityCheckin.verifyGuardToken.2 (10 * msPerDay + 5)
          (Example.store "confirmed")).2).1.status = 200 := by
  decide

/-! ## Statuses of stored bookings -/

theorem mem_updateFirst {α : Type} (p : α → Bool) (f : α → α) (l : List α) (x : α)
    (h : x ∈ updateFirst p f l) : x ∈ l ∨ ∃ a ∈ l, x = f a := by
  induction l with
  | nil => simp [updateFirst] at h
  | cons y ys ih =>
    unfold updateFirst at h
    split_ifs at h with hp
    · rcases List.mem_cons.mp h with h | h
      · exact Or.inr ⟨y, List.mem_cons_self _ _, h⟩
      · exact Or.inl (List.mem_cons_of_mem _ h)
    · rcases List.mem_cons.mp h with h | h
      · exact Or.inl (h ▸ List.mem_cons_self _ _)
      · rcases ih h with h | ⟨a, ha, hx⟩
        · exact Or.inl (List.mem_cons_of_mem _ h)
        · exact Or.inr ⟨a, List.mem_cons_of_mem _ ha, hx⟩

/-- A rewrite of one booking whose result has a status of the list keeps all
stored statuses in the list. -/
theorem updateBooking_statuses (db : Db) (id : String) (f : Booking → Booking)
    (h : ∀ b ∈ db.bookings, b.status ∈ implementedStatuses)
    (hf : ∀ b, (f b).status ∈ implementedStatuses) :
    ∀ b ∈ (db.updateBooking id f).bookings, b.status ∈ implementedStatuses := by
  intro b hb
  rcases mem_updateFirst _ _ _ _ hb with hb | ⟨a, -, rfl⟩
  · exact h b hb
  · exact hf a

/-- Each request keeps the statuses of the stored bookings in the list. -/
theorem BookingOp.run_statuses (db : Db) (op : BookingOp)
    (h : ∀ b ∈ db.bookings, b.status ∈ implementedStatuses) :
    ∀ b ∈ (BookingOp.run db op).bookings, b.status ∈ implementedStatuses := by
  cases op with
  | create req newId =>
    unfold BookingOp.run
    dsimp only
    rcases Bookings.POST_cases req newId db with ⟨-, hdb⟩ | ⟨a, c, -, -, -, -, -, hc, -, hpost⟩
    · rw [hdb]; exact h
    · rw [hpost]
      intro b hb
      rcases List.mem_append.mp hb with hb | hb
      · exact h b hb
      · rw [List.mem_singleton.mp hb, hc]
        decide
  | adminStatus req now =>
    unfold BookingOp.run
    dsimp only
    rcases AdminBookingStatus.bookingPUT_effect req now db with hdb | ⟨id, s, b0, hs, -, -, hput⟩
    · rw [hdb]; exact h
    · rw [hput]
      apply updateBooking_statuses db id _ h
      intro b
      have : ((AdminBookingStatus.prepareUpdate s b0 now).applyTo b).status = s :=
        AdminBookingStatus.prepareUpdate_status s b0 now
      rw [this]
      revert hs
      simp only [AdminBookingStatus.ALLOWED_BOOKING_STATUSES_BY_ADMIN, implementedStatuses,
        List.mem_cons, List.mem_singleton, List.not_mem_nil, or_false]
      tauto
  | checkin req now =>
    unfold BookingOp.run
    dsimp only
    rcases AmenityCheckin.checkinPOST_effect req now db with hdb | ⟨id, b0, -, -, hpost⟩
    · rw [hdb]; exact h
    · rw [hpost]
      exact updateBooking_statuses db id _ h (fun _ => by simp [implementedStatuses])
  | checkout req now =>
    unfold BookingOp.run
    dsimp only
    rcases AmenityCheckout.checkoutPOST_effect req now db with hdb | ⟨id, b0, -, -, hpost⟩
    · rw [hdb]; exact h
    · rw [hpost]
      exact updateBooking_statuses db id _ h (fun _ => by simp [implementedStatuses])

theorem runBookingOps_statuses (ops : List BookingOp) (db : Db)
    (h : ∀ b ∈ db.bookings, b.status ∈ implementedStatuses) :
    ∀ b ∈ (runBookingOps db ops).bookings, b.status ∈ implementedStatuses := by
  induction ops generalizing db with
  | nil => exact h
  | cons op ops ih =>
    unfold runBookingOps
    rw [List.foldl_cons]
    exact ih (BookingOp.run db op) (BookingOp.run_statuses db op h)

/-! ## Claim C29 -/

/-- C29: from a store whose bookings (if any) have a status among `pending`,
`confirmed`, `checked-in`, `checked-out`, `cancelled` and `no_show`, every
sequence of requests to the four routes that write bookings leads to a store
whose bookings all have a status of that list, so none is `approved` or
`completed`; and a status request of an authenticated operator that names
`approved`, `pending` or `completed` is answered 400 and changes nothing,
whatever the booking id (401 when the token carries no id or no society). -/
theorem C29_reachable_statuses (db0 : Db) (ops : List BookingOp)
    (h0 : ∀ b ∈ db0.bookings, b.status ∈ implementedStatuses) :
    (∀ b ∈ (runBookingOps db0 ops).bookings, b.status ∈ implementedStatuses)
    ∧ (∀ b ∈ (runBookingOps db0 ops).bookings, b.status ≠ "approved" ∧ b.status ≠ "completed")
    ∧ (∀ (op soc s : String) (id : Option String) (now : Nat) (db : Db),
        s ∈ ["approved", "pending", "completed"] →
        AdminBookingStatus.PUT
            { authorization := .verified { id := some op, societyId := some soc },
              id := id, status := some s } now db
          = ({ status := if op = "" ∨ soc = "" then 401 else 400 }, db)) := by
  have hinv := runBookingOps_statuses ops db0 h0
  refine ⟨hinv, ?_, ?_⟩
  · intro b hb
    have := hinv b hb
    constructor
    · intro h
      rw [h] at this
      revert this
      decide
    · intro h
      rw [h] at this
      revert this
      decide
  · intro op soc s id now db hs
    have hs' : s ∉ AdminBookingStatus.ALLOWED_BOOKING_STATUSES_BY_ADMIN := by
      simp only [List.mem_cons, List.mem_singleton, List.not_mem_nil, or_false] at hs
      rcases hs with rfl | rfl | rfl <;> decide
    by_cases hop : op = ""
    · simp [AdminBookingStatus.PUT, AdminBookingStatus.verifyAdminToken, truthy, hop]
    · by_cases hsoc : soc = ""
      · simp [AdminBookingStatus.PUT, AdminBookingStatus.verifyAdminToken, truthy, hsoc]
      · simp [AdminBookingStatus.PUT, AdminBookingStatus.verifyAdminToken, truthy, hop, hsoc, hs']

theorem C29_reachable_statuses_witness :
    (runBookingOps (Example.store "confirmed") Example.visit).bookings.map (fun b => b.status)
      = ["confirmed", "checked-out"]
    ∧ ∀ b ∈ (runBookingOps (Example.store "confirmed") Example.visit).bookings,
        b.status ∈ implementedStatuses :=
  ⟨by decide,
   (C29_reachable_statuses (Example.store "confirmed") Example.visit (by decide)).1⟩

/-! ## Claim C30 -/

/-- C30: an approved guest of day 10 expects the plate `KA02CD5678`, which no
resident owns. As the source wires the route, the first entry scan of the plate
on day 10 is answered 500 and does not promote the guest. Once the operator has
checked the guest in, a later entry scan of the plate on the same day is
answered 500 as well and leaves the store as it was: no vehicle record and no
ledger entry is created. -/
theorem C30_later_guest_scan_as_wired_creates_nothing :
    VehicleScan.POST Example.guestScan (10 * msPerDay + 5) Example.guestGateStore
        = ({ status := 500 }, Example.guestGateStore)
    ∧ Example.guestGateStore.guests.map (fun g => g.status) = ["approved"]
    ∧ (AdminGuestStatus.PUT
        (AdminGuestStatus.operatorRequest Example.operator (some Example.society)
          (Example.guest "approved")._id "checked-in")
        (10 * msPerDay + 7) Example.guestGateStore).2.guests.map (fun g => g.status)
        = ["checked-in"]
    ∧ VehicleScan.POST Example.guestScan (10 * msPerDay + 9)
        (AdminGuestStatus.PUT
          (AdminGuestStatus.operatorRequest Example.operator (some Example.society)
            (Example.guest "approved")._id "checked-in")
          (10 * msPerDay + 7) Example.guestGateStore).2
        = ({ status := 500 },
           (AdminGuestStatus.PUT
             (AdminGuestStatus.operatorRequest Example.operator (some Example.society)
               (Example.guest "approved")._id "checked-in")
             (10 * msPerDay + 7) Example.guestGateStore).2)
    ∧ (AdminGuestStatus.PUT
        (AdminGuestStatus.operatorRequest Example.operator (some Example.society)
          (Example.guest "approved")._id "checked-in")
        (10 * msPerDay + 7) Example.guestGateStore).2.vehicleEntries = []
    ∧ (AdminGuestStatus.PUT
        (AdminGuestStatus.operatorRequest Example.operator (some Example.society)
          (Example.guest "approved")._id "checked-in")
        (10 * msPerDay + 7) Example.guestGateStore).2.attendance = [] := by
  decide

end HassleFree
